import Mathlib

/-!
# Chat / notification delivery core of the dating-application backend

A shallow embedding of `backend/delivery/handlers.go` (the two WebSocket
handlers `MessageHandler.HandleChat` and
`NotificationsHandler.GetNotifications`, the HTTP handlers `CreateChat` and
`DeleteChat`, the admin-only handlers of complaints and queries), of the
notification cache of `backend/repository/notifications_repository.go`, of
`ComplaintRepo.HandleComplaint` (`backend/repository/complaint_repo.go`), of
`GetStatisticsCompl.GetStatistics` (`backend/usecase/get_statistics.go`), of
`UserServiceServer.GetPremium` (`backend/users_micro/usecase/get_premium.go`),
of `GetUrlForMetrics` (`backend/delivery/utils.go`), and of the parts of
`backend/model/models.go` they use.

Conventions of the embedding

* Go `int` values are `Int`; no arithmetic is performed on them by the code
  embedded here, the only width-sensitive operation is the conversion
  `uint32(x)`, embedded as `x % 2^32`.
* `time.Time` is the instant it denotes, an `Int`; `Before` is `<`.
* Go `error` values are the text of the error.
* A Go `map[int]model.Message` is an association list with pairwise
  distinct keys. The order in which `range` visits a map is not fixed by the
  language, so it is an explicit argument of the code that ranges over a map.
* Use cases reached through the handler structs (`GetMessagesUC`, ...) are
  calls into other packages; what they answer at a given moment is given by an
  `Env`. The handlers are embedded as functions from what they are given
  (request, answers of the use cases, results of `conn.ReadMessage`) to the
  list of effects they perform, in program order. A statement started with
  `go` contributes the effect `Effect.go` naming the goroutine; what the
  goroutine does is a function of its own.
* Logger, metric and `fmt.Println` calls are left out of the effect lists.
* The Redis server is the state `Redis` (lists and times to live per key);
  the code that talks to it is a function of that state. Whether a database
  or Redis call fails is an argument of the embedded function.
* The tables `complaints` and `blacklist` are the state `ComplaintDB`; a
  transaction works on a copy that the deferred `Rollback` discards unless
  `Commit` succeeded.
* `time.Now()` and `CURRENT_TIMESTAMP` are arguments of the code that reads them.
-/

namespace Handlers

/-! ## `model` -/

/-- Embedding of `model.Message`. -/
structure Message where
  MessageID : Int
  SenderID : Int
  Text : String
  Status : Int
  CreatedAt : Int
deriving DecidableEq, Repr

/-- Embedding of `model.NotificationSend`. -/
structure NotificationSend where
  NotificationID : Int
  Read : Int
  NotifType : String
  Content : String
deriving DecidableEq, Repr

/-- Embedding of `model.CreatePayload`. -/
structure CreatePayload where
  ChatID : Int
  UserID : Int
  Content : String
deriving DecidableEq, Repr

/-- Embedding of `model.DeletePayload`. -/
structure DeletePayload where
  ChatID : Int
  MessageID : Int
deriving DecidableEq, Repr

/-- Embedding of `model.ReadPayload`. -/
structure ReadPayload where
  ChatID : Int
deriving DecidableEq, Repr

/-- Embedding of `model.DeleteNotifPayload`. -/
structure DeleteNotifPayload where
  NotifID : Int
deriving DecidableEq, Repr

/-- Embedding of `model.FlowersPayload`. -/
structure FlowersPayload where
  UserID : Int
deriving DecidableEq, Repr

/-- Embedding of `model.ReadNotifPayload`. -/
structure ReadNotifPayload where
  NotifType : String
deriving DecidableEq, Repr

/-- A `json.RawMessage`. The decoders generated by easyjson are not among the
sources, so a raw payload is represented by what `easyjson.Unmarshal` yields
for it at each payload type (`none`: the call returns an error). -/
structure RawMessage where
  asCreatePayload : Option CreatePayload
  asDeletePayload : Option DeletePayload
  asReadPayload : Option ReadPayload
  asFlowersPayload : Option FlowersPayload
  asDeleteNotifPayload : Option DeleteNotifPayload
  asReadNotifPayload : Option ReadNotifPayload
deriving DecidableEq, Repr

/-- Embedding of `model.WSMessage`; the field `Type` is named `Type_` here. -/
structure WSMessage where
  Type_ : String
  Payload : RawMessage
deriving DecidableEq, Repr

/-! ## The message map of `HandleChat` (handlers.go 368-385) -/

/-- A Go `map[int]model.Message`: entries with pairwise distinct keys. -/
abbrev MsgMap := List (Int × Message)

/-- The test `_, exists := msgMap[k]`. -/
def MsgMap.exists (m : MsgMap) (k : Int) : Bool :=
  m.any (fun e => decide (e.1 = k))

/-- The assignment `msgMap[k] = v`: overwrite the entry of `k`, or add one. -/
def MsgMap.assign : MsgMap → Int → Message → MsgMap
  | [], k, v => [(k, v)]
  | e :: rest, k, v =>
    if e.1 = k then (k, v) :: rest else e :: MsgMap.assign rest k v

/-- The values held by the map, one per entry. -/
def MsgMap.values (m : MsgMap) : List Message :=
  m.map Prod.snd

/-- First loop, lines 370-372: `for _, m := range messages { msgMap[m.MessageID] = m }`. -/
def seedDurable (messages : List Message) (msgMap : MsgMap) : MsgMap :=
  messages.foldl (fun acc m => acc.assign m.MessageID m) msgMap

/-- Second loop, lines 373-377: a cached message is stored only when its
identifier is not yet a key. -/
def addCached (cached : List Message) (msgMap : MsgMap) : MsgMap :=
  cached.foldl
    (fun acc m => if acc.exists m.MessageID then acc else acc.assign m.MessageID m)
    msgMap

/-- The contents of `msgMap` when line 378 is reached. -/
def buildMsgMap (messages new_messages_first new_messages_second : List Message) : MsgMap :=
  addCached (new_messages_first ++ new_messages_second) (seedDurable messages [])

/-- The comparison handed to `sort.Slice`, lines 383-385. -/
def createdBefore (a b : Message) : Bool :=
  decide (a.CreatedAt < b.CreatedAt)

/-- Inner loop of the insertion sort of Go's `sort` package
(`for j := i; j > a && less(j, j-1); j-- { swap(j, j-1) }`): the element `x`
moves left past every element it is less than. The sorted prefix is given
nearest element first. -/
def sinkLeft {α : Type} (less : α → α → Bool) (x : α) : List α → List α
  | [] => [x]
  | y :: ys => if less x y then y :: sinkLeft less x ys else x :: y :: ys

/-- Insertion sort of Go's `sort` package (`insertionSortLessFunc`), the
algorithm `sort.Slice` runs on slices shorter than 12 elements. -/
def insertionSortLessFunc {α : Type} (less : α → α → Bool) (data : List α) : List α :=
  (data.foldl (fun sortedPrefix x => sinkLeft less x sortedPrefix) []).reverse

/-- What `sort.Slice` guarantees of the slice it leaves behind for any length:
the same elements, and no element less than one placed before it. The
relative order of elements neither of which is less than the other is not
fixed (`sort.Slice` is not stable). -/
def IsSortSliceResult {α : Type} (less : α → α → Bool) (data out : List α) : Prop :=
  out.Perm data ∧ out.Pairwise (fun a b => less b a = false)

/-- Lines 368-385 of `HandleChat`: build the map, range over it in the order
`rangeOrder` and sort by `CreatedAt`. `sort.Slice` is run as the insertion
sort it uses on short slices; on slices of 12 elements or more it runs another
in-place algorithm, with the guarantee `IsSortSliceResult` as well. -/
def mergeMessages (rangeOrder : List Message → List Message)
    (messages new_messages_first new_messages_second : List Message) : List Message :=
  insertionSortLessFunc createdBefore
    (rangeOrder (buildMsgMap messages new_messages_first new_messages_second).values)

/-- The slices `allMessages` that lines 368-385 can leave behind. Whatever the
order in which `range` visited the map, `sort.Slice` is handed a permutation
of the values of the map, and what it guarantees does not depend on the order
of what it is handed. -/
def IsMergedView (messages new_messages_first new_messages_second out : List Message) : Prop :=
  IsSortSliceResult createdBefore
    (buildMsgMap messages new_messages_first new_messages_second).values out

instance (less : Message → Message → Bool) (data out : List Message) :
    Decidable (IsSortSliceResult less data out) :=
  inferInstanceAs (Decidable (out.Perm data ∧ out.Pairwise (fun a b => less b a = false)))

instance (messages c1 c2 out : List Message) : Decidable (IsMergedView messages c1 c2 out) :=
  inferInstanceAs (Decidable (IsSortSliceResult createdBefore (buildMsgMap messages c1 c2).values out))

/-- The order the specification asks of two adjacent entries of the merged
view: earlier `CreatedAt`, or equal `CreatedAt` and smaller `MessageID`. -/
def SpecAdjacent (a b : Message) : Prop :=
  a.CreatedAt < b.CreatedAt ∨ (a.CreatedAt = b.CreatedAt ∧ a.MessageID < b.MessageID)

instance (a b : Message) : Decidable (SpecAdjacent a b) :=
  inferInstanceAs (Decidable
    (a.CreatedAt < b.CreatedAt ∨ (a.CreatedAt = b.CreatedAt ∧ a.MessageID < b.MessageID)))

/-- Two adjacent entries in ascending `CreatedAt` order, equal timestamps allowed. -/
def CreatedAdjacent (a b : Message) : Prop :=
  a.CreatedAt < b.CreatedAt ∨ a.CreatedAt = b.CreatedAt

instance (a b : Message) : Decidable (CreatedAdjacent a b) :=
  inferInstanceAs (Decidable (a.CreatedAt < b.CreatedAt ∨ a.CreatedAt = b.CreatedAt))

/-! ## Effects of the handlers -/

/-- A value stored in a frame `map[string]interface{}`. -/
inductive Value where
  | str (s : String)
  | int (n : Int)
  | messages (ms : List Message)
  | notifications (ns : List NotificationSend)
deriving DecidableEq, Repr

/-- A frame handed to `conn.WriteJSON`: the entries of the map literal. -/
abbrev Frame := List (String × Value)

/-- The frame `{"error": text}`. -/
def errorFrame (text : String) : Frame :=
  [("error", Value.str text)]

/-- The goroutines started by the two handlers, with the variables they capture. -/
inductive Task where
  | chatOutbound (chatID : Int) (profileId : Nat)
  | notificationsOutbound (profileId : Nat)
  | createMessages (payload : CreatePayload)
  | deleteMessage (payload : DeletePayload)
  | updateMessageStatus (payload : ReadPayload) (profileId : Nat)
  | sendFlowers (payload : FlowersPayload) (profileId : Nat)
  | deleteNotifications (payload : DeleteNotifPayload) (profileId : Nat)
  | updateNotificatons (payload : ReadNotifPayload) (profileId : Nat)
deriving DecidableEq, Repr

/-- What a handler does that is visible outside it.

* `respond c m` is `MakeEasyJSONResponse(w, c, &model.ErrorResponse{Message: m})`,
  a write to the HTTP response writer `w` (not to the WebSocket connection);
* `writeJSON f` is `conn.WriteJSON(f)`, a frame on the WebSocket connection;
* `getChatParticipants` ... `updateMessageStatus` are calls of the use cases;
* `closeDone` is `close(done)`; `pubsubClose`, `cancel`, `connClose` are the
  deferred calls, run when the handler returns;
* `getNotifications` ... `deleteChat` are further calls of use cases, `publish`
  is `Subscriber.Publish`;
* `panicNilConn` is a method call on a nil `*websocket.Conn`, which panics. -/
inductive Effect where
  | respond (statusCode : Nat) (message : String)
  | upgrade
  | getChatParticipants (chatID : Int)
  | getMessages (chatID : Int)
  | getMessagesFromCache (chatID userID : Int)
  | addNotification (userID : Int) (notif : NotificationSend)
  | createMessages (chatID userID : Int) (content : String)
  | deleteMessage (messageID chatID : Int)
  | updateMessageStatus (chatID userID : Int)
  | writeJSON (frame : Frame)
  | subscribe (channelName : String)
  | go (task : Task)
  | readMessage
  | closeDone
  | pubsubClose
  | cancel
  | connClose
  | getNotifications (userID : Int)
  | getCurrentNotifications (userID : Int)
  | createChat (firstID secondID : Int)
  | deleteChat (firstID secondID : Int)
  | publish (channel message : String)
  | panicNilConn
deriving DecidableEq, Repr

/-- What the use cases called by `HandleChat` answer at a given moment.
An `error` result is `Except.error`, a nil `error` is `none`. -/
structure Env where
  GetChatParticipants : Int → Except String (Int × Int)
  GetMessages : Int → Except String (List Message)
  GetMessagesFromCache : Int → Int → Except String (List Message)
  AddNotification : Int → NotificationSend → Option String
  CreateMessages : Int → Int → String → Except String Int
  DeleteMessage : Int → Int → Option String
  UpdateMessageStatus : Int → Int → Option String

/-- Result of `conn.ReadMessage()` followed by
`easyjson.Unmarshal(msgData, &wsMessage)`: the read fails, the data read is
not a `WSMessage`, or it is one. -/
inductive ReadResult where
  | readError (err : String)
  | invalidFormat
  | frame (wsMessage : WSMessage)
deriving DecidableEq, Repr

/-- How an iteration of an inbound loop ends: with the next iteration
(`continue`, or `break` out of the `switch`), or by leaving the loop and the
handler (`break` out of the `for`, or `return`). -/
inductive Control where
  | nextFrame
  | leave
deriving DecidableEq, Repr

/-- The conversion `uint32(x)` of a Go `int`. -/
def uint32 (x : Int) : Int :=
  x % 2 ^ 32

/-- Embedding of `strconv.Atoi`: an optional sign followed by decimal digits,
within the range of a 64-bit `int`. -/
def Atoi (s : String) : Option Int :=
  let cs := s.toList
  let neg := cs.head? = some '-'
  let ds := if cs.head? = some '-' ∨ cs.head? = some '+' then cs.tail else cs
  if ds.isEmpty ∨ ¬ ds.all Char.isDigit then none
  else
    let n : Int := ds.foldl (fun acc c => 10 * acc + (c.toNat - 48)) 0
    let v : Int := if neg then -n else n
    if v < -(2 ^ 63) ∨ 2 ^ 63 - 1 < v then none else some v

/-! ## `MessageHandler.HandleChat` -/

/-- The notification built at lines 453-457. -/
def messageNotif (payload : CreatePayload) : NotificationSend :=
  { NotificationID := 0
    NotifType := "message"
    Content := "User " ++ toString payload.UserID ++ " sent you a message!"
    Read := 0 }

/-- Lines 448-451: `recieverID := first; if payload.UserID == first { recieverID = second }`. -/
def recieverID (first second : Int) (payload : CreatePayload) : Int :=
  if payload.UserID = first then second else first

/-- Case `"create"` of the inbound loop, lines 434-475. -/
def HandleChat_create (env : Env) (chatID first second : Int) (raw : RawMessage) :
    List Effect × Control :=
  match raw.asCreatePayload with
  | none => ([Effect.writeJSON (errorFrame "Invalid create payload")], Control.nextFrame)
  | some payload =>
    if ((payload.UserID ≠ first) ∧ (payload.UserID ≠ second)) ∨ (payload.ChatID ≠ chatID) then
      ([Effect.respond 401 "You don't have access"], Control.nextFrame)
    else
      match env.AddNotification (recieverID first second payload) (messageNotif payload) with
      | some _ =>
        ([Effect.addNotification (recieverID first second payload) (messageNotif payload),
          Effect.writeJSON (errorFrame "Failed to notify")], Control.leave)
      | none =>
        ([Effect.addNotification (recieverID first second payload) (messageNotif payload),
          Effect.go (Task.createMessages payload)], Control.nextFrame)

/-- Case `"delete"` of the inbound loop, lines 477-499. -/
def HandleChat_delete (chatID : Int) (raw : RawMessage) : List Effect × Control :=
  match raw.asDeletePayload with
  | none => ([Effect.writeJSON (errorFrame "Invalid delete payload")], Control.nextFrame)
  | some payload =>
    if payload.ChatID ≠ chatID then
      ([Effect.respond 401 "You don't have access"], Control.nextFrame)
    else
      ([Effect.go (Task.deleteMessage payload)], Control.nextFrame)

/-- Case `"get"` of the inbound loop, lines 501-509. -/
def HandleChat_get (env : Env) (chatID : Int) (profileId : Nat) : List Effect × Control :=
  match env.GetMessagesFromCache chatID (profileId : Int) with
  | Except.error _ =>
    ([Effect.getMessagesFromCache chatID (profileId : Int),
      Effect.writeJSON (errorFrame "Failed to get messages")], Control.nextFrame)
  | Except.ok newMessages =>
    ([Effect.getMessagesFromCache chatID (profileId : Int),
      Effect.writeJSON [("type", Value.str "new_messages"), ("messages", Value.messages newMessages)]],
      Control.nextFrame)

/-- Case `"read"` of the inbound loop, lines 511-533. -/
def HandleChat_read (chatID : Int) (profileId : Nat) (raw : RawMessage) : List Effect × Control :=
  match raw.asReadPayload with
  | none => ([Effect.writeJSON (errorFrame "Invalid read payload")], Control.nextFrame)
  | some payload =>
    if payload.ChatID ≠ chatID then
      ([Effect.respond 401 "You don't have access"], Control.nextFrame)
    else
      ([Effect.go (Task.updateMessageStatus payload profileId)], Control.nextFrame)

/-- One iteration of the inbound loop of `HandleChat`, lines 418-538, after
`conn.ReadMessage()` has returned `rd`. -/
def HandleChat_frame (env : Env) (chatID : Int) (profileId : Nat) (first second : Int)
    (rd : ReadResult) : List Effect × Control :=
  match rd with
  | ReadResult.readError _ =>
    ([Effect.writeJSON (errorFrame "Error reading message"), Effect.closeDone], Control.leave)
  | ReadResult.invalidFormat =>
    ([Effect.writeJSON (errorFrame "Invalid message format")], Control.nextFrame)
  | ReadResult.frame wsMessage =>
    if wsMessage.Type_ = "create" then HandleChat_create env chatID first second wsMessage.Payload
    else if wsMessage.Type_ = "delete" then HandleChat_delete chatID wsMessage.Payload
    else if wsMessage.Type_ = "get" then HandleChat_get env chatID profileId
    else if wsMessage.Type_ = "read" then HandleChat_read chatID profileId wsMessage.Payload
    else ([Effect.writeJSON (errorFrame "Unknown action type")], Control.nextFrame)

/-- The inbound loop of `HandleChat`, lines 417-539, run on the successive
results of `conn.ReadMessage()`, each with the answers of the use cases at that
moment. When the loop is left the handler returns and its deferred calls run
(`pubsub.Close()`, `cancel()`, `conn.Close()`); when the results run out the
handler is waiting in `conn.ReadMessage()`. -/
def HandleChat_loop (chatID : Int) (profileId : Nat) (first second : Int) :
    List (Env × ReadResult) → List Effect
  | [] => [Effect.readMessage]
  | (env, rd) :: rest =>
    match HandleChat_frame env chatID profileId first second rd with
    | (effects, Control.nextFrame) =>
      Effect.readMessage :: (effects ++ HandleChat_loop chatID profileId first second rest)
    | (effects, Control.leave) =>
      Effect.readMessage :: (effects ++ [Effect.pubsubClose, Effect.cancel, Effect.connClose])

/-- The channel name of line 392. -/
def chatChannelName (profileId : Nat) (chatID : Int) : String :=
  "user:" ++ toString profileId ++ " chat:" ++ toString chatID ++ " messages"

/-- Lines 334-540 of `HandleChat`: the handler once the connection is upgraded. -/
def HandleChat_upgraded (rangeOrder : List Message → List Message) (env : Env)
    (chatID : Int) (profileId : Nat) (reads : List (Env × ReadResult)) : List Effect :=
  Effect.getChatParticipants chatID ::
  match env.GetChatParticipants chatID with
  | Except.error _ =>
    [Effect.respond 500 "Failed to get chat participants", Effect.connClose]
  | Except.ok (first, second) =>
    if (profileId : Int) ≠ uint32 first ∧ (profileId : Int) ≠ uint32 second then
      [Effect.respond 401 "You don't have access", Effect.connClose]
    else
      Effect.getMessages chatID ::
      match env.GetMessages chatID with
      | Except.error _ =>
        [Effect.writeJSON (errorFrame "Failed to load initial messages"), Effect.connClose]
      | Except.ok messages =>
        Effect.getMessagesFromCache chatID first ::
        match env.GetMessagesFromCache chatID first with
        | Except.error _ =>
          [Effect.writeJSON (errorFrame "Failed to load initial messages"), Effect.connClose]
        | Except.ok new_messages_first =>
          Effect.getMessagesFromCache chatID second ::
          match env.GetMessagesFromCache chatID second with
          | Except.error _ =>
            [Effect.writeJSON (errorFrame "Failed to load initial messages"), Effect.connClose]
          | Except.ok new_messages_second =>
            Effect.writeJSON
                [("type", Value.str "init_messages"),
                 ("messages", Value.messages
                    (mergeMessages rangeOrder messages new_messages_first new_messages_second))] ::
            Effect.subscribe (chatChannelName profileId chatID) ::
            Effect.go (Task.chatOutbound chatID profileId) ::
            HandleChat_loop chatID profileId first second reads

/-- The request as `HandleChat` sees it: the route variable `chat_id`, the
value stored in the context under `userIDKey` when it is a `uint32`, and the
error of `upgrader.Upgrade`, if any. -/
structure Request where
  chat_id : Option String
  userID : Option Nat
  upgradeErr : Option String

/-- Embedding of `MessageHandler.HandleChat`, lines 293-540. `env` answers the
calls made before the inbound loop. -/
def HandleChat (rangeOrder : List Message → List Message) (r : Request) (env : Env)
    (reads : List (Env × ReadResult)) : List Effect :=
  match r.chat_id with
  | none => [Effect.respond 400 "Missing chat_id in URL"]
  | some chatIDStr =>
    match Atoi chatIDStr with
    | none => [Effect.respond 400 "Invalid chat_id format"]
    | some chatID =>
      match r.userID with
      | none => [Effect.respond 401 "You don't have access"]
      | some profileId =>
        match r.upgradeErr with
        | some _ =>
          [Effect.upgrade, Effect.respond 500 "Failed to establish WebSocket connection"]
        | none =>
          Effect.upgrade :: HandleChat_upgraded rangeOrder env chatID profileId reads

/-- Goroutine of lines 467-475. -/
def createMessagesTask (env : Env) (payload : CreatePayload) : List Effect :=
  Effect.createMessages payload.ChatID payload.UserID payload.Content ::
  match env.CreateMessages payload.ChatID payload.UserID payload.Content with
  | Except.error _ => [Effect.writeJSON (errorFrame "Failed to create message")]
  | Except.ok messageID =>
    [Effect.writeJSON [("type", Value.str "created"), ("message_id", Value.int messageID)]]

/-- Goroutine of lines 491-499. -/
def deleteMessageTask (env : Env) (payload : DeletePayload) : List Effect :=
  Effect.deleteMessage payload.MessageID payload.ChatID ::
  match env.DeleteMessage payload.MessageID payload.ChatID with
  | some _ => [Effect.writeJSON (errorFrame "Failed to delete message")]
  | none =>
    [Effect.writeJSON [("type", Value.str "deleted"), ("message_id", Value.int payload.MessageID)]]

/-- Goroutine of lines 525-533. -/
def updateMessageStatusTask (env : Env) (payload : ReadPayload) (profileId : Nat) : List Effect :=
  Effect.updateMessageStatus payload.ChatID (profileId : Int) ::
  match env.UpdateMessageStatus payload.ChatID (profileId : Int) with
  | some _ => [Effect.writeJSON (errorFrame "Failed to update message status")]
  | none =>
    [Effect.writeJSON [("type", Value.str "status_updated"), ("chat", Value.int payload.ChatID)]]

/-! ## Inbound loop of `NotificationsHandler.GetNotifications` -/

/-- One iteration of the inbound loop of `GetNotifications`, lines 196-289,
after `conn.ReadMessage()` has returned `rd`; `profileId` is the authenticated
user. -/
def GetNotifications_frame (profileId : Nat) (rd : ReadResult) : List Effect × Control :=
  match rd with
  | ReadResult.readError _ =>
    ([Effect.writeJSON (errorFrame "Error reading message"), Effect.closeDone], Control.leave)
  | ReadResult.invalidFormat =>
    ([Effect.writeJSON (errorFrame "Invalid message format")], Control.nextFrame)
  | ReadResult.frame wsMessage =>
    if wsMessage.Type_ = "sendFlowers" then
      match wsMessage.Payload.asFlowersPayload with
      | none => ([Effect.writeJSON (errorFrame "Invalid payload")], Control.nextFrame)
      | some payload => ([Effect.go (Task.sendFlowers payload profileId)], Control.nextFrame)
    else if wsMessage.Type_ = "delete" then
      match wsMessage.Payload.asDeleteNotifPayload with
      | none => ([Effect.writeJSON (errorFrame "Invalid read payload")], Control.nextFrame)
      | some payload =>
        ([Effect.go (Task.deleteNotifications payload profileId)], Control.nextFrame)
    else if wsMessage.Type_ = "read" then
      match wsMessage.Payload.asReadNotifPayload with
      | none => ([Effect.writeJSON (errorFrame "Invalid payload")], Control.nextFrame)
      | some payload =>
        ([Effect.go (Task.updateNotificatons payload profileId)], Control.nextFrame)
    else ([Effect.writeJSON (errorFrame "Unknown action type")], Control.nextFrame)

/-- The inbound loop of `GetNotifications`, lines 195-290, run on the successive
results of `conn.ReadMessage()`; deferred calls as in `HandleChat_loop`. -/
def GetNotifications_loop (profileId : Nat) : List ReadResult → List Effect
  | [] => [Effect.readMessage]
  | rd :: rest =>
    match GetNotifications_frame profileId rd with
    | (effects, Control.nextFrame) =>
      Effect.readMessage :: (effects ++ GetNotifications_loop profileId rest)
    | (effects, Control.leave) =>
      Effect.readMessage :: (effects ++ [Effect.pubsubClose, Effect.cancel, Effect.connClose])

/-! ## Outbound loops, `GetNotifications`, `CreateChat`, `DeleteChat` -/

/-- The case taken by the `select` of an outbound loop: `<-done`, which can be
taken only once `done` is closed, or a wake-up read from `pubsub.Channel()`. -/
inductive Selected where
  | done
  | wakeUp
deriving DecidableEq, Repr

/-- The outbound goroutine of `HandleChat`, lines 398-415, run on the successive
cases its `select` takes, each with the answers of the use cases at that
moment. When the cases run out the goroutine is waiting in `select`. -/
def chatOutboundTask (chatID : Int) (profileId : Nat) : List (Env × Selected) → List Effect
  | [] => []
  | (_, Selected.done) :: _ => []
  | (env, Selected.wakeUp) :: rest =>
    Effect.getMessagesFromCache chatID (profileId : Int) ::
    match env.GetMessagesFromCache chatID (profileId : Int) with
    | Except.error _ =>
      Effect.writeJSON (errorFrame "Failed to get messages") ::
        chatOutboundTask chatID profileId rest
    | Except.ok newMessages =>
      if newMessages.length > 0 then
        Effect.writeJSON
            [("type", Value.str "new_messages"), ("messages", Value.messages newMessages)] ::
          chatOutboundTask chatID profileId rest
      else chatOutboundTask chatID profileId rest

/-- What the use cases called by `GetNotifications` answer at a given moment. -/
structure NotifEnv where
  GetNotifications : Int → Except String (List NotificationSend)
  GetCurrentNotifications : Int → Except String (List NotificationSend)
  DeleteNotifications : Int → Int → Option String
  UpdateNotificatons : Int → String → Option String

/-- The channel name `fmt.Sprintf("user:%d notifications", userID)` of
handlers.go 170 and 227 and of notifications_repository.go 249. -/
def notificationsChannelName (userID : Int) : String :=
  "user:" ++ toString userID ++ " notifications"

/-- The outbound goroutine of `GetNotifications`, lines 176-193. -/
def notificationsOutboundTask (profileId : Nat) : List (NotifEnv × Selected) → List Effect
  | [] => []
  | (_, Selected.done) :: _ => []
  | (env, Selected.wakeUp) :: rest =>
    Effect.getCurrentNotifications (profileId : Int) ::
    match env.GetCurrentNotifications (profileId : Int) with
    | Except.error _ =>
      Effect.writeJSON (errorFrame "Failed to get messages") ::
        notificationsOutboundTask profileId rest
    | Except.ok newNotifications =>
      if newNotifications.length > 0 then
        Effect.writeJSON
            [("type", Value.str "new_notifications"),
             ("notifications", Value.notifications newNotifications)] ::
          notificationsOutboundTask profileId rest
      else notificationsOutboundTask profileId rest

/-- The request as `GetNotifications` sees it: the value stored in the context
under `userIDKey` when it is a `uint32`, and the error of `upgrader.Upgrade`,
if any. -/
structure NotifRequest where
  userID : Option Nat
  upgradeErr : Option String

/-- Embedding of `NotificationsHandler.GetNotifications`, lines 131-291.
After a failed upgrade (lines 151-156) the function does not return: `conn`
is nil, the initial load is still made, and the `conn.WriteJSON` that follows
it (line 162 or 165) panics, as does the deferred `conn.Close()`. -/
def GetNotifications (r : NotifRequest) (env : NotifEnv) (reads : List ReadResult) :
    List Effect :=
  match r.userID with
  | none => [Effect.respond 401 "You don't have access"]
  | some profileId =>
    match r.upgradeErr with
    | some _ =>
      [Effect.upgrade, Effect.respond 500 "Failed to establish WebSocket connection",
       Effect.getNotifications (profileId : Int), Effect.panicNilConn, Effect.panicNilConn]
    | none =>
      Effect.upgrade :: Effect.getNotifications (profileId : Int) ::
      match env.GetNotifications (profileId : Int) with
      | Except.error err =>
        [Effect.writeJSON (errorFrame ("Failed to load initial notifications " ++ err)),
         Effect.connClose]
      | Except.ok notifications =>
        Effect.writeJSON
            [("type", Value.str "init_notifications"),
             ("notifications", Value.notifications notifications)] ::
        Effect.subscribe (notificationsChannelName (profileId : Int)) ::
        Effect.go (Task.notificationsOutbound profileId) ::
        GetNotifications_loop profileId reads

/-- Embedding of `model.CreateChatRequest` and of `model.DeleteChatRequest`,
which have the same fields. -/
structure CreateChatRequest where
  FristID : Int
  SecondID : Int
deriving DecidableEq, Repr

/-- Result of `io.ReadAll(r.Body)` followed by `req.UnmarshalJSON(body)`. -/
inductive BodyResult where
  | readError (err : String)
  | invalidJSON
  | request (req : CreateChatRequest)
deriving DecidableEq, Repr

/-- The request as `CreateChat` and `DeleteChat` see it. -/
structure ChatRequest where
  userID : Option Nat
  body : BodyResult

/-- Embedding of `MessageHandler.CreateChat`, lines 542-608; `createChat` is
the answer of `CreateChatUC.CreateChat`. -/
def CreateChat (r : ChatRequest) (createChat : Int → Int → Except String Int) : List Effect :=
  match r.userID with
  | none => [Effect.respond 401 "You don't have access"]
  | some profileId =>
    match r.body with
    | BodyResult.readError _ => [Effect.respond 400 "Invalid request body"]
    | BodyResult.invalidJSON => [Effect.respond 400 "Invalid JSON"]
    | BodyResult.request req =>
      if (req.FristID ≠ (profileId : Int)) ∧ (req.SecondID ≠ (profileId : Int)) then
        [Effect.respond 401 "Unauthorized"]
      else
        match createChat req.FristID req.SecondID with
        | Except.error err =>
          [Effect.createChat req.FristID req.SecondID,
           Effect.respond 500 ("Error creating chat: " ++ err)]
        | Except.ok _ =>
          [Effect.createChat req.FristID req.SecondID, Effect.respond 201 "Chat created"]

/-- Embedding of `MessageHandler.DeleteChat`, lines 653-717; `deleteChat` is
the answer of `DeleteChatUC.DeleteChat`. -/
def DeleteChat (r : ChatRequest) (deleteChat : Int → Int → Option String) : List Effect :=
  match r.userID with
  | none => [Effect.respond 401 "You don't have access"]
  | some profileId =>
    match r.body with
    | BodyResult.readError _ => [Effect.respond 400 "Invalid request body"]
    | BodyResult.invalidJSON => [Effect.respond 400 "Invalid JSON"]
    | BodyResult.request req =>
      if (req.FristID ≠ (profileId : Int)) ∧ (req.SecondID ≠ (profileId : Int)) then
        [Effect.respond 401 "Unauthorized"]
      else
        match deleteChat req.FristID req.SecondID with
        | some err =>
          [Effect.deleteChat req.FristID req.SecondID,
           Effect.respond 500 ("Error creating chat: " ++ err)]
        | none =>
          [Effect.deleteChat req.FristID req.SecondID, Effect.respond 201 "Chat deleted"]

/-! ## The notification cache (notifications_repository.go, handlers.go 220-248) -/

/-- The lists held by the Redis server and the time to live of their keys, in
seconds (`none`: the key does not expire). A key with an empty list does not
exist. -/
structure Redis where
  lists : String → List String
  ttl : String → Option Nat

/-- The commands queued on a `TxPipeline` by the code embedded here. -/
inductive RedisCmd where
  | LPush (key value : String)
  | LTrim (key : String) (start stop : Nat)
  | Expire (key : String) (seconds : Nat)
  | Del (key : String)
  | RPush (key : String) (values : List String)
deriving DecidableEq, Repr

/-- Replace the list of `key`; a key left with an empty list is removed
together with its time to live. -/
def Redis.setList (r : Redis) (key : String) (l : List String) : Redis :=
  { lists := fun k => if k = key then l else r.lists k
    ttl := fun k => if k = key then (if l.isEmpty then none else r.ttl k) else r.ttl k }

/-- `LRANGE key start stop` with non-negative indices. -/
def Redis.LRange (r : Redis) (key : String) (start stop : Nat) : List String :=
  ((r.lists key).drop start).take (stop + 1 - start)

/-- The effect of one command on the server. -/
def Redis.apply (r : Redis) : RedisCmd → Redis
  | RedisCmd.LPush key value => r.setList key (value :: r.lists key)
  | RedisCmd.LTrim key start stop => r.setList key (r.LRange key start stop)
  | RedisCmd.Expire key seconds =>
    if (r.lists key).isEmpty then r
    else { lists := r.lists, ttl := fun k => if k = key then some seconds else r.ttl k }
  | RedisCmd.Del key => r.setList key []
  | RedisCmd.RPush key values => r.setList key (r.lists key ++ values)

/-- `pipe.Exec` of a `TxPipeline` that succeeds: the queued commands are applied
in order, as one transaction. -/
def Redis.exec (r : Redis) (cmds : List RedisCmd) : Redis :=
  cmds.foldl Redis.apply r

/-- `encoding/json` at type `model.NotificationSend`: `json.Marshal`, which
cannot fail at this type, and `json.Unmarshal` (`none`: an error). -/
structure JSON where
  Marshal : NotificationSend → String
  Unmarshal : String → Option NotificationSend

/-- The key `fmt.Sprintf("CACHE:user:%dnotifications", userID)`. -/
def redisKey (userID : Int) : String :=
  "CACHE:user:" ++ toString userID ++ "notifications"

/-- Embedding of `NotificationsRepo.AddNotification`, lines 219-255.
`insert` is the result of the `INSERT ... RETURNING notification_id`,
`execErr` and `publishErr` the errors of `pipe.Exec` and of `Publish`, if any
(a failed `Exec` is taken to leave the lists as they were). The result is the
error returned, the state of the cache, and the messages published. -/
def NotificationsRepo.AddNotification (json : JSON) (insert : Except String Int)
    (execErr publishErr : Option String) (redis : Redis) (userID : Int)
    (notif : NotificationSend) : Option String × Redis × List (String × String) :=
  match insert with
  | Except.error err => (some err, redis, [])
  | Except.ok notifID =>
    let notif := { notif with NotificationID := notifID }
    let jsonNotif := json.Marshal notif
    match execErr with
    | some err => (some err, redis, [])
    | none =>
      let redis' := redis.exec
        [RedisCmd.LPush (redisKey userID) jsonNotif,
         RedisCmd.LTrim (redisKey userID) 0 99,
         RedisCmd.Expire (redisKey userID) (30 * 3600)]
      match publishErr with
      | some err => (some err, redis', [])
      | none => (none, redis', [(notificationsChannelName userID, "new")])

/-- Embedding of `NotificationsRepo.GetCurrentNotifications`, lines 185-207.
`lrangeErr` is the error of `LRange`, if any; `redis.Nil` is the error whose
text is `"redis: nil"`. Items that do not unmarshal are skipped. -/
def NotificationsRepo.GetCurrentNotifications (json : JSON) (lrangeErr : Option String)
    (redis : Redis) (userID : Int) : Except String (List NotificationSend) :=
  match lrangeErr with
  | some err => if err = "redis: nil" then Except.ok [] else Except.error err
  | none => Except.ok ((redis.LRange (redisKey userID) 0 99).filterMap json.Unmarshal)

/-- The notification built by the `sendFlowers` goroutine, lines 221-225. -/
def flowersNotif (profileId : Nat) : NotificationSend :=
  { NotificationID := 0
    NotifType := "flowers"
    Content := "User " ++ toString profileId ++ " sent you flowers!"
    Read := 0 }

/-- The `sendFlowers` goroutine of `GetNotifications`, lines 220-248.
`publishErr` and `execErr` are the errors of `Publish` and of `pipe.Exec`, if
any; the result is what the goroutine does and the state of the cache after it. -/
def sendFlowersTask (json : JSON) (publishErr execErr : Option String) (redis : Redis)
    (payload : FlowersPayload) (profileId : Nat) : List Effect × Redis :=
  let notif := flowersNotif profileId
  let data := json.Marshal notif
  let channel := notificationsChannelName payload.UserID
  match publishErr with
  | some _ =>
    ([Effect.publish channel data, Effect.writeJSON (errorFrame "Failed to notify")], redis)
  | none =>
    let effects :=
      [Effect.publish channel data,
       Effect.writeJSON [("type", Value.str "SentFlowersTo"), ("user", Value.int payload.UserID)]]
    match execErr with
    | some _ => (effects, redis)
    | none =>
      (effects,
       redis.exec
         [RedisCmd.LPush (redisKey payload.UserID) (json.Marshal notif),
          RedisCmd.Expire (redisKey payload.UserID) (30 * 60)])

/-- The number written by a list of decimal digits. -/
def digitsValue (cs : List Char) : Nat :=
  cs.foldl (fun acc c => 10 * acc + (c.toNat - 48)) 0

/-- Recognises the effect "call of `AddNotificationUC.AddNotification`". -/
def Effect.isAddNotification : Effect → Bool
  | Effect.addNotification _ _ => true
  | _ => false

/-- Recognises the effect "frame written to the WebSocket connection". -/
def Effect.isWriteJSON : Effect → Bool
  | Effect.writeJSON _ => true
  | _ => false

/-- Recognises the calls of use cases (store and cache operations) and the
start of a goroutine that makes one. -/
def Effect.isStoreOrCache : Effect → Bool
  | Effect.getChatParticipants _ => true
  | Effect.getMessages _ => true
  | Effect.getMessagesFromCache _ _ => true
  | Effect.addNotification _ _ => true
  | Effect.createMessages _ _ _ => true
  | Effect.deleteMessage _ _ => true
  | Effect.updateMessageStatus _ _ => true
  | Effect.go _ => true
  | Effect.getNotifications _ => true
  | Effect.getCurrentNotifications _ => true
  | Effect.createChat _ _ => true
  | Effect.deleteChat _ _ => true
  | Effect.publish _ _ => true
  | _ => false

/-- The reconciled view of a chat in the words of the specification (§4.3),
evaluated on the current answers of the store and of the cache: the merge of
the durable messages of the chat with the cached entries of both participants. -/
def IsReconciledView (env : Env) (chatID first second : Int) (out : List Message) : Prop :=
  ∃ messages c1 c2 : List Message,
    env.GetMessages chatID = Except.ok messages ∧
    env.GetMessagesFromCache chatID first = Except.ok c1 ∧
    env.GetMessagesFromCache chatID second = Except.ok c2 ∧
    IsMergedView messages c1 c2 out

/-! ## `MarkNotifications` and `DeleteNotifications` (notifications_repository.go 124-183) -/

/-- Lines 147-149: `if notif.NotifType == notifType { notif.Read = 1 }`. -/
def markRead (notifType : String) (notif : NotificationSend) : NotificationSend :=
  if notif.NotifType = notifType then { notif with Read := 1 } else notif

/-- The loop of lines 141-155 over the items read from the cache: an item that
does not unmarshal is skipped, the others are marked and marshalled again. -/
def markItems (json : JSON) (notifType : String) (items : List String) : List String :=
  items.filterMap (fun item =>
    match json.Unmarshal item with
    | none => none
    | some notif => some (json.Marshal (markRead notifType notif)))

/-- Embedding of `NotificationsRepo.MarkNotifications`, lines 124-164. `dbErr`,
`lrangeErr` and `execErr` are the errors of the `UPDATE`, of `LRange` and of
`pipe.Exec`, if any; `redis.Nil` is the error whose text is `"redis: nil"`.
The result is the error returned and the state of the cache. -/
def NotificationsRepo.MarkNotifications (json : JSON) (dbErr lrangeErr execErr : Option String)
    (redis : Redis) (userID : Int) (notifType : String) : Option String × Redis :=
  match dbErr with
  | some err => (some err, redis)
  | none =>
    match lrangeErr with
    | some err => if err = "redis: nil" then (none, redis) else (some err, redis)
    | none =>
      let notifications := markItems json notifType (redis.LRange (redisKey userID) 0 99)
      match execErr with
      | some err => (some err, redis)
      | none =>
        (none,
         redis.exec
           (if notifications.length > 0 then
              [RedisCmd.Del (redisKey userID), RedisCmd.RPush (redisKey userID) notifications]
            else [RedisCmd.Del (redisKey userID)]))

/-- Embedding of `NotificationsRepo.DeleteNotifications`, lines 171-183.
`dbErr` and `delErr` are the errors of the `DELETE` statement and of `Del`, if
any (a failed `Del` is taken to leave the lists as they were). The argument
`notification_id` is used by the `DELETE` statement only. -/
def NotificationsRepo.DeleteNotifications (dbErr delErr : Option String) (redis : Redis)
    (_notification_id userID : Int) : Option String × Redis :=
  match dbErr with
  | some err => (some err, redis)
  | none =>
    match delErr with
    | some err => (some err, redis)
    | none => (none, redis.apply (RedisCmd.Del (redisKey userID)))

/-! ## Admin-only handlers (handlers.go 2222-2489, 2560-2623, 2796-3167) -/

/-- Embedding of `model.FindComplaint`. -/
structure FindComplaint where
  Complaint_by : Int
  Name_by : String
  Complaint_on : Int
  Name_on : String
  Complaint_type : String
  Status : Int
deriving DecidableEq, Repr

/-- Embedding of `model.HandleComplaint`. -/
structure HandleComplaint where
  Complaint_id : Int
  NewStatus : Int
deriving DecidableEq, Repr

/-- Embedding of `model.DeleteComlaint`. -/
structure DeleteComlaint where
  Complaint_id : Int
deriving DecidableEq, Repr

/-- Embedding of `model.RawTimeConstraints`; a nil pointer is `none`. -/
structure RawTimeConstraints where
  TimeFrom : Option String
  TimeTo : Option String
deriving DecidableEq, Repr

/-- Embedding of `model.ComplaintStats`; the two times are instants counted
from the zero `time.Time`. -/
structure ComplaintStats where
  Total : Int
  Rejected : Int
  Pending : Int
  Approved : Int
  Closed : Int
  TotalBy : Int
  TotalOn : Int
  FirstComplaint : Int
  LastComplaint : Int
deriving DecidableEq, Repr

/-- Embedding of `model.FindQueryRequest`. -/
structure FindQueryRequest where
  Name : String
  Query_id : Int
deriving DecidableEq, Repr

/-- Embedding of `model.DeleteQueryRequest`. -/
structure DeleteQueryRequest where
  Query_name : String
  User_id : Int
deriving DecidableEq, Repr

/-- Embedding of `model.GetAnswerStatistics`. -/
structure GetAnswerStatistics where
  Query_name : String
deriving DecidableEq, Repr

/-- The request body once read and decoded: reading fails, decoding fails, or
the value decoded. -/
inductive Decoded (α : Type) where
  | readError (err : String)
  | invalid (err : String)
  | value (input : α)
deriving DecidableEq, Repr

/-- The request body as `FindComplaint` treats it: an empty body is a request
of its own. -/
inductive FindBody where
  | readError (err : String)
  | empty
  | invalid
  | value (input : FindComplaint)
deriving DecidableEq, Repr

/-- The use cases behind the admin-only handlers, with their arguments. -/
inductive AdminCall where
  | GetAllComplaints
  | FindComplaint (input : FindComplaint)
  | DeleteComplaint (complaint_id : Int)
  | HandleComplaint (complaint_id new_status : Int)
  | ComplaintStatistics (useFrom : Bool) (timeFrom : Int) (useTo : Bool) (timeTo : Int)
  | FindQuery (name : String) (query_id : Int)
  | DeleteAnswer (user_id : Int) (query_name : String)
  | QueryStatistics (query_name : String)
  | GetAnswersForQuery
deriving DecidableEq, Repr

/-- What an admin-only handler does: a response with an error text
(`MakeEasyJSONResponse` with `model.ErrorResponse`, or `http.Error`), a
response with data (the complaint statistics when that is the data), the call
`GetAdminUC.GetAdmin`, the call of a use case. -/
inductive AdminEffect where
  | respond (statusCode : Nat) (message : String)
  | respondData (statusCode : Nat) (stats : Option ComplaintStats)
  | GetAdmin (userID : Int)
  | call (c : AdminCall)
deriving DecidableEq, Repr

/-- The answers of `GetAdmin` and the errors of the use cases (`none`: the use
case succeeds). -/
structure AdminEnv where
  GetAdmin : Int → Except String Bool
  run : AdminCall → Option String

/-- The part all admin-only handlers share: `GetAdmin`, the answer 500 when it
fails, the answer 401 with `denied` when it returns false, and otherwise the
use case `c`, answered with 500 and `failed` followed by the error, or with
`done`. -/
def adminGate (env : AdminEnv) (user_id : Nat) (adminFailed denied : String) (c : AdminCall)
    (failed : String) (done : AdminEffect) : List AdminEffect :=
  AdminEffect.GetAdmin (user_id : Int) ::
  match env.GetAdmin (user_id : Int) with
  | Except.error err => [AdminEffect.respond 500 (adminFailed ++ err)]
  | Except.ok is_admin =>
    if ¬ is_admin then [AdminEffect.respond 401 denied]
    else
      AdminEffect.call c ::
      match env.run c with
      | some err => [AdminEffect.respond 500 (failed ++ err)]
      | none => [done]

/-- Embedding of `ComplaintHandler.GetComplaints`, lines 2560-2623. -/
def ComplaintHandler.GetComplaints (userID : Option Nat) (env : AdminEnv) : List AdminEffect :=
  match userID with
  | none => [AdminEffect.respond 401 "You don't have access"]
  | some user_id =>
    adminGate env user_id "Error getting admin permissions for query: "
      "You dont have permissions: <nil>" AdminCall.GetAllComplaints
      "Error getting complaint: " (AdminEffect.respondData 200 none)

/-- Embedding of `ComplaintHandler.FindComplaint`, lines 2796-2878. -/
def ComplaintHandler.FindComplaint (userID : Option Nat) (body : FindBody) (env : AdminEnv) :
    List AdminEffect :=
  match userID with
  | none => [AdminEffect.respond 401 "You don't have access"]
  | some user_id =>
    AdminEffect.GetAdmin (user_id : Int) ::
    match env.GetAdmin (user_id : Int) with
    | Except.error _ => [AdminEffect.respond 500 "Error getting admin permissions"]
    | Except.ok is_admin =>
      if ¬ is_admin then [AdminEffect.respond 401 "You don't have permissions"]
      else
        match body with
        | FindBody.readError _ => [AdminEffect.respond 400 "Failed to read request body"]
        | FindBody.empty =>
          AdminEffect.call AdminCall.GetAllComplaints ::
          match env.run AdminCall.GetAllComplaints with
          | some _ => [AdminEffect.respond 500 "Error getting complaints"]
          | none => [AdminEffect.respondData 200 none]
        | FindBody.invalid => [AdminEffect.respond 400 "Invalid complaint filter"]
        | FindBody.value input =>
          AdminEffect.call (AdminCall.FindComplaint input) ::
          match env.run (AdminCall.FindComplaint input) with
          | some err => [AdminEffect.respond 500 ("Error getting complaints: " ++ err)]
          | none => [AdminEffect.respondData 200 none]

/-- Embedding of `ComplaintHandler.DeleteComplaint`, lines 2880-2974. -/
def ComplaintHandler.DeleteComplaint (userID : Option Nat) (body : Decoded DeleteComlaint)
    (env : AdminEnv) : List AdminEffect :=
  match userID with
  | none => [AdminEffect.respond 401 "You don't have access"]
  | some user_id =>
    match body with
    | Decoded.readError _ => [AdminEffect.respond 400 "failed to read request body"]
    | Decoded.invalid err =>
      [AdminEffect.respond 400 ("Error decoding complaint delete input: " ++ err)]
    | Decoded.value input =>
      adminGate env user_id "Error getting admin permissions: " "You don't have permissions"
        (AdminCall.DeleteComplaint input.Complaint_id) "Error deleting complaint: "
        (AdminEffect.respond 200 "Deleted successful")

/-- Embedding of `ComplaintHandler.HandleComplaint`, lines 2976-3063. -/
def ComplaintHandler.HandleComplaint (userID : Option Nat) (body : Decoded HandleComplaint)
    (env : AdminEnv) : List AdminEffect :=
  match userID with
  | none => [AdminEffect.respond 401 "You don't have access"]
  | some user_id =>
    match body with
    | Decoded.readError _ => [AdminEffect.respond 400 "failed to read request body"]
    | Decoded.invalid err =>
      [AdminEffect.respond 400 ("Error decoding complaint input: " ++ err)]
    | Decoded.value input =>
      adminGate env user_id "Error getting admin permissions: " "You don't have permissions"
        (AdminCall.HandleComplaint input.Complaint_id input.NewStatus)
        "Error updating complaint: " (AdminEffect.respond 200 "Updated successful")

/-- Embedding of `GetStatisticsCompl.GetStatistics`, get_statistics.go 27-38;
`complaintRepo` is `ComplaintRepo.GetStatistics`, which returns the statistics
scanned and the error of the query, if any. -/
def GetStatisticsCompl.GetStatistics
    (complaintRepo : Bool → Int → Bool → Int → ComplaintStats × Option String)
    (useFrom : Bool) (timeFrom : Int) (useTo : Bool) (timeTo : Int) :
    ComplaintStats × Option String :=
  let (Stats, _) := complaintRepo useFrom timeFrom useTo timeTo
  (Stats, none)

/-- Embedding of `ComplaintHandler.GetStatistics`, lines 3065-3167.
`parseRFC3339` is `time.Parse(time.RFC3339, ·)`, `GetStatistics` the use case
`GetStatisticsUC.GetStatistics`. -/
def ComplaintHandler.GetStatistics (parseRFC3339 : String → Option Int)
    (userID : Option Nat) (body : Decoded RawTimeConstraints) (env : AdminEnv)
    (GetStatistics : Bool → Int → Bool → Int → ComplaintStats × Option String) :
    List AdminEffect :=
  match userID with
  | none => [AdminEffect.respond 401 "You don't have access"]
  | some user_id =>
    match body with
    | Decoded.readError _ => [AdminEffect.respond 400 "failed to read request body"]
    | Decoded.invalid _ => [AdminEffect.respond 400 "Invalid JSON"]
    | Decoded.value raw =>
      match raw.TimeFrom.map parseRFC3339 with
      | some none => [AdminEffect.respond 400 "invalid time_from format"]
      | timeFrom =>
        match raw.TimeTo.map parseRFC3339 with
        | some none => [AdminEffect.respond 400 "invalid time_to format"]
        | timeTo =>
          let useTimeFrom := timeFrom.isSome
          let useTimeTo := timeTo.isSome
          let constraintsFrom : Int := (timeFrom.getD none).getD 0
          let constraintsTo : Int := (timeTo.getD none).getD 0
          AdminEffect.GetAdmin (user_id : Int) ::
          match env.GetAdmin (user_id : Int) with
          | Except.error err =>
            [AdminEffect.respond 500
              ("Error getting admin permissions for complaints: " ++ err)]
          | Except.ok is_admin =>
            if ¬ is_admin then
              [AdminEffect.respond 401 "You dont have permissions: <nil>"]
            else
              AdminEffect.call
                (AdminCall.ComplaintStatistics useTimeFrom constraintsFrom useTimeTo
                  constraintsTo) ::
              match GetStatistics useTimeFrom constraintsFrom useTimeTo constraintsTo with
              | (_, some err) =>
                [AdminEffect.respond 500 ("Error getting statistics for complaints : " ++ err)]
              | (stats, none) => [AdminEffect.respondData 200 (some stats)]

/-- Embedding of `QueryHandler.FindQuery`, lines 2222-2298. -/
def QueryHandler.FindQuery (userID : Option Nat) (body : Except String FindQueryRequest)
    (env : AdminEnv) : List AdminEffect :=
  match userID with
  | none => [AdminEffect.respond 401 "You don't have access"]
  | some user_id =>
    match body with
    | Except.error err => [AdminEffect.respond 400 ("Error decoding request: " ++ err)]
    | Except.ok req =>
      adminGate env user_id "Error getting admin permissions for query: "
        "You dont have permissions" (AdminCall.FindQuery req.Name req.Query_id)
        "Error getting answers for query: " (AdminEffect.respondData 200 none)

/-- Embedding of `QueryHandler.DeleteQuery`, lines 2300-2367. -/
def QueryHandler.DeleteQuery (userID : Option Nat) (body : Except String DeleteQueryRequest)
    (env : AdminEnv) : List AdminEffect :=
  match userID with
  | none => [AdminEffect.respond 401 "You don't have access"]
  | some user_id =>
    match body with
    | Except.error err => [AdminEffect.respond 400 ("Error decoding request: " ++ err)]
    | Except.ok req =>
      adminGate env user_id "Error getting admin permissions: " "You don't have permissions"
        (AdminCall.DeleteAnswer req.User_id req.Query_name) "Error deleting query answer: "
        (AdminEffect.respond 200 "Deleted successfully")

/-- Embedding of `QueryHandler.GetStatistics`, lines 2369-2434. -/
def QueryHandler.GetStatistics (userID : Option Nat) (body : Except String GetAnswerStatistics)
    (env : AdminEnv) : List AdminEffect :=
  match userID with
  | none => [AdminEffect.respond 401 "You don't have access"]
  | some user_id =>
    match body with
    | Except.error err => [AdminEffect.respond 400 ("Error decoding request: " ++ err)]
    | Except.ok answer =>
      adminGate env user_id "Error getting admin permissions: " "You don't have permissions"
        (AdminCall.QueryStatistics answer.Query_name) "Error getting statistics: "
        (AdminEffect.respondData 200 none)

/-- Embedding of `QueryHandler.GetAnswersForQuery`, lines 2436-2489. -/
def QueryHandler.GetAnswersForQuery (userID : Option Nat) (env : AdminEnv) : List AdminEffect :=
  match userID with
  | none => [AdminEffect.respond 401 "You don't have access"]
  | some user_id =>
    adminGate env user_id "Error getting admin permissions: " "You don't have permissions"
      AdminCall.GetAnswersForQuery "Error getting answers for query: "
      (AdminEffect.respondData 200 none)

/-- The property of a run of an admin-only handler for user `user_id`: a use
case is called only if `GetAdmin` returned true without error, and if
`GetAdmin` was called and returned false the run is that call followed by one
answer with status 401. -/
def AdminGated (env : AdminEnv) (user_id : Nat) (run : List AdminEffect) : Prop :=
  (∀ c : AdminCall, AdminEffect.call c ∈ run → env.GetAdmin (user_id : Int) = Except.ok true) ∧
    (AdminEffect.GetAdmin (user_id : Int) ∈ run →
      env.GetAdmin (user_id : Int) = Except.ok false →
      ∃ message : String,
        run = [AdminEffect.GetAdmin (user_id : Int), AdminEffect.respond 401 message])

/-! ## `UserServiceServer.GetPremium` (users_micro/usecase/get_premium.go) -/

/-- Embedding of `users.GetPremiumResponse`; the field `Type` is named `Type_`
here. `UserId` and `Type_` are `int32` values. -/
structure GetPremiumResponse where
  UserId : Int
  IsSubsribe : Bool
  Type_ : Int
deriving DecidableEq, Repr

/-- The conversion `int32(x)` of a Go `int`. -/
def int32 (x : Int) : Int :=
  (x + 2 ^ 31) % 2 ^ 32 - 2 ^ 31

/-- Embedding of `UserServiceServer.GetPremium`, lines 10-28. `now` is
`time.Now()`, `UserRepo` the answer of `uss.UserRepo.GetPremium`: whether there
is a subscription, its type, its expiry (nil: `none`) and an error, if any.
The result is the response and the error returned with it. -/
def UserServiceServer.GetPremium (now : Int)
    (UserRepo : Int → Bool × Int × Option Int × Option String) (reqUserId : Int) :
    GetPremiumResponse × Option String :=
  match UserRepo reqUserId with
  | (hasSub, subType, expiresAt, err) =>
    if hasSub = false ∨ expiresAt = none ∨ expiresAt.any (fun t => decide (t < now)) = true then
      ({ UserId := reqUserId, IsSubsribe := false, Type_ := 0 }, err)
    else
      ({ UserId := reqUserId, IsSubsribe := true, Type_ := int32 subType }, err)

/-! ## `ComplaintRepo.HandleComplaint` (complaint_repo.go 255-303) -/

/-- A row of the table `complaints`, with the columns the statements of
`HandleComplaint` read or write. -/
structure ComplaintRow where
  complaint_id : Int
  complaint_on : Int
  status : Int
  closed_at : Option Int
deriving DecidableEq, Repr

/-- The tables `complaints` and `blacklist` (its column `user_id`). -/
structure ComplaintDB where
  complaints : List ComplaintRow
  blacklist : List Int
deriving DecidableEq, Repr

/-- A transaction: the tables as its statements have left them so far, and
whether `Commit` has succeeded. -/
structure Tx where
  work : ComplaintDB
  committed : Bool
deriving DecidableEq, Repr

/-- The errors of `BeginTx`, of the `SELECT` (other than the absence of a
row), of the `UPDATE`, of the `INSERT` and of `Commit`, if any. -/
structure TxFaults where
  beginErr : Option String
  selectErr : Option String
  updateErr : Option String
  blockErr : Option String
  commitErr : Option String

/-- `GetTargetUserQuery`: the `complaint_on` of the complaint. -/
def getTargetUser (db : ComplaintDB) (complaint_id : Int) : Option Int :=
  (db.complaints.find? (fun r => decide (r.complaint_id = complaint_id))).map
    ComplaintRow.complaint_on

/-- `UpdateComplaintQuery`: set `status` and `closed_at` of the complaint. -/
def updateComplaint (now : Int) (db : ComplaintDB) (new_status complaint_id : Int) :
    ComplaintDB :=
  { db with
    complaints := db.complaints.map (fun r =>
      if r.complaint_id = complaint_id then
        { r with status := new_status, closed_at := some now }
      else r) }

/-- `BlockUserQuery`: insert the user unless a row for the user exists. -/
def blockUser (db : ComplaintDB) (user_id : Int) : ComplaintDB :=
  { db with
    blacklist := if user_id ∈ db.blacklist then db.blacklist else db.blacklist ++ [user_id] }

/-- The tables once the function has returned: the deferred `tx.Rollback()`
discards the work of a transaction that was not committed. -/
def Tx.afterRollback (db : ComplaintDB) (tx : Tx) : ComplaintDB :=
  if tx.committed then tx.work else db

/-- `tx.Commit()`. -/
def Tx.Commit (faults : TxFaults) (tx : Tx) : Option String × Tx :=
  match faults.commitErr with
  | some err => (some err, tx)
  | none => (none, { tx with committed := true })

/-- The body of `ComplaintRepo.HandleComplaint` from `BeginTx` to the `return`:
the error returned and the transaction as it stands then. -/
def HandleComplaint_tx (now : Int) (faults : TxFaults) (db : ComplaintDB)
    (complaint_id new_status : Int) : Option String × Tx :=
  let tx : Tx := { work := db, committed := false }
  match faults.selectErr with
  | some err => (some err, tx)
  | none =>
    match getTargetUser tx.work complaint_id with
    | none => (some "sql: no rows in result set", tx)
    | some targetUserID =>
      match faults.updateErr with
      | some err => (some err, tx)
      | none =>
        let tx : Tx := { tx with work := updateComplaint now tx.work new_status complaint_id }
        if new_status = 2 then
          match faults.blockErr with
          | some err => (some err, tx)
          | none => Tx.Commit faults { tx with work := blockUser tx.work targetUserID }
        else Tx.Commit faults tx

/-- Embedding of `ComplaintRepo.HandleComplaint`, lines 277-303: the error
returned and the tables afterwards. `now` is `CURRENT_TIMESTAMP`. -/
def ComplaintRepo.HandleComplaint (now : Int) (faults : TxFaults) (db : ComplaintDB)
    (complaint_id new_status : Int) : Option String × ComplaintDB :=
  match faults.beginErr with
  | some err => (some err, db)
  | none =>
    match HandleComplaint_tx now faults db complaint_id new_status with
    | (err, tx) => (err, tx.afterRollback db)

/-! ## `GetUrlForMetrics` (delivery/utils.go 39-49) -/

/-- `strings.Split(s, "/")` on the characters of `s`: the segments between the
slashes, at least one. -/
def splitSlash : List Char → List (List Char)
  | [] => [[]]
  | c :: cs =>
    if c = '/' then [] :: splitSlash cs
    else
      match splitSlash cs with
      | seg :: rest => (c :: seg) :: rest
      | [] => [[c]]

/-- `strings.Join(segments, "/")`. -/
def joinSlash : List (List Char) → List Char
  | [] => []
  | [seg] => seg
  | seg :: next :: rest => seg ++ '/' :: joinSlash (next :: rest)

/-- `re.MatchString(s)` for the pattern `^\d+$`: the whole of `s` is one or
more of the digits `0` to `9`. -/
def matchDigits (s : List Char) : Bool :=
  !s.isEmpty && s.all Char.isDigit

/-- The text that takes the place of a segment of digits. -/
def digitsPlaceholder : String :=
  "\x7bdigits\x7d"

/-- The body of the loop of lines 43-47 for one segment. -/
def replaceDigits (s : List Char) : List Char :=
  if matchDigits s then digitsPlaceholder.data else s

/-- Embedding of `GetUrlForMetrics`, lines 39-49. -/
def GetUrlForMetrics (url : String) : String :=
  String.mk (joinSlash ((splitSlash url.data).map replaceDigits))

/-! ## Sample data -/

/-- A durable list of two messages. -/
def sampleDurable : List Message :=
  [Message.mk 1 10 "a" 0 5, Message.mk 2 11 "b" 0 7]

/-- Cache of the first participant: a stale copy of message 2 and a message
that is not yet durable. -/
def sampleCacheFirst : List Message :=
  [Message.mk 2 11 "b" 0 8, Message.mk 3 10 "c" 0 6]

/-- Cache of the second participant: the same pending message. -/
def sampleCacheSecond : List Message :=
  [Message.mk 3 10 "c" 0 6]

/-- The merged view of the three sample lists. -/
def sampleMerged : List Message :=
  [Message.mk 1 10 "a" 0 5, Message.mk 3 10 "c" 0 6, Message.mk 2 11 "b" 0 7]

/-- Answers of the use cases for a chat whose participants are users 5 and 9,
with `sampleDurable` stored and both caches empty. -/
def sampleEnv : Env :=
  { GetChatParticipants := fun _ => Except.ok (5, 9)
    GetMessages := fun _ => Except.ok sampleDurable
    GetMessagesFromCache := fun _ _ => Except.ok []
    AddNotification := fun _ _ => none
    CreateMessages := fun _ _ _ => Except.ok 4
    DeleteMessage := fun _ _ => none
    UpdateMessageStatus := fun _ _ => none }

/-- Answers of the use cases for a chat whose first participant has the
identifier `2^32 + 5` and whose second participant is user 9. -/
def wideEnv : Env :=
  { GetChatParticipants := fun _ => Except.ok (4294967301, 9)
    GetMessages := fun _ => Except.ok []
    GetMessagesFromCache := fun _ _ => Except.ok []
    AddNotification := fun _ _ => none
    CreateMessages := fun _ _ _ => Except.ok 4
    DeleteMessage := fun _ _ => none
    UpdateMessageStatus := fun _ _ => none }

/-- The raw payload `{"chat_id": chat, "user_id": user, "content": content}`. -/
def sampleRaw (chat user : Int) (content : String) : RawMessage :=
  { asCreatePayload := some ⟨chat, user, content⟩
    asDeletePayload := some ⟨chat, 0⟩
    asReadPayload := some ⟨chat⟩
    asFlowersPayload := some ⟨user⟩
    asDeleteNotifPayload := some ⟨0⟩
    asReadNotifPayload := some ⟨""⟩ }

/-- As `sampleEnv`, with `AddNotification` failing. -/
def notifyDownEnv : Env :=
  { sampleEnv with AddNotification := fun _ _ => some "notifications unavailable" }

/-- As `sampleEnv`, with the cache failing. -/
def cacheDownEnv : Env :=
  { sampleEnv with GetMessagesFromCache := fun _ _ => Except.error "cache unavailable" }

/-- Answers of the notification use cases for a user without notifications. -/
def sampleNotifEnv : NotifEnv :=
  { GetNotifications := fun _ => Except.ok []
    GetCurrentNotifications := fun _ => Except.ok []
    DeleteNotifications := fun _ _ => none
    UpdateNotificatons := fun _ _ => none }

/-- The notification stored for user 9 when user 5 sends a message and the
store assigns the identifier 42. -/
def sampleStoredNotif : NotificationSend :=
  { NotificationID := 42, Read := 0, NotifType := "message",
    Content := "User 5 sent you a message!" }

/-- The JSON text of `sampleStoredNotif`. -/
def sampleStoredText : String :=
  "\x7b\"notificationID\":42,\"read\":0,\"type\":\"message\",\"content\":\"User 5 sent you a message!\"\x7d"

/-- `encoding/json` restricted to `sampleStoredNotif` and its text; every
other notification is given the text `null`, which unmarshals to the zero
notification. -/
def sampleJSON : JSON :=
  { Marshal := fun n => if n = sampleStoredNotif then sampleStoredText else "null"
    Unmarshal := fun s =>
      if s = sampleStoredText then some sampleStoredNotif
      else if s = "null" then some ⟨0, 0, "", ""⟩ else none }

/-- A cache in which every list holds 100 entries and expires in a minute. -/
def fullRedis : Redis :=
  { lists := fun _ => List.replicate 100 "null"
    ttl := fun _ => some 60 }

/-- An empty cache. -/
def emptyRedis : Redis :=
  { lists := fun _ => []
    ttl := fun _ => none }

/-- The notification `sampleStoredNotif` once read. -/
def sampleReadNotif : NotificationSend :=
  { NotificationID := 42, Read := 1, NotifType := "message",
    Content := "User 5 sent you a message!" }

/-- The JSON text of `sampleReadNotif`. -/
def sampleReadText : String :=
  "\x7b\"notificationID\":42,\"read\":1,\"type\":\"message\",\"content\":\"User 5 sent you a message!\"\x7d"

/-- `encoding/json` restricted to `sampleStoredNotif` and `sampleReadNotif` and
their texts; every other notification is given the text `null`. -/
def sampleJSONRead : JSON :=
  { Marshal := fun n =>
      if n = sampleStoredNotif then sampleStoredText
      else if n = sampleReadNotif then sampleReadText else "null"
    Unmarshal := fun s =>
      if s = sampleStoredText then some sampleStoredNotif
      else if s = sampleReadText then some sampleReadNotif
      else if s = "null" then some ⟨0, 0, "", ""⟩ else none }

/-- The cache after user 9 was notified once: one entry, expiring in 30 hours. -/
def notifiedRedis : Redis :=
  (NotificationsRepo.AddNotification sampleJSONRead (Except.ok 42) none none emptyRedis 9
    (messageNotif ⟨7, 5, "hi"⟩)).2.1

/-- A deployment in which user 1 is an administrator, user 5 is not, and every
use case succeeds. -/
def sampleAdminEnv : AdminEnv :=
  { GetAdmin := fun u => Except.ok (decide (u = 1))
    run := fun _ => none }

/-- The statistics scanned when the query fails: the zero value. -/
def zeroStats : ComplaintStats :=
  ⟨0, 0, 0, 0, 0, 0, 0, 0, 0⟩

/-- A complaint repository whose `GetStatistics` fails. -/
def failingComplaintRepo : Bool → Int → Bool → Int → ComplaintStats × Option String :=
  fun _ _ _ _ => (zeroStats, some "connection refused")

/-- No statement of the transaction fails. -/
def noFaults : TxFaults :=
  { beginErr := none, selectErr := none, updateErr := none, blockErr := none,
    commitErr := none }

/-- One open complaint, number 3, on user 8; nobody is blacklisted. -/
def sampleComplaintDB : ComplaintDB :=
  { complaints := [⟨3, 8, 1, none⟩], blacklist := [] }

/-- A raw payload that decodes to the delete payload of message 31 in chat 7
and to the read payload of chat 7. -/
def sampleDeleteRaw : RawMessage :=
  { sampleRaw 7 5 "" with asDeletePayload := some ⟨7, 31⟩ }

/-- Two open complaints, number 2 on user 6 and number 3 on user 8; user 6 is
blacklisted already. -/
def busyComplaintDB : ComplaintDB :=
  { complaints := [⟨2, 6, 1, none⟩, ⟨3, 8, 1, none⟩], blacklist := [6] }

/-! # Theorems -/

/-! ## Lemmas on the message map -/

theorem sinkLeft_perm {α : Type} (less : α → α → Bool) (x : α) (l : List α) :
    (sinkLeft less x l).Perm (x :: l) := by
  induction l with
  | nil => exact List.Perm.refl _
  | cons y ys ih =>
    unfold sinkLeft
    split
    · exact (List.Perm.cons y ih).trans (List.Perm.swap x y ys)
    · exact List.Perm.refl _

theorem foldl_sinkLeft_perm {α : Type} (less : α → α → Bool) (data acc : List α) :
    (data.foldl (fun sortedPrefix x => sinkLeft less x sortedPrefix) acc).Perm (data ++ acc) := by
  induction data generalizing acc with
  | nil => exact List.Perm.refl _
  | cons x xs ih =>
    simp only [List.foldl_cons]
    refine (ih _).trans ?_
    refine (List.Perm.append_left xs (sinkLeft_perm less x acc)).trans ?_
    exact List.perm_middle

theorem insertionSortLessFunc_perm {α : Type} (less : α → α → Bool) (data : List α) :
    (insertionSortLessFunc less data).Perm data := by
  unfold insertionSortLessFunc
  refine (List.reverse_perm _).trans ?_
  simpa using foldl_sinkLeft_perm less data []

/-- The sorted prefix, nearest element first, is descending in `CreatedAt`. -/
theorem sinkLeft_descending (x : Message) (l : List Message)
    (hl : l.Pairwise (fun a b => b.CreatedAt ≤ a.CreatedAt)) :
    (sinkLeft createdBefore x l).Pairwise (fun a b => b.CreatedAt ≤ a.CreatedAt) := by
  induction l with
  | nil => simp [sinkLeft]
  | cons y ys ih =>
    rw [List.pairwise_cons] at hl
    unfold sinkLeft
    by_cases hxy : createdBefore x y = true
    · rw [if_pos hxy, List.pairwise_cons]
      refine ⟨?_, ih hl.2⟩
      intro z hz
      rcases (List.mem_cons.1 ((sinkLeft_perm createdBefore x ys).subset hz)) with h | h
      · rw [h]
        exact le_of_lt (of_decide_eq_true hxy)
      · exact hl.1 z h
    · rw [if_neg hxy, List.pairwise_cons, List.pairwise_cons]
      have hyx : y.CreatedAt ≤ x.CreatedAt := by
        by_contra hc
        exact hxy (decide_eq_true (lt_of_not_le hc))
      refine ⟨?_, hl⟩
      intro z hz
      rcases List.mem_cons.1 hz with h | h
      · rw [h]; exact hyx
      · exact le_trans (hl.1 z h) hyx

theorem foldl_sinkLeft_descending (data acc : List Message)
    (hacc : acc.Pairwise (fun a b => b.CreatedAt ≤ a.CreatedAt)) :
    (data.foldl (fun sortedPrefix x => sinkLeft createdBefore x sortedPrefix) acc).Pairwise
      (fun a b => b.CreatedAt ≤ a.CreatedAt) := by
  induction data generalizing acc with
  | nil => exact hacc
  | cons x xs ih => exact ih _ (sinkLeft_descending x acc hacc)

theorem insertionSortLessFunc_ascending (data : List Message) :
    (insertionSortLessFunc createdBefore data).Pairwise
      (fun a b => a.CreatedAt ≤ b.CreatedAt) := by
  unfold insertionSortLessFunc
  rw [List.pairwise_reverse]
  exact foldl_sinkLeft_descending data [] List.Pairwise.nil

theorem insertionSortLessFunc_isSortSliceResult (data : List Message) :
    IsSortSliceResult createdBefore data (insertionSortLessFunc createdBefore data) := by
  refine ⟨insertionSortLessFunc_perm _ _, ?_⟩
  refine (insertionSortLessFunc_ascending data).imp ?_
  intro a b hab
  exact decide_eq_false (not_lt.2 hab)

/-- What the embedded lines 368-385 compute is one of the merged views, whatever
the order in which the map is ranged over. -/
theorem mergeMessages_isMergedView (rangeOrder : List Message → List Message)
    (hrange : ∀ l, (rangeOrder l).Perm l) (messages c1 c2 : List Message) :
    IsMergedView messages c1 c2 (mergeMessages rangeOrder messages c1 c2) := by
  unfold IsMergedView mergeMessages
  have h := insertionSortLessFunc_isSortSliceResult
    (rangeOrder (buildMsgMap messages c1 c2).values)
  exact ⟨h.1.trans (hrange _), h.2⟩

/-- C3, as stated, fails: two durable messages created at the same instant,
the one with the larger identifier first in the map, are sent in that order
when `range` visits the map in insertion order. -/
theorem mergeMessages_not_sorted_by_created_then_id :
    mergeMessages id [⟨2, 10, "b", 0, 5⟩, ⟨1, 10, "a", 0, 5⟩] [] []
        = [⟨2, 10, "b", 0, 5⟩, ⟨1, 10, "a", 0, 5⟩] ∧
      ¬ List.Chain' SpecAdjacent
        (mergeMessages id [⟨2, 10, "b", 0, 5⟩, ⟨1, 10, "a", 0, 5⟩] [] []) := by
  have hrun : mergeMessages id [⟨2, 10, "b", 0, 5⟩, ⟨1, 10, "a", 0, 5⟩] [] []
      = [⟨2, 10, "b", 0, 5⟩, ⟨1, 10, "a", 0, 5⟩] := by decide
  refine ⟨hrun, ?_⟩
  rw [hrun, List.chain'_pair]
  decide

/-- C3, amended. The list sent as the initial snapshot is ascending in
`CreatedAt`: of two adjacent entries the first is created before the second
or at the same instant. Entries with equal `CreatedAt` are in no fixed order. -/
theorem mergeMessages_sorted_by_created (rangeOrder : List Message → List Message)
    (messages c1 c2 : List Message) :
    List.Chain' CreatedAdjacent (mergeMessages rangeOrder messages c1 c2) := by
  unfold mergeMessages
  apply List.Pairwise.chain'
  refine (insertionSortLessFunc_ascending _).imp ?_
  intro a b hab
  exact lt_or_eq_of_le hab

/-- C4, as stated, fails: on one and the same durable list, a run in which
`range` visits the map in insertion order and a run in which it visits it in
the opposite order send the two messages created at the same instant in
different orders. -/
theorem mergeMessages_two_runs_differ :
    mergeMessages id [Message.mk 2 10 "b" 0 5, Message.mk 1 10 "a" 0 5] [] []
        = [Message.mk 2 10 "b" 0 5, Message.mk 1 10 "a" 0 5] ∧
      mergeMessages List.reverse [Message.mk 2 10 "b" 0 5, Message.mk 1 10 "a" 0 5] [] []
        = [Message.mk 1 10 "a" 0 5, Message.mk 2 10 "b" 0 5] ∧
      mergeMessages id [Message.mk 2 10 "b" 0 5, Message.mk 1 10 "a" 0 5] [] []
        ≠ mergeMessages List.reverse [Message.mk 2 10 "b" 0 5, Message.mk 1 10 "a" 0 5] [] [] := by
  decide

/-- C4, amended. Two runs of the merge on the same durable list and the same
two cached lists send the same entries, and they send the identical list
whenever no two entries of the merged view share a `CreatedAt` value; entries
that share one may come in a different order. -/
theorem mergedView_unique_up_to_ties (messages c1 c2 out₁ out₂ : List Message)
    (h₁ : IsMergedView messages c1 c2 out₁) (h₂ : IsMergedView messages c1 c2 out₂) :
    out₁.Perm out₂ ∧ ((out₁.map Message.CreatedAt).Nodup → out₁ = out₂) := by
  have hp : out₁.Perm out₂ := h₁.1.trans h₂.1.symm
  refine ⟨hp, ?_⟩
  intro hnd
  have strict : ∀ out : List Message,
      out.Pairwise (fun a b => createdBefore b a = false) →
      (out.map Message.CreatedAt).Nodup →
      out.Pairwise (fun a b => a.CreatedAt < b.CreatedAt) := by
    intro out hs hn
    have hne : out.Pairwise (fun a b => a.CreatedAt ≠ b.CreatedAt) := List.pairwise_map.1 hn
    refine (hs.and hne).imp ?_
    rintro a b ⟨hba, hab⟩
    have hle : a.CreatedAt ≤ b.CreatedAt := not_lt.1 (of_decide_eq_false hba)
    exact lt_of_le_of_ne hle hab
  have hnd₂ : (out₂.map Message.CreatedAt).Nodup := (hp.map _).nodup_iff.1 hnd
  have s₁ := strict out₁ h₁.2 hnd
  have s₂ := strict out₂ h₂.2 hnd₂
  haveI : IsAntisymm Message (fun a b => a.CreatedAt < b.CreatedAt) :=
    ⟨fun a b hab hba => absurd hab (lt_asymm hba)⟩
  exact List.eq_of_perm_of_sorted hp s₁ s₂

theorem mergedView_unique_up_to_ties_witness :
    sampleMerged.Perm
        (mergeMessages List.reverse sampleDurable sampleCacheFirst sampleCacheSecond) ∧
      ((sampleMerged.map Message.CreatedAt).Nodup →
        sampleMerged
          = mergeMessages List.reverse sampleDurable sampleCacheFirst sampleCacheSecond) :=
  mergedView_unique_up_to_ties sampleDurable sampleCacheFirst sampleCacheSecond sampleMerged
    (mergeMessages List.reverse sampleDurable sampleCacheFirst sampleCacheSecond)
    (by decide) (by decide)

/-! ## `HandleChat`: authorization of the session -/

/-- Supporting fact for C5: when both participant identifiers lie in the range
of `uint32`, a user who is neither of them is turned away right after
`GetChatParticipants`: nothing is loaded, no frame is written, nothing is
subscribed to. -/
theorem HandleChat_upgraded_rejects_in_range (rangeOrder : List Message → List Message)
    (env : Env) (chatID : Int) (profileId : Nat) (reads : List (Env × ReadResult))
    (first second : Int)
    (hp : env.GetChatParticipants chatID = Except.ok (first, second))
    (hf : 0 ≤ first ∧ first < 2 ^ 32) (hs : 0 ≤ second ∧ second < 2 ^ 32)
    (hnf : (profileId : Int) ≠ first) (hns : (profileId : Int) ≠ second) :
    HandleChat_upgraded rangeOrder env chatID profileId reads
      = [Effect.getChatParticipants chatID, Effect.respond 401 "You don't have access",
         Effect.connClose] := by
  have h1 : uint32 first = first := Int.emod_eq_of_lt hf.1 hf.2
  have h2 : uint32 second = second := Int.emod_eq_of_lt hs.1 hs.2
  unfold HandleChat_upgraded
  rw [hp]
  simp only [h1, h2]
  rw [if_pos ⟨hnf, hns⟩]

/-- When the participant check of line 342 lets the user through and the three
loads succeed, the handler writes `init_messages` with the merge of what was
loaded, subscribes, starts the outbound goroutine and enters the inbound loop. -/
theorem HandleChat_upgraded_streams (rangeOrder : List Message → List Message)
    (env : Env) (chatID : Int) (profileId : Nat) (reads : List (Env × ReadResult))
    (first second : Int) (messages c1 c2 : List Message)
    (hp : env.GetChatParticipants chatID = Except.ok (first, second))
    (hpass : ¬ ((profileId : Int) ≠ uint32 first ∧ (profileId : Int) ≠ uint32 second))
    (hm : env.GetMessages chatID = Except.ok messages)
    (h1 : env.GetMessagesFromCache chatID first = Except.ok c1)
    (h2 : env.GetMessagesFromCache chatID second = Except.ok c2) :
    HandleChat_upgraded rangeOrder env chatID profileId reads
      = Effect.getChatParticipants chatID :: Effect.getMessages chatID ::
        Effect.getMessagesFromCache chatID first :: Effect.getMessagesFromCache chatID second ::
        Effect.writeJSON
          [("type", Value.str "init_messages"),
           ("messages", Value.messages (mergeMessages rangeOrder messages c1 c2))] ::
        Effect.subscribe (chatChannelName profileId chatID) ::
        Effect.go (Task.chatOutbound chatID profileId) ::
        HandleChat_loop chatID profileId first second reads := by
  unfold HandleChat_upgraded
  rw [hp]
  simp only [if_neg hpass, hm, h1, h2]

/-- C5, evaluated at a failing input. Chat 7 has participants `2^32 + 5` and
9; the authenticated user 5 is neither, yet `uint32(first)` is 5, the check of
line 342 lets the user through, and the handler loads the messages, writes
`init_messages`, subscribes and waits for frames. -/
theorem HandleChat_admits_nonparticipant_after_truncation :
    wideEnv.GetChatParticipants 7 = Except.ok (4294967301, 9) ∧
      ((5 : Nat) : Int) ≠ 4294967301 ∧ ((5 : Nat) : Int) ≠ 9 ∧
      HandleChat id ⟨some "7", some 5, none⟩ wideEnv []
        = [Effect.upgrade, Effect.getChatParticipants 7, Effect.getMessages 7,
           Effect.getMessagesFromCache 7 4294967301, Effect.getMessagesFromCache 7 9,
           Effect.writeJSON
             [("type", Value.str "init_messages"), ("messages", Value.messages [])],
           Effect.subscribe "user:5 chat:7 messages",
           Effect.go (Task.chatOutbound 7 5),
           Effect.readMessage] := by
  refine ⟨rfl, by decide, by decide, by decide⟩

/-! ## `HandleChat`: the `create` command -/

theorem HandleChat_create_go (env : Env) (chatID first second : Int) (raw : RawMessage)
    (q : CreatePayload)
    (h : Effect.go (Task.createMessages q) ∈ (HandleChat_create env chatID first second raw).1) :
    (q.UserID = first ∨ q.UserID = second) ∧ q.ChatID = chatID := by
  unfold HandleChat_create at h
  cases hraw : raw.asCreatePayload with
  | none => rw [hraw] at h; simp [errorFrame] at h
  | some payload =>
    rw [hraw] at h
    by_cases hrej :
        ((payload.UserID ≠ first) ∧ (payload.UserID ≠ second)) ∨ (payload.ChatID ≠ chatID)
    · simp only [if_pos hrej] at h
      simp at h
    · simp only [if_neg hrej] at h
      have hq : q = payload := by
        cases hadd : env.AddNotification (recieverID first second payload) (messageNotif payload)
          <;> rw [hadd] at h <;> simp at h
        exact h
      subst hq
      constructor
      · by_contra hc
        exact hrej (Or.inl ⟨fun h1 => hc (Or.inl h1), fun h2 => hc (Or.inr h2)⟩)
      · by_contra hc
        exact hrej (Or.inr hc)

theorem HandleChat_frame_go (env : Env) (chatID : Int) (profileId : Nat) (first second : Int)
    (rd : ReadResult) (q : CreatePayload)
    (h : Effect.go (Task.createMessages q)
      ∈ (HandleChat_frame env chatID profileId first second rd).1) :
    (q.UserID = first ∨ q.UserID = second) ∧ q.ChatID = chatID := by
  unfold HandleChat_frame at h
  cases rd with
  | readError e => simp [errorFrame] at h
  | invalidFormat => simp [errorFrame] at h
  | frame ws =>
    simp only at h
    split_ifs at h
    · exact HandleChat_create_go env chatID first second _ q h
    · unfold HandleChat_delete at h
      split at h
      · simp [errorFrame] at h
      · split_ifs at h <;> simp at h
    · unfold HandleChat_get at h
      split at h <;> simp [errorFrame] at h
    · unfold HandleChat_read at h
      split at h
      · simp [errorFrame] at h
      · split_ifs at h <;> simp at h
    · simp [errorFrame] at h

theorem HandleChat_loop_go (chatID : Int) (profileId : Nat) (first second : Int)
    (reads : List (Env × ReadResult)) (q : CreatePayload)
    (h : Effect.go (Task.createMessages q) ∈ HandleChat_loop chatID profileId first second reads) :
    (q.UserID = first ∨ q.UserID = second) ∧ q.ChatID = chatID := by
  induction reads with
  | nil => simp [HandleChat_loop] at h
  | cons x rest ih =>
    obtain ⟨env, rd⟩ := x
    unfold HandleChat_loop at h
    cases hfr : HandleChat_frame env chatID profileId first second rd with
    | mk effects ctl =>
      have hmem : ∀ e, e ∈ effects →
          e ∈ (HandleChat_frame env chatID profileId first second rd).1 := by
        intro e he; rw [hfr]; exact he
      rw [hfr] at h
      cases ctl with
      | nextFrame =>
        simp only [List.mem_cons, List.mem_append] at h
        rcases h with h | h | h
        · cases h
        · exact HandleChat_frame_go env chatID profileId first second rd q (hmem _ h)
        · exact ih h
      | leave =>
        simp only [List.mem_cons, List.mem_append] at h
        rcases h with h | h | h
        · cases h
        · exact HandleChat_frame_go env chatID profileId first second rd q (hmem _ h)
        · simp at h

/-- C6. A create frame whose `user_id` is neither participant, or whose
`chat_id` is not the chat of the session, makes the handler call neither
`AddNotification` nor `CreateMessages` (no such call, and no goroutine
started); and every `CreateMessages` goroutine the inbound loop ever starts
carries a sender that is one of the two participants and the chat of the
session, which are the arguments the goroutine passes to `CreateMessages`. -/
theorem HandleChat_create_guard (chatID : Int) (profileId : Nat) (first second : Int) :
    (∀ (env : Env) (ws : WSMessage) (p : CreatePayload),
        ws.Type_ = "create" → ws.Payload.asCreatePayload = some p →
        ((p.UserID ≠ first ∧ p.UserID ≠ second) ∨ p.ChatID ≠ chatID) →
        HandleChat_frame env chatID profileId first second (ReadResult.frame ws)
            = ([Effect.respond 401 "You don't have access"], Control.nextFrame) ∧
          ∀ e ∈ (HandleChat_frame env chatID profileId first second (ReadResult.frame ws)).1,
            e.isStoreOrCache = false) ∧
      (∀ (reads : List (Env × ReadResult)) (q : CreatePayload),
        Effect.go (Task.createMessages q) ∈ HandleChat_loop chatID profileId first second reads →
        (q.UserID = first ∨ q.UserID = second) ∧ q.ChatID = chatID) ∧
      (∀ (env : Env) (q : CreatePayload) (c u : Int) (t : String),
        Effect.createMessages c u t ∈ createMessagesTask env q →
        c = q.ChatID ∧ u = q.UserID ∧ t = q.Content) := by
  refine ⟨?_, ?_, ?_⟩
  · intro env ws p htype hdec hrej
    have hrun : HandleChat_frame env chatID profileId first second (ReadResult.frame ws)
        = ([Effect.respond 401 "You don't have access"], Control.nextFrame) := by
      simp only [HandleChat_frame, htype, if_true, HandleChat_create, hdec]
      rw [if_pos hrej]
    refine ⟨hrun, ?_⟩
    rw [hrun]
    intro e he
    simp only [List.mem_singleton] at he
    rw [he]
    rfl
  · intro reads q h
    exact HandleChat_loop_go chatID profileId first second reads q h
  · intro env q c u t h
    unfold createMessagesTask at h
    rw [List.mem_cons] at h
    rcases h with h | h
    · injection h with h1 h2 h3
      exact ⟨h1, h2, h3⟩
    · split at h <;> simp [errorFrame] at h

theorem HandleChat_create_guard_witness :
    HandleChat_frame sampleEnv 7 5 5 9 (ReadResult.frame ⟨"create", sampleRaw 7 3 "hi"⟩)
        = ([Effect.respond 401 "You don't have access"], Control.nextFrame) ∧
      ∀ e ∈ (HandleChat_frame sampleEnv 7 5 5 9
          (ReadResult.frame ⟨"create", sampleRaw 7 3 "hi"⟩)).1, e.isStoreOrCache = false :=
  (HandleChat_create_guard 7 5 5 9).1 sampleEnv ⟨"create", sampleRaw 7 3 "hi"⟩ ⟨7, 3, "hi"⟩
    rfl rfl (Or.inl ⟨by decide, by decide⟩)

/-- C7. For an accepted create frame in a chat with two distinct participants,
the handler calls `AddNotification` exactly once, with a notification of type
`"message"` and read flag 0, for the participant other than the frame's
`user_id`: `second` when `user_id = first`, `first` when `user_id = second`,
never the sender. -/
theorem HandleChat_create_notifies_other (env : Env) (chatID : Int) (profileId : Nat)
    (first second : Int) (ws : WSMessage) (p : CreatePayload)
    (htype : ws.Type_ = "create") (hdec : ws.Payload.asCreatePayload = some p)
    (hsender : p.UserID = first ∨ p.UserID = second) (hchat : p.ChatID = chatID)
    (hdistinct : first ≠ second) :
    ∃ (recv : Int) (notif : NotificationSend),
      (HandleChat_frame env chatID profileId first second (ReadResult.frame ws)).1.filter
          Effect.isAddNotification = [Effect.addNotification recv notif] ∧
        notif.NotifType = "message" ∧ notif.Read = 0 ∧
        (p.UserID = first → recv = second) ∧ (p.UserID = second → recv = first) ∧
        recv ≠ p.UserID := by
  have hacc : ¬ (((p.UserID ≠ first) ∧ (p.UserID ≠ second)) ∨ (p.ChatID ≠ chatID)) := by
    rintro (⟨h1, h2⟩ | h3)
    · rcases hsender with h | h
      · exact h1 h
      · exact h2 h
    · exact h3 hchat
  refine ⟨recieverID first second p, messageNotif p, ?_, rfl, rfl, ?_, ?_, ?_⟩
  · simp only [HandleChat_frame, htype, if_true, HandleChat_create, hdec]
    rw [if_neg hacc]
    cases env.AddNotification (recieverID first second p) (messageNotif p) <;>
      simp [List.filter, Effect.isAddNotification]
  · intro h
    simp [recieverID, h]
  · intro h
    have hne : ¬ p.UserID = first := by
      rw [h]; exact fun h' => hdistinct h'.symm
    simp [recieverID, hne]
  · unfold recieverID
    by_cases h : p.UserID = first
    · rw [if_pos h, h]; exact fun h' => hdistinct h'.symm
    · rw [if_neg h]; exact fun h' => h h'.symm

theorem HandleChat_create_notifies_other_witness :
    ∃ (recv : Int) (notif : NotificationSend),
      (HandleChat_frame sampleEnv 7 5 5 9
          (ReadResult.frame ⟨"create", sampleRaw 7 9 "hi"⟩)).1.filter
          Effect.isAddNotification = [Effect.addNotification recv notif] ∧
        notif.NotifType = "message" ∧ notif.Read = 0 ∧
        ((9 : Int) = 5 → recv = 9) ∧ ((9 : Int) = 9 → recv = 5) ∧ recv ≠ 9 :=
  HandleChat_create_notifies_other sampleEnv 7 5 5 9 ⟨"create", sampleRaw 7 9 "hi"⟩
    ⟨7, 9, "hi"⟩ rfl rfl (Or.inr rfl) rfl (by decide)

/-! ## `HandleChat`: the `get` command -/

/-- C8, as stated, fails. With two durable messages in the store and both
caches empty, the frame answering `get` carries the empty list returned by
`GetMessagesFromCache` for the authenticated user, which is not a reconciled
view of the chat (that view holds the two durable messages). -/
theorem HandleChat_get_is_not_reconciled :
    HandleChat_frame sampleEnv 7 5 5 9 (ReadResult.frame ⟨"get", sampleRaw 7 5 ""⟩)
        = ([Effect.getMessagesFromCache 7 5,
            Effect.writeJSON
              [("type", Value.str "new_messages"), ("messages", Value.messages [])]],
           Control.nextFrame) ∧
      ¬ IsReconciledView sampleEnv 7 5 9 [] := by
  refine ⟨by decide, ?_⟩
  rintro ⟨messages, c1, c2, hm, h1, h2, hv⟩
  have hm' : messages = sampleDurable := by
    have : Except.ok sampleDurable = (Except.ok messages : Except String (List Message)) := hm
    injection this with h
    exact h.symm
  have h1' : c1 = [] := by
    have : Except.ok [] = (Except.ok c1 : Except String (List Message)) := h1
    injection this with h
    exact h.symm
  have h2' : c2 = [] := by
    have : Except.ok [] = (Except.ok c2 : Except String (List Message)) := h2
    injection this with h
    exact h.symm
  subst hm' h1' h2'
  revert hv
  decide

/-- C8, amended. The frame the chat handler returns for a get command has type
`new_messages` and carries exactly the list `GetMessagesFromCache` returns for
the chat of the session and the authenticated participant: the cached entries
of that participant alone, as the cache gives them; neither the durable
messages nor the cache of the other participant are read. -/
theorem HandleChat_get_returns_own_cache (env : Env) (chatID : Int) (profileId : Nat)
    (first second : Int) (ws : WSMessage) (newMessages : List Message)
    (htype : ws.Type_ = "get")
    (hcache : env.GetMessagesFromCache chatID (profileId : Int) = Except.ok newMessages) :
    HandleChat_frame env chatID profileId first second (ReadResult.frame ws)
      = ([Effect.getMessagesFromCache chatID (profileId : Int),
          Effect.writeJSON
            [("type", Value.str "new_messages"), ("messages", Value.messages newMessages)]],
         Control.nextFrame) := by
  have h1 : ¬ ("get" = "create") := by decide
  have h2 : ¬ ("get" = "delete") := by decide
  simp only [HandleChat_frame, htype, if_neg h1, if_neg h2, if_true, HandleChat_get, hcache]

theorem HandleChat_get_returns_own_cache_witness :
    HandleChat_frame sampleEnv 7 5 5 9 (ReadResult.frame ⟨"get", sampleRaw 7 5 ""⟩)
      = ([Effect.getMessagesFromCache 7 ((5 : Nat) : Int),
          Effect.writeJSON
            [("type", Value.str "new_messages"), ("messages", Value.messages [])]],
         Control.nextFrame) :=
  HandleChat_get_returns_own_cache sampleEnv 7 5 5 9 ⟨"get", sampleRaw 7 5 ""⟩ [] rfl rfl

/-! ## Both handlers: frames of unknown type, rejected commands -/

/-- C9. In the chat handler and in the notification handler, a well-formed
frame whose type is none of the commands of the handler makes the handler
write the single frame `{"error": "Unknown action type"}` and nothing else (no
call of a use case, no goroutine, no `close(done)`), and the handler goes on
with the next `conn.ReadMessage()`. -/
theorem unknown_type_reports_and_continues (env : Env) (chatID : Int) (profileId : Nat)
    (first second : Int) (ws : WSMessage)
    (rest : List (Env × ReadResult)) (restN : List ReadResult) :
    ((ws.Type_ ≠ "create" ∧ ws.Type_ ≠ "delete" ∧ ws.Type_ ≠ "get" ∧ ws.Type_ ≠ "read") →
        HandleChat_frame env chatID profileId first second (ReadResult.frame ws)
            = ([Effect.writeJSON [("error", Value.str "Unknown action type")]],
               Control.nextFrame) ∧
          HandleChat_loop chatID profileId first second ((env, ReadResult.frame ws) :: rest)
            = Effect.readMessage ::
              Effect.writeJSON [("error", Value.str "Unknown action type")] ::
              HandleChat_loop chatID profileId first second rest) ∧
      ((ws.Type_ ≠ "sendFlowers" ∧ ws.Type_ ≠ "delete" ∧ ws.Type_ ≠ "read") →
        GetNotifications_frame profileId (ReadResult.frame ws)
            = ([Effect.writeJSON [("error", Value.str "Unknown action type")]],
               Control.nextFrame) ∧
          GetNotifications_loop profileId (ReadResult.frame ws :: restN)
            = Effect.readMessage ::
              Effect.writeJSON [("error", Value.str "Unknown action type")] ::
              GetNotifications_loop profileId restN) := by
  constructor
  · rintro ⟨h1, h2, h3, h4⟩
    have hrun : HandleChat_frame env chatID profileId first second (ReadResult.frame ws)
        = ([Effect.writeJSON [("error", Value.str "Unknown action type")]],
           Control.nextFrame) := by
      simp only [HandleChat_frame, if_neg h1, if_neg h2, if_neg h3, if_neg h4, errorFrame]
    refine ⟨hrun, ?_⟩
    rw [HandleChat_loop, hrun]
    rfl
  · rintro ⟨h1, h2, h3⟩
    have hrun : GetNotifications_frame profileId (ReadResult.frame ws)
        = ([Effect.writeJSON [("error", Value.str "Unknown action type")]],
           Control.nextFrame) := by
      simp only [GetNotifications_frame, if_neg h1, if_neg h2, if_neg h3, errorFrame]
    refine ⟨hrun, ?_⟩
    rw [GetNotifications_loop, hrun]
    rfl

theorem unknown_type_reports_and_continues_witness :
    (HandleChat_frame sampleEnv 7 5 5 9 (ReadResult.frame ⟨"ping", sampleRaw 7 5 ""⟩)
        = ([Effect.writeJSON [("error", Value.str "Unknown action type")]],
           Control.nextFrame) ∧
      HandleChat_loop 7 5 5 9
          ((sampleEnv, ReadResult.frame ⟨"ping", sampleRaw 7 5 ""⟩) ::
            [(sampleEnv, ReadResult.frame ⟨"get", sampleRaw 7 5 ""⟩)])
        = Effect.readMessage ::
          Effect.writeJSON [("error", Value.str "Unknown action type")] ::
          HandleChat_loop 7 5 5 9 [(sampleEnv, ReadResult.frame ⟨"get", sampleRaw 7 5 ""⟩)]) ∧
    (GetNotifications_frame 5 (ReadResult.frame ⟨"ping", sampleRaw 7 5 ""⟩)
        = ([Effect.writeJSON [("error", Value.str "Unknown action type")]],
           Control.nextFrame) ∧
      GetNotifications_loop 5
          (ReadResult.frame ⟨"ping", sampleRaw 7 5 ""⟩ ::
            [ReadResult.frame ⟨"read", sampleRaw 7 5 ""⟩])
        = Effect.readMessage ::
          Effect.writeJSON [("error", Value.str "Unknown action type")] ::
          GetNotifications_loop 5 [ReadResult.frame ⟨"read", sampleRaw 7 5 ""⟩]) :=
  ⟨(unknown_type_reports_and_continues sampleEnv 7 5 5 9 ⟨"ping", sampleRaw 7 5 ""⟩
      [(sampleEnv, ReadResult.frame ⟨"get", sampleRaw 7 5 ""⟩)]
      [ReadResult.frame ⟨"read", sampleRaw 7 5 ""⟩]).1
      ⟨by decide, by decide, by decide, by decide⟩,
   (unknown_type_reports_and_continues sampleEnv 7 5 5 9 ⟨"ping", sampleRaw 7 5 ""⟩
      [(sampleEnv, ReadResult.frame ⟨"get", sampleRaw 7 5 ""⟩)]
      [ReadResult.frame ⟨"read", sampleRaw 7 5 ""⟩]).2
      ⟨by decide, by decide, by decide⟩⟩

/-- C10, evaluated at failing inputs. A create frame from a user who is not a
participant, a create frame for another chat, a delete frame for another chat
and a read frame for another chat each make the handler call
`MakeEasyJSONResponse` on the HTTP response writer and write no frame at all
to the WebSocket connection. -/
theorem HandleChat_rejections_write_no_frame :
    HandleChat_frame sampleEnv 7 5 5 9 (ReadResult.frame ⟨"create", sampleRaw 7 3 "hi"⟩)
        = ([Effect.respond 401 "You don't have access"], Control.nextFrame) ∧
      HandleChat_frame sampleEnv 7 5 5 9 (ReadResult.frame ⟨"create", sampleRaw 8 5 "hi"⟩)
        = ([Effect.respond 401 "You don't have access"], Control.nextFrame) ∧
      HandleChat_frame sampleEnv 7 5 5 9 (ReadResult.frame ⟨"delete", sampleRaw 8 5 ""⟩)
        = ([Effect.respond 401 "You don't have access"], Control.nextFrame) ∧
      HandleChat_frame sampleEnv 7 5 5 9 (ReadResult.frame ⟨"read", sampleRaw 8 5 ""⟩)
        = ([Effect.respond 401 "You don't have access"], Control.nextFrame) ∧
      [Effect.respond 401 "You don't have access"].filter Effect.isWriteJSON = [] := by
  decide

/-! ## Channel names -/

theorem digitsValue_append_singleton (cs : List Char) (c : Char) :
    digitsValue (cs ++ [c]) = 10 * digitsValue cs + (c.toNat - 48) := by
  simp [digitsValue, List.foldl_append]

theorem digitChar_value (k : Nat) (hk : k < 10) :
    (Nat.digitChar k).toNat - 48 = k ∧ (Nat.digitChar k).isDigit = true := by
  interval_cases k <;> decide

theorem toDigitsCore_spec (fuel n : Nat) (ds : List Char) (h : n < fuel) :
    ∃ pre : List Char, Nat.toDigitsCore 10 fuel n ds = pre ++ ds ∧ pre ≠ [] ∧
      digitsValue pre = n ∧ ∀ c ∈ pre, c.isDigit = true := by
  induction fuel generalizing n ds with
  | zero => exact absurd h (Nat.not_lt_zero n)
  | succ fuel ih =>
    have hd := digitChar_value (n % 10) (Nat.mod_lt n (by decide))
    unfold Nat.toDigitsCore
    by_cases h0 : n / 10 = 0
    · simp only [h0, if_true]
      refine ⟨[Nat.digitChar (n % 10)], rfl, by simp, ?_, ?_⟩
      · have hn : n % 10 = n := Nat.mod_eq_of_lt (by omega)
        have h1 := hd.1
        rw [hn] at h1
        simp [digitsValue, hn, h1]
      · intro c hc
        rw [List.mem_singleton] at hc
        rw [hc]; exact hd.2
    · simp only [h0, if_false]
      have hlt : n / 10 < fuel := by omega
      obtain ⟨pre, hpre, _, hval, hdig⟩ := ih (n / 10) (Nat.digitChar (n % 10) :: ds) hlt
      refine ⟨pre ++ [Nat.digitChar (n % 10)], ?_, by simp, ?_, ?_⟩
      · rw [hpre]; simp
      · rw [digitsValue_append_singleton, hval, hd.1]; omega
      · intro c hc
        rcases List.mem_append.1 hc with hc | hc
        · exact hdig c hc
        · rw [List.mem_singleton] at hc
          rw [hc]; exact hd.2

theorem toDigits_spec (n : Nat) :
    Nat.toDigits 10 n ≠ [] ∧ digitsValue (Nat.toDigits 10 n) = n ∧
      ∀ c ∈ Nat.toDigits 10 n, c.isDigit = true := by
  obtain ⟨pre, hpre, hne, hval, hdig⟩ := toDigitsCore_spec (n + 1) n [] (Nat.lt_succ_self n)
  have : Nat.toDigits 10 n = pre := by
    unfold Nat.toDigits; rw [hpre]; simp
  rw [this]
  exact ⟨hne, hval, hdig⟩

theorem toString_nat_data (n : Nat) : (toString n).data = Nat.toDigits 10 n := rfl

theorem toString_int_data (i : Int) :
    (toString i).data = match i with
      | Int.ofNat m => Nat.toDigits 10 m
      | Int.negSucc m => '-' :: Nat.toDigits 10 (m + 1) := by
  cases i with
  | ofNat m => rfl
  | negSucc m => rfl

theorem toString_int_injective (i j : Int) (h : (toString i).data = (toString j).data) :
    i = j := by
  rw [toString_int_data, toString_int_data] at h
  cases i with
  | ofNat m =>
    cases j with
    | ofNat n =>
      simp only at h
      have := congrArg digitsValue h
      rw [(toDigits_spec m).2.1, (toDigits_spec n).2.1] at this
      rw [this]
    | negSucc n =>
      simp only at h
      exfalso
      have hm := toDigits_spec m
      rw [h] at hm
      have := hm.2.2 '-' (List.mem_cons_self _ _)
      revert this; decide
  | negSucc m =>
    cases j with
    | ofNat n =>
      simp only at h
      exfalso
      have hn := toDigits_spec n
      rw [← h] at hn
      have := hn.2.2 '-' (List.mem_cons_self _ _)
      revert this; decide
    | negSucc n =>
      simp only at h
      have h' := List.tail_eq_of_cons_eq h
      have := congrArg digitsValue h'
      rw [(toDigits_spec (m + 1)).2.1, (toDigits_spec (n + 1)).2.1] at this
      have hmn : m = n := by omega
      rw [hmn]

theorem toString_int_no_space (i : Int) : ' ' ∉ (toString i).data := by
  rw [toString_int_data]
  cases i with
  | ofNat m =>
    simp only
    intro h
    have := (toDigits_spec m).2.2 ' ' h
    revert this; decide
  | negSucc m =>
    simp only
    intro h
    rcases List.mem_cons.1 h with h | h
    · revert h; decide
    · have := (toDigits_spec (m + 1)).2.2 ' ' h
      revert this; decide

/-- Two lists that agree after a separator which occurs in neither prefix
have equal prefixes and equal remainders. -/
theorem split_at_separator {α : Type} (s : α) :
    ∀ (l₁ l₂ r₁ r₂ : List α), s ∉ l₁ → s ∉ l₂ → l₁ ++ s :: r₁ = l₂ ++ s :: r₂ →
      l₁ = l₂ ∧ r₁ = r₂
  | [], [], r₁, r₂, _, _, h => by
    simp only [List.nil_append] at h
    exact ⟨rfl, List.tail_eq_of_cons_eq h⟩
  | [], b :: l₂, r₁, r₂, _, h₂, h => by
    simp only [List.nil_append, List.cons_append] at h
    exact absurd (List.head_eq_of_cons_eq h) (fun hb => h₂ (hb ▸ List.mem_cons_self _ _))
  | a :: l₁, [], r₁, r₂, h₁, _, h => by
    simp only [List.nil_append, List.cons_append] at h
    exact absurd (List.head_eq_of_cons_eq h) (fun ha => h₁ (ha ▸ List.mem_cons_self _ _))
  | a :: l₁, b :: l₂, r₁, r₂, h₁, h₂, h => by
    simp only [List.cons_append] at h
    have hab := List.head_eq_of_cons_eq h
    have ht := List.tail_eq_of_cons_eq h
    have := split_at_separator s l₁ l₂ r₁ r₂
      (fun hm => h₁ (List.mem_cons_of_mem _ hm)) (fun hm => h₂ (List.mem_cons_of_mem _ hm)) ht
    exact ⟨by rw [hab, this.1], this.2⟩


theorem toString_nat_no_space (n : Nat) : ' ' ∉ (toString n).data := by
  rw [toString_nat_data]
  intro h
  have := (toDigits_spec n).2.2 ' ' h
  revert this; decide

theorem toString_nat_injective (m n : Nat) (h : (toString m).data = (toString n).data) :
    m = n := by
  rw [toString_nat_data, toString_nat_data] at h
  have := congrArg digitsValue h
  rwa [(toDigits_spec m).2.1, (toDigits_spec n).2.1] at this

theorem chatChannelName_data (u : Nat) (c : Int) :
    (chatChannelName u c).data
      = "user:".data ++ ((toString u).data ++ ' ' :: ("chat:".data ++
          ((toString c).data ++ " messages".data))) := by
  simp only [chatChannelName, String.data_append, List.append_assoc]
  rfl

theorem notificationsChannelName_data (u : Int) :
    (notificationsChannelName u).data
      = "user:".data ++ ((toString u).data ++ ' ' :: "notifications".data) := by
  simp only [notificationsChannelName, String.data_append, List.append_assoc]

/-- C14. Channel names are injective in their scope: two chat channel names
are equal only for the same user and the same chat, two notification channel
names only for the same user, and a chat channel name is never a notification
channel name. A subscription receives what is published on the channel of
exactly its own name, so a publish for one recipient reaches no subscription
of another recipient or of the other domain. -/
theorem channel_names_injective :
    (∀ (u u' : Nat) (c c' : Int),
        chatChannelName u c = chatChannelName u' c' → u = u' ∧ c = c') ∧
      (∀ u u' : Int, notificationsChannelName u = notificationsChannelName u' → u = u') ∧
      (∀ (u : Nat) (c v : Int), chatChannelName u c ≠ notificationsChannelName v) := by
  refine ⟨?_, ?_, ?_⟩
  · intro u u' c c' h
    have hd := congrArg String.data h
    rw [chatChannelName_data, chatChannelName_data] at hd
    have h1 := List.append_cancel_left hd
    obtain ⟨hu, hr⟩ := split_at_separator ' ' _ _ _ _
      (toString_nat_no_space u) (toString_nat_no_space u') h1
    have h2 := List.append_cancel_right (List.append_cancel_left hr)
    exact ⟨toString_nat_injective u u' hu, toString_int_injective c c' h2⟩
  · intro u u' h
    have hd := congrArg String.data h
    rw [notificationsChannelName_data, notificationsChannelName_data] at hd
    have h1 := List.append_cancel_left hd
    exact toString_int_injective u u'
      (split_at_separator ' ' _ _ _ _ (toString_int_no_space u) (toString_int_no_space u') h1).1
  · intro u c v h
    have hd := congrArg String.data h
    rw [chatChannelName_data, notificationsChannelName_data] at hd
    have h1 := List.append_cancel_left hd
    have hr := (split_at_separator ' ' _ _ _ _
      (toString_nat_no_space u) (toString_int_no_space v) h1).2
    have hc := List.head_eq_of_cons_eq hr
    revert hc; decide

theorem channel_names_injective_witness :
    chatChannelName 5 7 = chatChannelName 5 7 ∧ ((5 : Nat) = 5 ∧ (7 : Int) = 7) :=
  ⟨rfl, channel_names_injective.1 5 5 7 7 rfl⟩

/-! ## Leaving the inbound loops -/

/-- C11, evaluated at a failing input. In a session of user 5 on chat 7
(participants 5 and 9), a create frame of user 5 arrives while
`AddNotification` fails, followed by a `get` frame. The handler writes the
error frame and returns: its deferred calls close the subscription and the
connection, and the `get` frame is never read. -/
theorem HandleChat_returns_when_notification_fails :
    HandleChat_loop 7 5 5 9
        [(notifyDownEnv, ReadResult.frame ⟨"create", sampleRaw 7 5 "hi"⟩),
         (sampleEnv, ReadResult.frame ⟨"get", sampleRaw 7 5 ""⟩)]
      = [Effect.readMessage,
         Effect.addNotification 9 ⟨0, 0, "message", "User 5 sent you a message!"⟩,
         Effect.writeJSON [("error", Value.str "Failed to notify")],
         Effect.pubsubClose, Effect.cancel, Effect.connClose] := by
  decide

/-- C19, evaluated at a failing input. On the same run as for C11 the handler
returns (the deferred `conn.Close()` is run) and `close(done)` has not been
executed: the outbound goroutine is left waiting in its `select`. -/
theorem HandleChat_returns_without_closing_done :
    Effect.connClose ∈ HandleChat_loop 7 5 5 9
        [(notifyDownEnv, ReadResult.frame ⟨"create", sampleRaw 7 5 "hi"⟩)] ∧
      Effect.closeDone ∉ HandleChat_loop 7 5 5 9
        [(notifyDownEnv, ReadResult.frame ⟨"create", sampleRaw 7 5 "hi"⟩)] := by
  decide

theorem HandleChat_frame_closeDone (env : Env) (chatID : Int) (profileId : Nat)
    (first second : Int) (rd : ReadResult)
    (h : Effect.closeDone ∈ (HandleChat_frame env chatID profileId first second rd).1) :
    HandleChat_frame env chatID profileId first second rd
      = ([Effect.writeJSON (errorFrame "Error reading message"), Effect.closeDone],
         Control.leave) := by
  cases rd with
  | readError e => rfl
  | invalidFormat => simp [HandleChat_frame, errorFrame] at h
  | frame ws =>
    exfalso
    unfold HandleChat_frame at h
    simp only at h
    split_ifs at h
    · unfold HandleChat_create at h
      split at h
      · simp [errorFrame] at h
      · split_ifs at h
        · simp at h
        · split at h <;> simp [errorFrame] at h
    · unfold HandleChat_delete at h
      split at h
      · simp [errorFrame] at h
      · split_ifs at h <;> simp at h
    · unfold HandleChat_get at h
      split at h <;> simp [errorFrame] at h
    · unfold HandleChat_read at h
      split at h
      · simp [errorFrame] at h
      · split_ifs at h <;> simp at h
    · simp [errorFrame] at h

theorem GetNotifications_frame_closeDone (profileId : Nat) (rd : ReadResult)
    (h : Effect.closeDone ∈ (GetNotifications_frame profileId rd).1) :
    GetNotifications_frame profileId rd
      = ([Effect.writeJSON (errorFrame "Error reading message"), Effect.closeDone],
         Control.leave) := by
  cases rd with
  | readError e => rfl
  | invalidFormat => simp [GetNotifications_frame, errorFrame] at h
  | frame ws =>
    exfalso
    unfold GetNotifications_frame at h
    simp only at h
    split_ifs at h
    · split at h <;> simp [errorFrame] at h
    · split at h <;> simp [errorFrame] at h
    · split at h <;> simp [errorFrame] at h
    · simp [errorFrame] at h

theorem count_closeDone_frame_effects (effects : List Effect) (ctl : Control)
    (h : Effect.closeDone ∈ effects →
      (effects, ctl) = ([Effect.writeJSON (errorFrame "Error reading message"),
        Effect.closeDone], Control.leave)) :
    effects.count Effect.closeDone ≤ 1 ∧
      (ctl = Control.nextFrame → effects.count Effect.closeDone = 0) := by
  by_cases hm : Effect.closeDone ∈ effects
  · have he := h hm
    injection he with h1 h2
    subst h1 h2
    refine ⟨by decide, ?_⟩
    intro hc; cases hc
  · have h0 : effects.count Effect.closeDone = 0 := List.count_eq_zero_of_not_mem hm
    exact ⟨by omega, fun _ => h0⟩

theorem HandleChat_loop_closeDone_le_one (chatID : Int) (profileId : Nat) (first second : Int)
    (reads : List (Env × ReadResult)) :
    (HandleChat_loop chatID profileId first second reads).count Effect.closeDone ≤ 1 := by
  induction reads with
  | nil => simp [HandleChat_loop]
  | cons x rest ih =>
    obtain ⟨env, rd⟩ := x
    have hfr := HandleChat_frame_closeDone env chatID profileId first second rd
    unfold HandleChat_loop
    cases hres : HandleChat_frame env chatID profileId first second rd with
    | mk effects ctl =>
      rw [hres] at hfr
      have hc := count_closeDone_frame_effects effects ctl hfr
      cases ctl with
      | nextFrame =>
        have h0 := hc.2 rfl
        simp only [List.count_cons, List.count_append, h0]
        simpa using ih
      | leave =>
        simp only [List.count_cons, List.count_append]
        have := hc.1
        simpa using this

theorem GetNotifications_loop_closeDone_le_one (profileId : Nat) (reads : List ReadResult) :
    (GetNotifications_loop profileId reads).count Effect.closeDone ≤ 1 := by
  induction reads with
  | nil => simp [GetNotifications_loop]
  | cons rd rest ih =>
    have hfr := GetNotifications_frame_closeDone profileId rd
    unfold GetNotifications_loop
    cases hres : GetNotifications_frame profileId rd with
    | mk effects ctl =>
      rw [hres] at hfr
      have hc := count_closeDone_frame_effects effects ctl hfr
      cases ctl with
      | nextFrame =>
        have h0 := hc.2 rfl
        simp only [List.count_cons, List.count_append, h0]
        simpa using ih
      | leave =>
        simp only [List.count_cons, List.count_append]
        have := hc.1
        simpa using this

/-- C12. In both handlers a failed `conn.ReadMessage()` makes the handler write
its error frame, execute `close(done)` once, read no further frame and return
(its deferred calls run); in no run is `close(done)` executed more than once;
and an outbound loop whose `select` takes the `<-done` case returns without
writing a frame, whatever is waiting on the subscription. -/
theorem read_error_closes_done_and_returns (chatID : Int) (profileId : Nat)
    (first second : Int) (env : Env) (err : String)
    (rest : List (Env × ReadResult)) (restN : List ReadResult)
    (reads : List (Env × ReadResult)) (readsN : List ReadResult)
    (restO : List (Env × Selected)) (nenv : NotifEnv) (restNO : List (NotifEnv × Selected)) :
    HandleChat_loop chatID profileId first second ((env, ReadResult.readError err) :: rest)
        = [Effect.readMessage, Effect.writeJSON [("error", Value.str "Error reading message")],
           Effect.closeDone, Effect.pubsubClose, Effect.cancel, Effect.connClose] ∧
      GetNotifications_loop profileId (ReadResult.readError err :: restN)
        = [Effect.readMessage, Effect.writeJSON [("error", Value.str "Error reading message")],
           Effect.closeDone, Effect.pubsubClose, Effect.cancel, Effect.connClose] ∧
      (HandleChat_loop chatID profileId first second reads).count Effect.closeDone ≤ 1 ∧
      (GetNotifications_loop profileId readsN).count Effect.closeDone ≤ 1 ∧
      chatOutboundTask chatID profileId ((env, Selected.done) :: restO) = [] ∧
      notificationsOutboundTask profileId ((nenv, Selected.done) :: restNO) = [] :=
  ⟨rfl, rfl, HandleChat_loop_closeDone_le_one chatID profileId first second reads,
    GetNotifications_loop_closeDone_le_one profileId readsN, rfl, rfl⟩

/-! ## Order of the frames of `HandleChat` -/

/-- An error frame has no entry under the key `"type"`. -/
theorem errorFrame_has_no_type (text : String) :
    (errorFrame text).lookup "type" = none := by
  simp [errorFrame, List.lookup]

/-- C13, as stated, fails: when the cache read of the outbound loop fails, the
frame the loop writes is `{"error": "Failed to get messages"}`, which has no
type `"new_messages"`. -/
theorem chatOutbound_writes_error_frame :
    chatOutboundTask 7 5 [(cacheDownEnv, Selected.wakeUp)]
        = [Effect.getMessagesFromCache 7 5,
           Effect.writeJSON [("error", Value.str "Failed to get messages")]] ∧
      ([("error", Value.str "Failed to get messages")] : Frame).lookup "type"
        ≠ some (Value.str "new_messages") := by
  decide

theorem chatOutboundTask_frames (chatID : Int) (profileId : Nat)
    (steps : List (Env × Selected)) (f : Frame)
    (h : Effect.writeJSON f ∈ chatOutboundTask chatID profileId steps) :
    (∃ newMessages : List Message, newMessages ≠ [] ∧
        f = [("type", Value.str "new_messages"), ("messages", Value.messages newMessages)]) ∨
      f = errorFrame "Failed to get messages" := by
  induction steps with
  | nil => simp [chatOutboundTask] at h
  | cons x rest ih =>
    obtain ⟨env, sel⟩ := x
    cases sel with
    | done => simp [chatOutboundTask] at h
    | wakeUp =>
      unfold chatOutboundTask at h
      rw [List.mem_cons] at h
      rcases h with h | h
      · cases h
      · split at h
        · rw [List.mem_cons] at h
          rcases h with h | h
          · injection h with h
            exact Or.inr h
          · exact ih h
        · rename_i newMessages _
          split_ifs at h with hlen
          · rw [List.mem_cons] at h
            rcases h with h | h
            · injection h with h
              refine Or.inl ⟨newMessages, ?_, h⟩
              intro hnil
              rw [hnil] at hlen
              simp at hlen
            · exact ih h
          · exact ih h

/-- C13, amended. In every run of `HandleChat` that passes the participant
check and loads the initial data, no frame is written and no goroutine is
started before the frame `{type: "init_messages", messages: <merged view>}`;
the outbound loop is started after it; and every frame the outbound loop
writes either has type `"new_messages"` (with a non-empty list) or is the
error frame `{"error": "Failed to get messages"}` written when its cache read
fails. -/
theorem HandleChat_init_first_then_pushes (rangeOrder : List Message → List Message)
    (env : Env) (chatID : Int) (profileId : Nat) (reads : List (Env × ReadResult))
    (first second : Int) (messages c1 c2 : List Message)
    (hp : env.GetChatParticipants chatID = Except.ok (first, second))
    (hpass : ¬ ((profileId : Int) ≠ uint32 first ∧ (profileId : Int) ≠ uint32 second))
    (hm : env.GetMessages chatID = Except.ok messages)
    (h1 : env.GetMessagesFromCache chatID first = Except.ok c1)
    (h2 : env.GetMessagesFromCache chatID second = Except.ok c2) :
    (∃ pre post : List Effect,
        HandleChat_upgraded rangeOrder env chatID profileId reads
          = pre ++ Effect.writeJSON
              [("type", Value.str "init_messages"),
               ("messages", Value.messages (mergeMessages rangeOrder messages c1 c2))] ::
            Effect.subscribe (chatChannelName profileId chatID) ::
            Effect.go (Task.chatOutbound chatID profileId) :: post ∧
        ∀ e ∈ pre, e.isWriteJSON = false ∧ ∀ t : Task, e ≠ Effect.go t) ∧
      ∀ (steps : List (Env × Selected)) (f : Frame),
        Effect.writeJSON f ∈ chatOutboundTask chatID profileId steps →
        (∃ newMessages : List Message, newMessages ≠ [] ∧
            f = [("type", Value.str "new_messages"),
                 ("messages", Value.messages newMessages)]) ∨
          f = errorFrame "Failed to get messages" := by
  refine ⟨⟨[Effect.getChatParticipants chatID, Effect.getMessages chatID,
      Effect.getMessagesFromCache chatID first, Effect.getMessagesFromCache chatID second],
      HandleChat_loop chatID profileId first second reads, ?_, ?_⟩, ?_⟩
  · rw [HandleChat_upgraded_streams rangeOrder env chatID profileId reads first second
      messages c1 c2 hp hpass hm h1 h2]
    rfl
  · intro e he
    simp only [List.mem_cons, List.mem_singleton, List.not_mem_nil, or_false] at he
    rcases he with he | he | he | he <;> subst he <;>
      exact ⟨rfl, fun t h => by cases h⟩
  · intro steps f h
    exact chatOutboundTask_frames chatID profileId steps f h

theorem HandleChat_init_first_then_pushes_witness :
    (∃ pre post : List Effect,
        HandleChat_upgraded id sampleEnv 7 5 [] = pre ++ Effect.writeJSON
              [("type", Value.str "init_messages"),
               ("messages", Value.messages (mergeMessages id sampleDurable [] []))] ::
            Effect.subscribe (chatChannelName 5 7) ::
            Effect.go (Task.chatOutbound 7 5) :: post ∧
        ∀ e ∈ pre, e.isWriteJSON = false ∧ ∀ t : Task, e ≠ Effect.go t) ∧
      ∀ (steps : List (Env × Selected)) (f : Frame),
        Effect.writeJSON f ∈ chatOutboundTask 7 5 steps →
        (∃ newMessages : List Message, newMessages ≠ [] ∧
            f = [("type", Value.str "new_messages"),
                 ("messages", Value.messages newMessages)]) ∨
          f = errorFrame "Failed to get messages" :=
  HandleChat_init_first_then_pushes id sampleEnv 7 5 [] 5 9 sampleDurable [] []
    rfl (by decide) rfl rfl rfl

/-! ## The notification cache -/

theorem exec_push_trim_expire (r : Redis) (key value : String) (seconds : Nat) :
    ((r.exec [RedisCmd.LPush key value, RedisCmd.LTrim key 0 99,
        RedisCmd.Expire key seconds]).lists key = value :: (r.lists key).take 99) ∧
      ((r.exec [RedisCmd.LPush key value, RedisCmd.LTrim key 0 99,
        RedisCmd.Expire key seconds]).ttl key = some seconds) := by
  simp [Redis.exec, Redis.apply, Redis.setList, Redis.LRange]

/-- After a successful `NotificationsRepo.AddNotification` the list of the
recipient starts with the text of the stored notification and holds at most
100 entries. -/
theorem AddNotification_bounds_cache (json : JSON) (notifID : Int) (publishErr : Option String)
    (redis : Redis) (userID : Int) (notif : NotificationSend) :
    ((NotificationsRepo.AddNotification json (Except.ok notifID) none publishErr redis userID
        notif).2.1.lists (redisKey userID)
      = json.Marshal { notif with NotificationID := notifID }
          :: (redis.lists (redisKey userID)).take 99) ∧
      ((NotificationsRepo.AddNotification json (Except.ok notifID) none publishErr redis userID
        notif).2.1.lists (redisKey userID)).length ≤ 100 := by
  have h := (exec_push_trim_expire redis (redisKey userID)
    (json.Marshal { notif with NotificationID := notifID }) (30 * 3600)).1
  have hl : (NotificationsRepo.AddNotification json (Except.ok notifID) none publishErr redis
      userID notif).2.1.lists (redisKey userID)
      = json.Marshal { notif with NotificationID := notifID }
          :: (redis.lists (redisKey userID)).take 99 := by
    cases publishErr <;> simpa [NotificationsRepo.AddNotification] using h
  refine ⟨hl, ?_⟩
  rw [hl, List.length_cons, List.length_take]
  omega

/-- What a successful run of the `sendFlowers` goroutine leaves in the cache:
the new text in front of the whole former list, nothing trimmed. -/
theorem sendFlowersTask_cache (json : JSON) (redis : Redis) (payload : FlowersPayload)
    (profileId : Nat) :
    (sendFlowersTask json none none redis payload profileId).2.lists (redisKey payload.UserID)
      = json.Marshal (flowersNotif profileId) :: redis.lists (redisKey payload.UserID) := by
  simp [sendFlowersTask, Redis.exec, Redis.apply, Redis.setList]

/-- C15, evaluated at a failing input. User 5 sends flowers to user 9, whose
cached list already holds 100 entries: after the `sendFlowers` goroutine the
new payload is at the head of the list and the list holds 101 entries, since
the goroutine queues `LPush` and `Expire` but no `LTrim`. -/
theorem sendFlowers_grows_cache_past_100 :
    (fullRedis.lists (redisKey 9)).length = 100 ∧
      ((sendFlowersTask sampleJSON none none fullRedis ⟨9⟩ 5).2.lists (redisKey 9)).head?
        = some (sampleJSON.Marshal (flowersNotif 5)) ∧
      ((sendFlowersTask sampleJSON none none fullRedis ⟨9⟩ 5).2.lists (redisKey 9)).length
        = 101 := by
  have h := sendFlowersTask_cache sampleJSON fullRedis ⟨9⟩ 5
  simp only at h
  rw [h]
  refine ⟨?_, rfl, ?_⟩
  · simp [fullRedis]
  · simp [fullRedis]

/-- C20. After `NotificationsRepo.AddNotification(u, n)` returns without error,
`GetCurrentNotifications(u)` returns a list whose first element is `n` with
`NotificationID` set to the identifier returned by the `INSERT` (type, content
and read flag as given), provided `encoding/json` reads back what it wrote for
that notification; and the single message published went to the channel name
the notification session of user `u` subscribes to. -/
theorem AddNotification_round_trip (json : JSON) (insert : Except String Int)
    (execErr publishErr : Option String) (redis : Redis) (userID : Int)
    (notif : NotificationSend)
    (hok : (NotificationsRepo.AddNotification json insert execErr publishErr redis userID
      notif).1 = none)
    (hjson : ∀ notifID : Int, insert = Except.ok notifID →
      json.Unmarshal (json.Marshal ⟨notifID, notif.Read, notif.NotifType, notif.Content⟩)
        = some ⟨notifID, notif.Read, notif.NotifType, notif.Content⟩) :
    ∃ notifID : Int, insert = Except.ok notifID ∧
      (∃ rest : List NotificationSend,
        NotificationsRepo.GetCurrentNotifications json none
            (NotificationsRepo.AddNotification json insert execErr publishErr redis userID
              notif).2.1 userID
          = Except.ok (⟨notifID, notif.Read, notif.NotifType, notif.Content⟩ :: rest)) ∧
      (NotificationsRepo.AddNotification json insert execErr publishErr redis userID notif).2.2
        = [(notificationsChannelName userID, "new")] ∧
      ∀ (profileId : Nat) (env : NotifEnv) (reads : List ReadResult)
        (notifications : List NotificationSend),
        (profileId : Int) = userID →
        env.GetNotifications (profileId : Int) = Except.ok notifications →
        Effect.subscribe (notificationsChannelName userID)
          ∈ GetNotifications ⟨some profileId, none⟩ env reads := by
  cases insert with
  | error e => simp [NotificationsRepo.AddNotification] at hok
  | ok notifID =>
    cases execErr with
    | some e => simp [NotificationsRepo.AddNotification] at hok
    | none =>
      cases publishErr with
      | some e => simp [NotificationsRepo.AddNotification] at hok
      | none =>
        refine ⟨notifID, rfl, ?_, ?_, ?_⟩
        · have hl := (AddNotification_bounds_cache json notifID none redis userID notif).1
          refine ⟨((redis.lists (redisKey userID)).take 99).filterMap json.Unmarshal, ?_⟩
          unfold NotificationsRepo.GetCurrentNotifications
          simp only [Redis.LRange, hl, List.drop_zero]
          have htake : (json.Marshal { notif with NotificationID := notifID }
              :: (redis.lists (redisKey userID)).take 99).take (99 + 1 - 0)
              = json.Marshal { notif with NotificationID := notifID }
                  :: (redis.lists (redisKey userID)).take 99 := by
            apply List.take_of_length_le
            rw [List.length_cons, List.length_take]
            omega
          rw [htake, List.filterMap_cons, hjson notifID rfl]
        · simp [NotificationsRepo.AddNotification]
        · intro profileId env reads notifications hu hload
          subst hu
          unfold GetNotifications
          simp only [hload]
          simp

theorem AddNotification_round_trip_witness :
    ∃ notifID : Int, (Except.ok 42 : Except String Int) = Except.ok notifID ∧
      (∃ rest : List NotificationSend,
        NotificationsRepo.GetCurrentNotifications sampleJSON none
            (NotificationsRepo.AddNotification sampleJSON (Except.ok 42) none none emptyRedis 9
              (messageNotif ⟨7, 5, "hi"⟩)).2.1 9
          = Except.ok (⟨notifID, (messageNotif ⟨7, 5, "hi"⟩).Read,
              (messageNotif ⟨7, 5, "hi"⟩).NotifType,
              (messageNotif ⟨7, 5, "hi"⟩).Content⟩ :: rest)) ∧
      (NotificationsRepo.AddNotification sampleJSON (Except.ok 42) none none emptyRedis 9
          (messageNotif ⟨7, 5, "hi"⟩)).2.2
        = [(notificationsChannelName 9, "new")] ∧
      ∀ (profileId : Nat) (env : NotifEnv) (reads : List ReadResult)
        (notifications : List NotificationSend),
        (profileId : Int) = 9 →
        env.GetNotifications (profileId : Int) = Except.ok notifications →
        Effect.subscribe (notificationsChannelName 9)
          ∈ GetNotifications ⟨some profileId, none⟩ env reads :=
  AddNotification_round_trip sampleJSON (Except.ok 42) none none emptyRedis 9
    (messageNotif ⟨7, 5, "hi"⟩) rfl
    (by
      intro notifID h
      injection h with h
      subst h
      decide)

/-! ## Which copy of a message the merge keeps -/

/-- C16, evaluated at a failing input. User 5 opens the notification stream and
the WebSocket upgrade fails. `GetNotifications` does not return after
answering 500: it still calls the `GetNotifications` use case and then calls
methods of the nil connection (`conn.WriteJSON`, and the deferred
`conn.Close()`), which panic. `HandleChat` on the same failure returns at
once. -/
theorem GetNotifications_goes_on_after_failed_upgrade :
    GetNotifications ⟨some 5, some "websocket: bad handshake"⟩ sampleNotifEnv []
        = [Effect.upgrade, Effect.respond 500 "Failed to establish WebSocket connection",
           Effect.getNotifications 5, Effect.panicNilConn, Effect.panicNilConn] ∧
      HandleChat id ⟨some "7", some 5, some "websocket: bad handshake"⟩ sampleEnv []
        = [Effect.upgrade, Effect.respond 500 "Failed to establish WebSocket connection"] := by
  decide

/-- Supporting fact for C16: when an initial load fails, either handler writes
one error frame and returns; no init frame is written, nothing is subscribed
to and no loop is started. -/
theorem initial_load_failure_aborts (rangeOrder : List Message → List Message) (env : Env)
    (chatID : Int) (profileId : Nat) (reads : List (Env × ReadResult)) (first second : Int)
    (err : String) (nenv : NotifEnv) (readsN : List ReadResult)
    (hp : env.GetChatParticipants chatID = Except.ok (first, second))
    (hpass : ¬ ((profileId : Int) ≠ uint32 first ∧ (profileId : Int) ≠ uint32 second))
    (hm : env.GetMessages chatID = Except.error err)
    (hn : nenv.GetNotifications (profileId : Int) = Except.error err) :
    HandleChat_upgraded rangeOrder env chatID profileId reads
        = [Effect.getChatParticipants chatID, Effect.getMessages chatID,
           Effect.writeJSON (errorFrame "Failed to load initial messages"), Effect.connClose] ∧
      GetNotifications ⟨some profileId, none⟩ nenv readsN
        = [Effect.upgrade, Effect.getNotifications (profileId : Int),
           Effect.writeJSON (errorFrame ("Failed to load initial notifications " ++ err)),
           Effect.connClose] := by
  constructor
  · unfold HandleChat_upgraded
    rw [hp]
    simp only [if_neg hpass, hm]
  · unfold GetNotifications
    simp only [hn]

/-! ## `CreateChat` and `DeleteChat` -/

/-- C17, as stated, fails: user 5 asks to create, and to delete, the chat of
user 5 with user 5; both handlers pass the request to the use case. -/
theorem chat_handlers_pass_equal_ids :
    CreateChat ⟨some 5, BodyResult.request ⟨5, 5⟩⟩ (fun _ _ => Except.ok 1)
        = [Effect.createChat 5 5, Effect.respond 201 "Chat created"] ∧
      DeleteChat ⟨some 5, BodyResult.request ⟨5, 5⟩⟩ (fun _ _ => none)
        = [Effect.deleteChat 5 5, Effect.respond 201 "Chat deleted"] := by
  decide

/-- C17, amended. `CreateChat` and `DeleteChat` reject every request whose two
participant ids are equal and differ from the id of the authenticated user:
the answer is 401 and the use case is not invoked. A request whose two ids
are both the id of the authenticated user passes the check of the handler, and
the use case is invoked with the two equal ids. -/
theorem chat_handlers_on_equal_ids (profileId : Nat) (req : CreateChatRequest)
    (createChat : Int → Int → Except String Int) (deleteChat : Int → Int → Option String)
    (heq : req.FristID = req.SecondID) :
    (req.FristID ≠ (profileId : Int) →
        CreateChat ⟨some profileId, BodyResult.request req⟩ createChat
            = [Effect.respond 401 "Unauthorized"] ∧
          DeleteChat ⟨some profileId, BodyResult.request req⟩ deleteChat
            = [Effect.respond 401 "Unauthorized"]) ∧
      (req.FristID = (profileId : Int) →
        Effect.createChat (profileId : Int) (profileId : Int)
            ∈ CreateChat ⟨some profileId, BodyResult.request req⟩ createChat ∧
          Effect.deleteChat (profileId : Int) (profileId : Int)
            ∈ DeleteChat ⟨some profileId, BodyResult.request req⟩ deleteChat) := by
  constructor
  · intro hne
    have hne2 : req.SecondID ≠ (profileId : Int) := heq ▸ hne
    constructor
    · simp only [CreateChat]
      rw [if_pos ⟨hne, hne2⟩]
    · simp only [DeleteChat]
      rw [if_pos ⟨hne, hne2⟩]
  · intro hself
    have hself2 : req.SecondID = (profileId : Int) := heq ▸ hself
    have hpass : ¬ ((req.FristID ≠ (profileId : Int)) ∧ (req.SecondID ≠ (profileId : Int))) :=
      fun h => h.1 hself
    constructor
    · simp only [CreateChat]
      rw [if_neg hpass, hself, hself2]
      cases createChat (profileId : Int) (profileId : Int) <;> simp
    · simp only [DeleteChat]
      rw [if_neg hpass, hself, hself2]
      cases deleteChat (profileId : Int) (profileId : Int) <;> simp

theorem chat_handlers_on_equal_ids_witness :
    CreateChat ⟨some 5, BodyResult.request ⟨8, 8⟩⟩ (fun _ _ => Except.ok 1)
        = [Effect.respond 401 "Unauthorized"] ∧
      DeleteChat ⟨some 5, BodyResult.request ⟨8, 8⟩⟩ (fun _ _ => none)
        = [Effect.respond 401 "Unauthorized"] :=
  (chat_handlers_on_equal_ids 5 ⟨8, 8⟩ (fun _ _ => Except.ok 1) (fun _ _ => none) rfl).1
    (by decide)

/-! ## `HandleChat`: the `delete` and `read` commands, the sender of `create` -/

/-- An effect of the inbound loop is the read itself, a deferred call, or an
effect of one of the iterations. -/
theorem HandleChat_loop_mem (chatID : Int) (profileId : Nat) (first second : Int)
    (reads : List (Env × ReadResult)) (e : Effect)
    (h : e ∈ HandleChat_loop chatID profileId first second reads) :
    e = Effect.readMessage ∨ e ∈ [Effect.pubsubClose, Effect.cancel, Effect.connClose] ∨
      ∃ (env : Env) (rd : ReadResult), (env, rd) ∈ reads ∧
        e ∈ (HandleChat_frame env chatID profileId first second rd).1 := by
  induction reads with
  | nil =>
    simp only [HandleChat_loop, List.mem_singleton] at h
    exact Or.inl h
  | cons x rest ih =>
    obtain ⟨env, rd⟩ := x
    unfold HandleChat_loop at h
    cases hfr : HandleChat_frame env chatID profileId first second rd with
    | mk effects ctl =>
      have hmem : ∀ e', e' ∈ effects →
          e' ∈ (HandleChat_frame env chatID profileId first second rd).1 := by
        intro e' he'; rw [hfr]; exact he'
      rw [hfr] at h
      cases ctl with
      | nextFrame =>
        simp only [List.mem_cons, List.mem_append] at h
        rcases h with h | h | h
        · exact Or.inl h
        · exact Or.inr (Or.inr ⟨env, rd, List.mem_cons_self _ _, hmem e h⟩)
        · rcases ih h with h1 | h1 | ⟨env', rd', hin, he⟩
          · exact Or.inl h1
          · exact Or.inr (Or.inl h1)
          · exact Or.inr (Or.inr ⟨env', rd', List.mem_cons_of_mem _ hin, he⟩)
      | leave =>
        simp only [List.mem_cons, List.mem_append] at h
        rcases h with h | h | h
        · exact Or.inl h
        · exact Or.inr (Or.inr ⟨env, rd, List.mem_cons_self _ _, hmem e h⟩)
        · exact Or.inr (Or.inl (by simpa using h))

theorem HandleChat_frame_go_delete (env : Env) (chatID : Int) (profileId : Nat)
    (first second : Int) (rd : ReadResult) (q : DeletePayload)
    (h : Effect.go (Task.deleteMessage q)
      ∈ (HandleChat_frame env chatID profileId first second rd).1) :
    q.ChatID = chatID := by
  unfold HandleChat_frame at h
  cases rd with
  | readError e => simp [errorFrame] at h
  | invalidFormat => simp [errorFrame] at h
  | frame ws =>
    simp only at h
    split_ifs at h
    · unfold HandleChat_create at h
      split at h
      · simp [errorFrame] at h
      · split_ifs at h
        · simp at h
        · split at h <;> simp [errorFrame] at h
    · unfold HandleChat_delete at h
      split at h
      · simp [errorFrame] at h
      · rename_i payload _
        split_ifs at h with hc
        · simp at h
        · simp only [List.mem_singleton] at h
          injection h with h
          injection h with h
          rw [h]
          exact not_not.1 hc
    · unfold HandleChat_get at h
      split at h <;> simp [errorFrame] at h
    · unfold HandleChat_read at h
      split at h
      · simp [errorFrame] at h
      · split_ifs at h <;> simp at h
    · simp [errorFrame] at h

theorem HandleChat_frame_go_read (env : Env) (chatID : Int) (profileId : Nat)
    (first second : Int) (rd : ReadResult) (q : ReadPayload) (user : Nat)
    (h : Effect.go (Task.updateMessageStatus q user)
      ∈ (HandleChat_frame env chatID profileId first second rd).1) :
    q.ChatID = chatID ∧ user = profileId := by
  unfold HandleChat_frame at h
  cases rd with
  | readError e => simp [errorFrame] at h
  | invalidFormat => simp [errorFrame] at h
  | frame ws =>
    simp only at h
    split_ifs at h
    · unfold HandleChat_create at h
      split at h
      · simp [errorFrame] at h
      · split_ifs at h
        · simp at h
        · split at h <;> simp [errorFrame] at h
    · unfold HandleChat_delete at h
      split at h
      · simp [errorFrame] at h
      · split_ifs at h <;> simp at h
    · unfold HandleChat_get at h
      split at h <;> simp [errorFrame] at h
    · unfold HandleChat_read at h
      split at h
      · simp [errorFrame] at h
      · rename_i payload _
        split_ifs at h with hc
        · simp at h
        · simp only [List.mem_singleton] at h
          injection h with h
          injection h with h1 h2
          rw [h1, h2]
          exact ⟨not_not.1 hc, rfl⟩
    · simp [errorFrame] at h

/-- A delete goroutine started by an iteration of the inbound loop comes from
a frame of type `delete` whose payload it carries, for the chat of the session. -/
theorem HandleChat_frame_go_delete_origin (env : Env) (chatID : Int) (profileId : Nat)
    (first second : Int) (rd : ReadResult) (q : DeletePayload)
    (h : Effect.go (Task.deleteMessage q)
      ∈ (HandleChat_frame env chatID profileId first second rd).1) :
    ∃ ws : WSMessage, rd = ReadResult.frame ws ∧ ws.Type_ = "delete" ∧
      ws.Payload.asDeletePayload = some q ∧ q.ChatID = chatID := by
  unfold HandleChat_frame at h
  cases rd with
  | readError e => simp [errorFrame] at h
  | invalidFormat => simp [errorFrame] at h
  | frame ws =>
    simp only at h
    split_ifs at h with h1 h2 h3 h4
    · unfold HandleChat_create at h
      split at h
      · simp [errorFrame] at h
      · split_ifs at h
        · simp at h
        · split at h <;> simp [errorFrame] at h
    · unfold HandleChat_delete at h
      split at h
      · simp [errorFrame] at h
      · rename_i payload hdec
        split_ifs at h with hc
        · simp at h
        · simp only [List.mem_singleton] at h
          injection h with h
          injection h with h
          subst h
          exact ⟨ws, rfl, h2, hdec, not_not.1 hc⟩
    · unfold HandleChat_get at h
      split at h <;> simp [errorFrame] at h
    · unfold HandleChat_read at h
      split at h
      · simp [errorFrame] at h
      · split_ifs at h <;> simp at h
    · simp [errorFrame] at h

/-- A read goroutine started by an iteration of the inbound loop comes from a
frame of type `read` whose payload it carries, for the chat of the session,
and it captures the authenticated participant. -/
theorem HandleChat_frame_go_read_origin (env : Env) (chatID : Int) (profileId : Nat)
    (first second : Int) (rd : ReadResult) (q : ReadPayload) (user : Nat)
    (h : Effect.go (Task.updateMessageStatus q user)
      ∈ (HandleChat_frame env chatID profileId first second rd).1) :
    ∃ ws : WSMessage, rd = ReadResult.frame ws ∧ ws.Type_ = "read" ∧
      ws.Payload.asReadPayload = some q ∧ q.ChatID = chatID ∧ user = profileId := by
  unfold HandleChat_frame at h
  cases rd with
  | readError e => simp [errorFrame] at h
  | invalidFormat => simp [errorFrame] at h
  | frame ws =>
    simp only at h
    split_ifs at h with h1 h2 h3 h4
    · unfold HandleChat_create at h
      split at h
      · simp [errorFrame] at h
      · split_ifs at h
        · simp at h
        · split at h <;> simp [errorFrame] at h
    · unfold HandleChat_delete at h
      split at h
      · simp [errorFrame] at h
      · split_ifs at h <;> simp at h
    · unfold HandleChat_get at h
      split at h <;> simp [errorFrame] at h
    · unfold HandleChat_read at h
      split at h
      · simp [errorFrame] at h
      · rename_i payload hdec
        split_ifs at h with hc
        · simp at h
        · simp only [List.mem_singleton] at h
          injection h with h
          injection h with ha hb
          subst ha
          exact ⟨ws, rfl, h4, hdec, not_not.1 hc, hb⟩
    · simp [errorFrame] at h

/-- The goroutine of an accepted delete calls `DeleteMessage` once, with the
`message_id` and the `chat_id` of its payload, and then writes one frame. -/
theorem deleteMessageTask_calls (env : Env) (p : DeletePayload) :
    ∃ frame : Frame, deleteMessageTask env p
      = [Effect.deleteMessage p.MessageID p.ChatID, Effect.writeJSON frame] := by
  unfold deleteMessageTask
  cases env.DeleteMessage p.MessageID p.ChatID with
  | some e => exact ⟨_, rfl⟩
  | none => exact ⟨_, rfl⟩

/-- The goroutine of an accepted read calls `UpdateMessageStatus` once, with
the `chat_id` of its payload and the user it captured, and then writes one
frame. -/
theorem updateMessageStatusTask_calls (env : Env) (p : ReadPayload) (user : Nat) :
    ∃ frame : Frame, updateMessageStatusTask env p user
      = [Effect.updateMessageStatus p.ChatID (user : Int), Effect.writeJSON frame] := by
  unfold updateMessageStatusTask
  cases env.UpdateMessageStatus p.ChatID (user : Int) with
  | some e => exact ⟨_, rfl⟩
  | none => exact ⟨_, rfl⟩

/-- A run of the two commands, evaluated: in the session of user 5 on chat 7
the delete frame for message 31 starts the goroutine that calls
`DeleteMessage(31, 7)`, the read frame the goroutine that calls
`UpdateMessageStatus(7, 5)`. -/
theorem HandleChat_delete_read_sample :
    HandleChat_frame sampleEnv 7 5 5 9 (ReadResult.frame ⟨"delete", sampleDeleteRaw⟩)
        = ([Effect.go (Task.deleteMessage ⟨7, 31⟩)], Control.nextFrame) ∧
      deleteMessageTask sampleEnv ⟨7, 31⟩
        = [Effect.deleteMessage 31 7,
           Effect.writeJSON [("type", Value.str "deleted"), ("message_id", Value.int 31)]] ∧
      HandleChat_frame sampleEnv 7 5 5 9 (ReadResult.frame ⟨"read", sampleDeleteRaw⟩)
        = ([Effect.go (Task.updateMessageStatus ⟨7⟩ 5)], Control.nextFrame) ∧
      updateMessageStatusTask sampleEnv ⟨7⟩ 5
        = [Effect.updateMessageStatus 7 5,
           Effect.writeJSON [("type", Value.str "status_updated"), ("chat", Value.int 7)]] := by
  decide

/-- C23. Chat commands are scoped to the session. A delete or read frame whose
`chat_id` is not the chat of the session is answered without starting a
goroutine, so neither `DeleteMessage` nor `UpdateMessageStatus` is called. An
accepted delete frame starts exactly one goroutine, which calls
`DeleteMessage` once with the `message_id` of the frame and the chat of the
session; an accepted read frame starts exactly one goroutine, which calls
`UpdateMessageStatus` once with the chat of the session and the authenticated
participant. In a whole run every delete goroutine and every read goroutine
comes from such a frame: it carries the payload of a frame of its type read in
that run, for the chat of the session, and the read goroutine the
authenticated participant. -/
theorem HandleChat_delete_read_scoped (chatID : Int) (profileId : Nat) (first second : Int) :
    (∀ (env : Env) (ws : WSMessage) (p : DeletePayload),
        ws.Type_ = "delete" → ws.Payload.asDeletePayload = some p → p.ChatID ≠ chatID →
        HandleChat_frame env chatID profileId first second (ReadResult.frame ws)
          = ([Effect.respond 401 "You don't have access"], Control.nextFrame)) ∧
      (∀ (env : Env) (ws : WSMessage) (p : ReadPayload),
        ws.Type_ = "read" → ws.Payload.asReadPayload = some p → p.ChatID ≠ chatID →
        HandleChat_frame env chatID profileId first second (ReadResult.frame ws)
          = ([Effect.respond 401 "You don't have access"], Control.nextFrame)) ∧
      (∀ (env env' : Env) (ws : WSMessage) (p : DeletePayload),
        ws.Type_ = "delete" → ws.Payload.asDeletePayload = some p → p.ChatID = chatID →
        HandleChat_frame env chatID profileId first second (ReadResult.frame ws)
            = ([Effect.go (Task.deleteMessage p)], Control.nextFrame) ∧
          ∃ frame : Frame, deleteMessageTask env' p
            = [Effect.deleteMessage p.MessageID chatID, Effect.writeJSON frame]) ∧
      (∀ (env env' : Env) (ws : WSMessage) (p : ReadPayload),
        ws.Type_ = "read" → ws.Payload.asReadPayload = some p → p.ChatID = chatID →
        HandleChat_frame env chatID profileId first second (ReadResult.frame ws)
            = ([Effect.go (Task.updateMessageStatus p profileId)], Control.nextFrame) ∧
          ∃ frame : Frame, updateMessageStatusTask env' p profileId
            = [Effect.updateMessageStatus chatID (profileId : Int), Effect.writeJSON frame]) ∧
      (∀ (reads : List (Env × ReadResult)) (q : DeletePayload),
        Effect.go (Task.deleteMessage q) ∈ HandleChat_loop chatID profileId first second reads →
        (∃ (env : Env) (ws : WSMessage), (env, ReadResult.frame ws) ∈ reads ∧
            ws.Type_ = "delete" ∧ ws.Payload.asDeletePayload = some q) ∧
          q.ChatID = chatID ∧
          ∀ env : Env, (deleteMessageTask env q).head?
            = some (Effect.deleteMessage q.MessageID chatID)) ∧
      (∀ (reads : List (Env × ReadResult)) (q : ReadPayload) (user : Nat),
        Effect.go (Task.updateMessageStatus q user)
          ∈ HandleChat_loop chatID profileId first second reads →
        (∃ (env : Env) (ws : WSMessage), (env, ReadResult.frame ws) ∈ reads ∧
            ws.Type_ = "read" ∧ ws.Payload.asReadPayload = some q) ∧
          q.ChatID = chatID ∧ user = profileId ∧
          ∀ env : Env, (updateMessageStatusTask env q user).head?
            = some (Effect.updateMessageStatus chatID (profileId : Int))) := by
  have hd : ¬ ("delete" = "create") := by decide
  have hr1 : ¬ ("read" = "create") := by decide
  have hr2 : ¬ ("read" = "delete") := by decide
  have hr3 : ¬ ("read" = "get") := by decide
  refine ⟨?_, ?_, ?_, ?_, ?_, ?_⟩
  · intro env ws p htype hdec hne
    simp only [HandleChat_frame, htype, if_neg hd, if_true, HandleChat_delete, hdec]
    rw [if_pos hne]
  · intro env ws p htype hdec hne
    simp only [HandleChat_frame, htype, if_neg hr1, if_neg hr2, if_neg hr3, if_true,
      HandleChat_read, hdec]
    rw [if_pos hne]
  · intro env env' ws p htype hdec heq
    refine ⟨?_, ?_⟩
    · simp only [HandleChat_frame, htype, if_neg hd, if_true, HandleChat_delete, hdec]
      rw [if_neg (not_not.2 heq)]
    · rw [← heq]
      exact deleteMessageTask_calls env' p
  · intro env env' ws p htype hdec heq
    refine ⟨?_, ?_⟩
    · simp only [HandleChat_frame, htype, if_neg hr1, if_neg hr2, if_neg hr3, if_true,
        HandleChat_read, hdec]
      rw [if_neg (not_not.2 heq)]
    · rw [← heq]
      exact updateMessageStatusTask_calls env' p profileId
  · intro reads q h
    rcases HandleChat_loop_mem chatID profileId first second reads _ h with h1 | h1 | h1
    · cases h1
    · simp at h1
    · obtain ⟨env, rd, hin, he⟩ := h1
      obtain ⟨ws, hrd, htype, hdec, hc⟩ :=
        HandleChat_frame_go_delete_origin env chatID profileId first second rd q he
      refine ⟨⟨env, ws, hrd ▸ hin, htype, hdec⟩, hc, ?_⟩
      intro env'
      simp [deleteMessageTask, hc]
  · intro reads q user h
    rcases HandleChat_loop_mem chatID profileId first second reads _ h with h1 | h1 | h1
    · cases h1
    · simp at h1
    · obtain ⟨env, rd, hin, he⟩ := h1
      obtain ⟨ws, hrd, htype, hdec, hc, hu⟩ :=
        HandleChat_frame_go_read_origin env chatID profileId first second rd q user he
      refine ⟨⟨env, ws, hrd ▸ hin, htype, hdec⟩, hc, hu, ?_⟩
      intro env'
      simp [updateMessageStatusTask, hc, hu]

theorem HandleChat_delete_read_scoped_witness :
    HandleChat_frame sampleEnv 7 5 5 9 (ReadResult.frame ⟨"delete", sampleRaw 8 5 ""⟩)
        = ([Effect.respond 401 "You don't have access"], Control.nextFrame) ∧
      (HandleChat_frame sampleEnv 7 5 5 9 (ReadResult.frame ⟨"delete", sampleDeleteRaw⟩)
          = ([Effect.go (Task.deleteMessage ⟨7, 31⟩)], Control.nextFrame) ∧
        ∃ frame : Frame, deleteMessageTask sampleEnv ⟨7, 31⟩
          = [Effect.deleteMessage (DeletePayload.mk 7 31).MessageID 7, Effect.writeJSON frame]) ∧
      (HandleChat_frame sampleEnv 7 5 5 9 (ReadResult.frame ⟨"read", sampleDeleteRaw⟩)
          = ([Effect.go (Task.updateMessageStatus ⟨7⟩ 5)], Control.nextFrame) ∧
        ∃ frame : Frame, updateMessageStatusTask sampleEnv ⟨7⟩ 5
          = [Effect.updateMessageStatus 7 ((5 : Nat) : Int), Effect.writeJSON frame]) :=
  ⟨(HandleChat_delete_read_scoped 7 5 5 9).1 sampleEnv ⟨"delete", sampleRaw 8 5 ""⟩ ⟨8, 0⟩
      rfl rfl (by decide),
   (HandleChat_delete_read_scoped 7 5 5 9).2.2.1 sampleEnv sampleEnv ⟨"delete", sampleDeleteRaw⟩
      ⟨7, 31⟩ rfl rfl rfl,
   (HandleChat_delete_read_scoped 7 5 5 9).2.2.2.1 sampleEnv sampleEnv ⟨"read", sampleDeleteRaw⟩
      ⟨7⟩ rfl rfl rfl⟩

/-- C25, as stated, fails. In the session of user 5 on chat 7 (participants 5
and 9) a create frame with `user_id` 9 is accepted: the notification goes to
user 5 and `CreateMessages` is called with sender 9, who is not the
authenticated participant. -/
theorem HandleChat_create_accepts_other_participant :
    HandleChat_frame sampleEnv 7 5 5 9 (ReadResult.frame ⟨"create", sampleRaw 7 9 "hi"⟩)
        = ([Effect.addNotification 5 ⟨0, 0, "message", "User 9 sent you a message!"⟩,
            Effect.go (Task.createMessages ⟨7, 9, "hi"⟩)], Control.nextFrame) ∧
      createMessagesTask sampleEnv ⟨7, 9, "hi"⟩
        = [Effect.createMessages 7 9 "hi",
           Effect.writeJSON [("type", Value.str "created"), ("message_id", Value.int 4)]] ∧
      (9 : Int) ≠ ((5 : Nat) : Int) := by
  decide

/-- C25, amended. For every create frame accepted on a chat session, the user
id passed to `CreateMessages` as the sender of the message is the `user_id` of
the frame, which is one of the two participants of the chat; it is not
compared with the authenticated participant of the session. -/
theorem HandleChat_create_sender_from_frame (env env' : Env) (chatID : Int) (profileId : Nat)
    (first second : Int) (ws : WSMessage) (p : CreatePayload)
    (htype : ws.Type_ = "create") (hdec : ws.Payload.asCreatePayload = some p)
    (hsender : p.UserID = first ∨ p.UserID = second) (hchat : p.ChatID = chatID)
    (hadd : env.AddNotification (recieverID first second p) (messageNotif p) = none) :
    HandleChat_frame env chatID profileId first second (ReadResult.frame ws)
        = ([Effect.addNotification (recieverID first second p) (messageNotif p),
            Effect.go (Task.createMessages p)], Control.nextFrame) ∧
      (createMessagesTask env' p).head?
        = some (Effect.createMessages chatID p.UserID p.Content) ∧
      (p.UserID = first ∨ p.UserID = second) := by
  have hacc : ¬ (((p.UserID ≠ first) ∧ (p.UserID ≠ second)) ∨ (p.ChatID ≠ chatID)) := by
    rintro (⟨h1, h2⟩ | h3)
    · rcases hsender with h | h
      · exact h1 h
      · exact h2 h
    · exact h3 hchat
  refine ⟨?_, ?_, hsender⟩
  · simp only [HandleChat_frame, htype, if_true, HandleChat_create, hdec]
    rw [if_neg hacc]
    simp only [hadd]
  · simp [createMessagesTask, hchat]

theorem HandleChat_create_sender_from_frame_witness :
    HandleChat_frame sampleEnv 7 5 5 9 (ReadResult.frame ⟨"create", sampleRaw 7 9 "hi"⟩)
        = ([Effect.addNotification (recieverID 5 9 ⟨7, 9, "hi"⟩) (messageNotif ⟨7, 9, "hi"⟩),
            Effect.go (Task.createMessages ⟨7, 9, "hi"⟩)], Control.nextFrame) ∧
      (createMessagesTask sampleEnv ⟨7, 9, "hi"⟩).head?
        = some (Effect.createMessages 7 9 "hi") ∧
      ((9 : Int) = 5 ∨ (9 : Int) = 9) :=
  HandleChat_create_sender_from_frame sampleEnv sampleEnv 7 5 5 9
    ⟨"create", sampleRaw 7 9 "hi"⟩ ⟨7, 9, "hi"⟩ rfl rfl (Or.inr rfl) rfl rfl

/-! ## The notification cache: expiry, invalidation, marking -/

/-- Supporting fact for C21: after a successful `AddNotification` and after a
successful `sendFlowers` goroutine the list written has a time to live. -/
theorem push_operations_set_ttl (json : JSON) (notifID : Int) (publishErr : Option String)
    (redis : Redis) (userID : Int) (notif : NotificationSend) (payload : FlowersPayload)
    (profileId : Nat) :
    (NotificationsRepo.AddNotification json (Except.ok notifID) none publishErr redis userID
        notif).2.1.ttl (redisKey userID) = some (30 * 3600) ∧
      (sendFlowersTask json none none redis payload profileId).2.ttl (redisKey payload.UserID)
        = some (30 * 60) := by
  constructor
  · have h := (exec_push_trim_expire redis (redisKey userID)
      (json.Marshal { notif with NotificationID := notifID }) (30 * 3600)).2
    cases publishErr <;> simpa [NotificationsRepo.AddNotification] using h
  · simp [sendFlowersTask, Redis.exec, Redis.apply, Redis.setList]

/-- C21, evaluated at a failing input. The cached list of user 9 holds one
notification of type `"message"` and expires in 30 hours. After
`MarkNotifications(9, "message")` the list holds the notification marked as
read and has no time to live: the list was deleted and written again with
`RPush`, and no `Expire` is queued. -/
theorem MarkNotifications_drops_ttl :
    notifiedRedis.lists (redisKey 9) = [sampleStoredText] ∧
      notifiedRedis.ttl (redisKey 9) = some 108000 ∧
      (NotificationsRepo.MarkNotifications sampleJSONRead none none none notifiedRedis 9
          "message").1 = none ∧
      (NotificationsRepo.MarkNotifications sampleJSONRead none none none notifiedRedis 9
          "message").2.lists (redisKey 9) = [sampleReadText] ∧
      (NotificationsRepo.MarkNotifications sampleJSONRead none none none notifiedRedis 9
          "message").2.ttl (redisKey 9) = none := by
  decide

theorem redisKey_data (u : Int) :
    (redisKey u).data = "CACHE:user:".data ++ ((toString u).data ++ "notifications".data) := by
  simp only [redisKey, String.data_append, List.append_assoc]

theorem redisKey_injective (u v : Int) (h : redisKey u = redisKey v) : u = v := by
  have hd := congrArg String.data h
  rw [redisKey_data, redisKey_data] at hd
  exact toString_int_injective u v (List.append_cancel_right (List.append_cancel_left hd))

/-- C22. After `DeleteNotifications(id, u)` returns without error the cached
list of user `u` is empty, `GetCurrentNotifications(u)` returns no entry, and
the cached list of every other user, with its time to live, is as before. -/
theorem DeleteNotifications_empties_only_own_list (json : JSON)
    (dbErr delErr : Option String) (redis : Redis) (notification_id userID : Int)
    (hok : (NotificationsRepo.DeleteNotifications dbErr delErr redis notification_id
      userID).1 = none) :
    (NotificationsRepo.DeleteNotifications dbErr delErr redis notification_id userID).2.lists
        (redisKey userID) = [] ∧
      NotificationsRepo.GetCurrentNotifications json none
        (NotificationsRepo.DeleteNotifications dbErr delErr redis notification_id userID).2
        userID = Except.ok [] ∧
      ∀ other : Int, other ≠ userID →
        (NotificationsRepo.DeleteNotifications dbErr delErr redis notification_id
            userID).2.lists (redisKey other) = redis.lists (redisKey other) ∧
          (NotificationsRepo.DeleteNotifications dbErr delErr redis notification_id
            userID).2.ttl (redisKey other) = redis.ttl (redisKey other) := by
  cases dbErr with
  | some e => simp [NotificationsRepo.DeleteNotifications] at hok
  | none =>
    cases delErr with
    | some e => simp [NotificationsRepo.DeleteNotifications] at hok
    | none =>
      have hlist : (NotificationsRepo.DeleteNotifications none none redis notification_id
          userID).2.lists (redisKey userID) = [] := by
        simp [NotificationsRepo.DeleteNotifications, Redis.apply, Redis.setList]
      refine ⟨hlist, ?_, ?_⟩
      · simp [NotificationsRepo.GetCurrentNotifications, Redis.LRange, hlist]
      · intro other hne
        have hkey : ¬ redisKey other = redisKey userID :=
          fun h => hne (redisKey_injective other userID h)
        simp [NotificationsRepo.DeleteNotifications, Redis.apply, Redis.setList, hkey]

theorem DeleteNotifications_empties_only_own_list_witness :
    (NotificationsRepo.DeleteNotifications none none fullRedis 42 9).2.lists (redisKey 9) = [] ∧
      NotificationsRepo.GetCurrentNotifications sampleJSON none
        (NotificationsRepo.DeleteNotifications none none fullRedis 42 9).2 9 = Except.ok [] ∧
      ∀ other : Int, other ≠ 9 →
        (NotificationsRepo.DeleteNotifications none none fullRedis 42 9).2.lists
            (redisKey other) = fullRedis.lists (redisKey other) ∧
          (NotificationsRepo.DeleteNotifications none none fullRedis 42 9).2.ttl
            (redisKey other) = fullRedis.ttl (redisKey other) :=
  DeleteNotifications_empties_only_own_list sampleJSON none none fullRedis 42 9 rfl

theorem markRead_fields (t : String) (n : NotificationSend) :
    (markRead t n).NotificationID = n.NotificationID ∧
      (markRead t n).NotifType = n.NotifType ∧
      (markRead t n).Content = n.Content ∧
      (n.NotifType = t → (markRead t n).Read = 1) ∧
      (n.NotifType ≠ t → (markRead t n).Read = n.Read) := by
  unfold markRead
  by_cases h : n.NotifType = t
  · simp [h]
  · simp [h]

theorem markRead_idempotent (t : String) (n : NotificationSend) :
    markRead t (markRead t n) = markRead t n := by
  unfold markRead
  by_cases h : n.NotifType = t
  · simp [h]
  · simp [h]

theorem LRange_full (redis : Redis) (key : String) (h : (redis.lists key).length ≤ 100) :
    redis.LRange key 0 99 = redis.lists key := by
  unfold Redis.LRange
  rw [List.drop_zero]
  exact List.take_of_length_le (by omega)

theorem MarkNotifications_list (json : JSON) (redis : Redis) (userID : Int) (t : String) :
    (NotificationsRepo.MarkNotifications json none none none redis userID t).2.lists
        (redisKey userID)
      = markItems json t (redis.LRange (redisKey userID) 0 99) := by
  unfold NotificationsRepo.MarkNotifications
  simp only
  by_cases hlen : (markItems json t (redis.LRange (redisKey userID) 0 99)).length > 0
  · rw [if_pos hlen]
    simp [Redis.exec, Redis.apply, Redis.setList]
  · rw [if_neg hlen]
    have hnil : markItems json t (redis.LRange (redisKey userID) 0 99) = [] :=
      List.length_eq_zero.1 (by omega)
    rw [hnil]
    simp [Redis.exec, Redis.apply, Redis.setList]

theorem markItems_length_le (json : JSON) (t : String) (items : List String) :
    (markItems json t items).length ≤ items.length := by
  unfold markItems
  exact List.length_filterMap_le _ _

theorem markItems_decoded (json : JSON) (t : String) (items : List String)
    (hrt : ∀ s ∈ items, ∀ n, json.Unmarshal s = some n →
      json.Unmarshal (json.Marshal (markRead t n)) = some (markRead t n)) :
    (markItems json t items).filterMap json.Unmarshal
      = (items.filterMap json.Unmarshal).map (markRead t) := by
  induction items with
  | nil => rfl
  | cons s rest ih =>
    have ih' := ih (fun s' hs' => hrt s' (List.mem_cons_of_mem _ hs'))
    unfold markItems at ih' ⊢
    cases hs : json.Unmarshal s with
    | none => simp only [List.filterMap_cons, hs]; exact ih'
    | some n =>
      have h1 := hrt s (List.mem_cons_self _ _) n hs
      simp only [List.filterMap_cons, hs, h1, List.map_cons]
      rw [ih']

theorem markItems_idempotent (json : JSON) (t : String) (items : List String)
    (hrt : ∀ s ∈ items, ∀ n, json.Unmarshal s = some n →
      json.Unmarshal (json.Marshal (markRead t n)) = some (markRead t n)) :
    markItems json t (markItems json t items) = markItems json t items := by
  induction items with
  | nil => rfl
  | cons s rest ih =>
    have ih' := ih (fun s' hs' => hrt s' (List.mem_cons_of_mem _ hs'))
    unfold markItems at ih' ⊢
    cases hs : json.Unmarshal s with
    | none => simp only [List.filterMap_cons, hs]; exact ih'
    | some n =>
      have h1 := hrt s (List.mem_cons_self _ _) n hs
      simp only [List.filterMap_cons, hs, h1, markRead_idempotent]
      rw [ih']

theorem markItems_length (json : JSON) (t : String) (items : List String)
    (hwf : ∀ s ∈ items, ∃ n, json.Unmarshal s = some n) :
    (markItems json t items).length = items.length := by
  induction items with
  | nil => rfl
  | cons s rest ih =>
    have ih' := ih (fun s' hs' => hwf s' (List.mem_cons_of_mem _ hs'))
    obtain ⟨n, hn⟩ := hwf s (List.mem_cons_self _ _)
    unfold markItems at ih' ⊢
    simp only [List.filterMap_cons, hn, List.length_cons]
    rw [ih']

/-- C28. On a cached list of at most 100 entries that all unmarshal,
`MarkNotifications(u, t)` leaves a list of the same length that reads back as
the same notifications in the same order, each with `Read` set to 1 when its
type is `t` and otherwise as it was, the identifier, type and content of every
entry unchanged; and a second application leaves the list the first one left.
`encoding/json` is assumed to read back what it writes for the marked entries. -/
theorem MarkNotifications_marks_and_is_idempotent (json : JSON) (redis : Redis) (userID : Int)
    (t : String)
    (hlen : (redis.lists (redisKey userID)).length ≤ 100)
    (hwf : ∀ s ∈ redis.lists (redisKey userID), ∃ n, json.Unmarshal s = some n)
    (hrt : ∀ s ∈ redis.lists (redisKey userID), ∀ n, json.Unmarshal s = some n →
      json.Unmarshal (json.Marshal (markRead t n)) = some (markRead t n)) :
    ((NotificationsRepo.MarkNotifications json none none none redis userID t).2.lists
          (redisKey userID)).length = (redis.lists (redisKey userID)).length ∧
      ((NotificationsRepo.MarkNotifications json none none none redis userID t).2.lists
          (redisKey userID)).filterMap json.Unmarshal
        = ((redis.lists (redisKey userID)).filterMap json.Unmarshal).map (markRead t) ∧
      (∀ n : NotificationSend,
        (markRead t n).NotificationID = n.NotificationID ∧
          (markRead t n).NotifType = n.NotifType ∧
          (markRead t n).Content = n.Content ∧
          (n.NotifType = t → (markRead t n).Read = 1) ∧
          (n.NotifType ≠ t → (markRead t n).Read = n.Read)) ∧
      (NotificationsRepo.MarkNotifications json none none none
          (NotificationsRepo.MarkNotifications json none none none redis userID t).2
          userID t).2.lists (redisKey userID)
        = (NotificationsRepo.MarkNotifications json none none none redis userID t).2.lists
          (redisKey userID) := by
  have hfull := LRange_full redis (redisKey userID) hlen
  have honce := MarkNotifications_list json redis userID t
  rw [hfull] at honce
  refine ⟨?_, ?_, markRead_fields t, ?_⟩
  · rw [honce]
    exact markItems_length json t _ hwf
  · rw [honce]
    exact markItems_decoded json t _ hrt
  · have hlen2 : ((NotificationsRepo.MarkNotifications json none none none redis userID
        t).2.lists (redisKey userID)).length ≤ 100 := by
      rw [honce]
      exact le_trans (markItems_length_le json t _) hlen
    rw [MarkNotifications_list, LRange_full _ _ hlen2, honce]
    exact markItems_idempotent json t _ hrt

theorem MarkNotifications_marks_and_is_idempotent_witness :
    ((NotificationsRepo.MarkNotifications sampleJSONRead none none none notifiedRedis 9
          "message").2.lists (redisKey 9)).length = (notifiedRedis.lists (redisKey 9)).length ∧
      ((NotificationsRepo.MarkNotifications sampleJSONRead none none none notifiedRedis 9
          "message").2.lists (redisKey 9)).filterMap sampleJSONRead.Unmarshal
        = ((notifiedRedis.lists (redisKey 9)).filterMap sampleJSONRead.Unmarshal).map
            (markRead "message") ∧
      (∀ n : NotificationSend,
        (markRead "message" n).NotificationID = n.NotificationID ∧
          (markRead "message" n).NotifType = n.NotifType ∧
          (markRead "message" n).Content = n.Content ∧
          (n.NotifType = "message" → (markRead "message" n).Read = 1) ∧
          (n.NotifType ≠ "message" → (markRead "message" n).Read = n.Read)) ∧
      (NotificationsRepo.MarkNotifications sampleJSONRead none none none
          (NotificationsRepo.MarkNotifications sampleJSONRead none none none notifiedRedis 9
            "message").2 9 "message").2.lists (redisKey 9)
        = (NotificationsRepo.MarkNotifications sampleJSONRead none none none notifiedRedis 9
            "message").2.lists (redisKey 9) :=
  MarkNotifications_marks_and_is_idempotent sampleJSONRead notifiedRedis 9 "message"
    (by decide)
    (by
      intro s hs
      have hl : notifiedRedis.lists (redisKey 9) = [sampleStoredText] := by decide
      rw [hl, List.mem_singleton] at hs
      subst hs
      exact ⟨sampleStoredNotif, by decide⟩)
    (by
      intro s hs n hn
      have hl : notifiedRedis.lists (redisKey 9) = [sampleStoredText] := by decide
      rw [hl, List.mem_singleton] at hs
      subst hs
      have hdec : sampleJSONRead.Unmarshal sampleStoredText = some sampleStoredNotif := by
        decide
      rw [hdec] at hn
      injection hn with hn
      subst hn
      decide)

/-! ## Admin-only handlers -/

theorem AdminGated_respond (env : AdminEnv) (user_id : Nat) (statusCode : Nat)
    (message : String) : AdminGated env user_id [AdminEffect.respond statusCode message] := by
  constructor
  · intro c h
    simp at h
  · intro h
    simp at h

theorem adminGate_gated (env : AdminEnv) (user_id : Nat) (adminFailed denied : String)
    (c : AdminCall) (failed : String) (done : AdminEffect) :
    AdminGated env user_id (adminGate env user_id adminFailed denied c failed done) := by
  unfold adminGate
  cases hadm : env.GetAdmin (user_id : Int) with
  | error err =>
    constructor
    · intro c' h
      simp at h
    · intro _ hfalse
      rw [hadm] at hfalse
      cases hfalse
  | ok is_admin =>
    cases is_admin with
    | false =>
      constructor
      · intro c' h
        simp at h
      · intro _ _
        exact ⟨denied, by simp⟩
    | true =>
      constructor
      · intro _ _
        exact hadm
      · intro _ hfalse
        rw [hadm] at hfalse
        cases hfalse

/-- C26. In each admin-only handler (complaints: get, find, delete, handle,
statistics; queries: find, delete, statistics, answers-for-query) a use case
is called only when `GetAdmin` returned true without error for the
authenticated user; and when `GetAdmin` is called and returns false, the run
consists of that call and one answer with status 401, so that no use case, and
through it no repository or gRPC operation, is reached. -/
theorem admin_handlers_gated (env : AdminEnv) (user_id : Nat)
    (findBody : FindBody) (deleteBody : Decoded DeleteComlaint)
    (handleBody : Decoded HandleComplaint) (statsBody : Decoded RawTimeConstraints)
    (parseRFC3339 : String → Option Int)
    (GetStatistics : Bool → Int → Bool → Int → ComplaintStats × Option String)
    (findQueryBody : Except String FindQueryRequest)
    (deleteQueryBody : Except String DeleteQueryRequest)
    (queryStatsBody : Except String GetAnswerStatistics) :
    AdminGated env user_id (ComplaintHandler.GetComplaints (some user_id) env) ∧
      AdminGated env user_id (ComplaintHandler.FindComplaint (some user_id) findBody env) ∧
      AdminGated env user_id (ComplaintHandler.DeleteComplaint (some user_id) deleteBody env) ∧
      AdminGated env user_id (ComplaintHandler.HandleComplaint (some user_id) handleBody env) ∧
      AdminGated env user_id
        (ComplaintHandler.GetStatistics parseRFC3339 (some user_id) statsBody env
          GetStatistics) ∧
      AdminGated env user_id (QueryHandler.FindQuery (some user_id) findQueryBody env) ∧
      AdminGated env user_id (QueryHandler.DeleteQuery (some user_id) deleteQueryBody env) ∧
      AdminGated env user_id (QueryHandler.GetStatistics (some user_id) queryStatsBody env) ∧
      AdminGated env user_id (QueryHandler.GetAnswersForQuery (some user_id) env) := by
  refine ⟨?_, ?_, ?_, ?_, ?_, ?_, ?_, ?_, ?_⟩
  · exact adminGate_gated env user_id _ _ _ _ _
  · unfold ComplaintHandler.FindComplaint
    simp only
    cases hadm : env.GetAdmin (user_id : Int) with
    | error err =>
      constructor
      · intro c' h
        simp [hadm] at h
      · intro _ hfalse
        rw [hadm] at hfalse
        cases hfalse
    | ok is_admin =>
      cases is_admin with
      | false =>
        constructor
        · intro c' h
          simp [hadm] at h
        · intro _ _
          exact ⟨"You don't have permissions", by simp [hadm]⟩
      | true =>
        constructor
        · intro _ _
          exact hadm
        · intro _ hfalse
          rw [hadm] at hfalse
          cases hfalse
  · cases deleteBody with
    | readError e => exact AdminGated_respond env user_id _ _
    | invalid e => exact AdminGated_respond env user_id _ _
    | value input => exact adminGate_gated env user_id _ _ _ _ _
  · cases handleBody with
    | readError e => exact AdminGated_respond env user_id _ _
    | invalid e => exact AdminGated_respond env user_id _ _
    | value input => exact adminGate_gated env user_id _ _ _ _ _
  · unfold ComplaintHandler.GetStatistics
    cases statsBody with
    | readError e => exact AdminGated_respond env user_id _ _
    | invalid e => exact AdminGated_respond env user_id _ _
    | value raw =>
      simp only
      split
      · exact AdminGated_respond env user_id _ _
      · split
        · exact AdminGated_respond env user_id _ _
        · cases hadm : env.GetAdmin (user_id : Int) with
          | error err =>
            constructor
            · intro c' h
              simp [hadm] at h
            · intro _ hfalse
              rw [hadm] at hfalse
              cases hfalse
          | ok is_admin =>
            cases is_admin with
            | false =>
              constructor
              · intro c' h
                simp [hadm] at h
              · intro _ _
                exact ⟨"You dont have permissions: <nil>", by simp [hadm]⟩
            | true =>
              constructor
              · intro _ _
                exact hadm
              · intro _ hfalse
                rw [hadm] at hfalse
                cases hfalse
  · cases findQueryBody with
    | error e => exact AdminGated_respond env user_id _ _
    | ok req => exact adminGate_gated env user_id _ _ _ _ _
  · cases deleteQueryBody with
    | error e => exact AdminGated_respond env user_id _ _
    | ok req => exact adminGate_gated env user_id _ _ _ _ _
  · cases queryStatsBody with
    | error e => exact AdminGated_respond env user_id _ _
    | ok req => exact adminGate_gated env user_id _ _ _ _ _
  · exact adminGate_gated env user_id _ _ _ _ _

theorem admin_handlers_gated_witness :
    ∃ message : String,
      ComplaintHandler.HandleComplaint (some 5) (Decoded.value ⟨3, 2⟩) sampleAdminEnv
        = [AdminEffect.GetAdmin ((5 : Nat) : Int), AdminEffect.respond 401 message] :=
  (admin_handlers_gated sampleAdminEnv 5 FindBody.empty (Decoded.value ⟨3⟩)
    (Decoded.value ⟨3, 2⟩) (Decoded.value ⟨none, none⟩) (fun _ => none)
    (fun _ _ _ _ => (zeroStats, none)) (Except.ok ⟨"q", 1⟩) (Except.ok ⟨"q", 1⟩)
    (Except.ok ⟨"q"⟩)).2.2.2.1.2 (by decide) rfl

/-- The use case `GetStatisticsCompl.GetStatistics` never returns an error. -/
theorem GetStatisticsCompl_never_fails
    (complaintRepo : Bool → Int → Bool → Int → ComplaintStats × Option String)
    (useFrom : Bool) (timeFrom : Int) (useTo : Bool) (timeTo : Int) :
    (GetStatisticsCompl.GetStatistics complaintRepo useFrom timeFrom useTo timeTo).2 = none :=
  rfl

/-- C27, evaluated at a failing input. The query of the complaint repository
fails; the use case logs the error and returns the zero statistics with a nil
error, and the statistics handler, called by the administrator 1, answers 200
with the zero statistics. -/
theorem GetStatistics_swallows_repository_error :
    failingComplaintRepo false 0 false 0 = (zeroStats, some "connection refused") ∧
      GetStatisticsCompl.GetStatistics failingComplaintRepo false 0 false 0
        = (zeroStats, none) ∧
      ComplaintHandler.GetStatistics (fun _ => none) (some 1) (Decoded.value ⟨none, none⟩)
          sampleAdminEnv (GetStatisticsCompl.GetStatistics failingComplaintRepo)
        = [AdminEffect.GetAdmin 1,
           AdminEffect.call (AdminCall.ComplaintStatistics false 0 false 0),
           AdminEffect.respondData 200 (some zeroStats)] := by
  decide

/-! ## `GetPremium` -/

/-- C29, as stated, fails: for a stored subscription type outside the range of
`int32` the response carries the converted value, here 1 for the stored type
`2^32 + 1`. -/
theorem GetPremium_converts_type :
    UserServiceServer.GetPremium 50 (fun _ => (true, 4294967297, some 100, none)) 7
        = (⟨7, true, 1⟩, none) ∧
      (1 : Int) ≠ 4294967297 := by
  decide

/-- C29, amended. `GetPremium` reports `IsSubsribe = true`, with `Type` the
stored subscription type converted to `int32` (the stored type itself when it
lies in the range of `int32`), exactly when the repository reports a
subscription, an expiry time is present and the current time is not after
that expiry; in every other case it reports `IsSubsribe = false` with
`Type = 0`, whatever type is stored. -/
theorem GetPremium_reports_active_subscription (now : Int)
    (UserRepo : Int → Bool × Int × Option Int × Option String) (reqUserId : Int)
    (hasSub : Bool) (subType : Int) (expiresAt : Option Int) (err : Option String)
    (hrepo : UserRepo reqUserId = (hasSub, subType, expiresAt, err)) :
    ((UserServiceServer.GetPremium now UserRepo reqUserId).1.IsSubsribe = true ↔
        (hasSub = true ∧ ∃ t, expiresAt = some t ∧ ¬ t < now)) ∧
      ((hasSub = true ∧ ∃ t, expiresAt = some t ∧ ¬ t < now) →
        (UserServiceServer.GetPremium now UserRepo reqUserId).1.Type_ = int32 subType ∧
          (-(2 ^ 31) ≤ subType ∧ subType < 2 ^ 31 →
            (UserServiceServer.GetPremium now UserRepo reqUserId).1.Type_ = subType)) ∧
      (¬ (hasSub = true ∧ ∃ t, expiresAt = some t ∧ ¬ t < now) →
        (UserServiceServer.GetPremium now UserRepo reqUserId).1.IsSubsribe = false ∧
          (UserServiceServer.GetPremium now UserRepo reqUserId).1.Type_ = 0) := by
  have hcond : (hasSub = false ∨ expiresAt = none ∨
      expiresAt.any (fun t => decide (t < now)) = true) ↔
      ¬ (hasSub = true ∧ ∃ t, expiresAt = some t ∧ ¬ t < now) := by
    cases hasSub <;> cases expiresAt <;> simp
  unfold UserServiceServer.GetPremium
  rw [hrepo]
  simp only
  by_cases hc : hasSub = false ∨ expiresAt = none ∨
      expiresAt.any (fun t => decide (t < now)) = true
  · have hn := hcond.1 hc
    rw [if_pos hc]
    refine ⟨?_, fun h => absurd h hn, fun _ => ⟨rfl, rfl⟩⟩
    constructor
    · intro h; cases h
    · intro h; exact absurd h hn
  · have hact : hasSub = true ∧ ∃ t, expiresAt = some t ∧ ¬ t < now := by
      by_contra hne
      exact hc (hcond.2 hne)
    rw [if_neg hc]
    refine ⟨⟨fun _ => hact, fun _ => rfl⟩, fun _ => ⟨rfl, ?_⟩, fun h => absurd hact h⟩
    intro hrange
    show int32 subType = subType
    unfold int32
    have h1 : (subType + 2 ^ 31) % 2 ^ 32 = subType + 2 ^ 31 :=
      Int.emod_eq_of_lt (by omega) (by omega)
    rw [h1]
    omega

theorem GetPremium_reports_active_subscription_witness :
    (UserServiceServer.GetPremium 50 (fun _ => (true, 2, some 100, none)) 7).1.Type_
        = int32 2 ∧
      (-(2 ^ 31) ≤ (2 : Int) ∧ (2 : Int) < 2 ^ 31 →
        (UserServiceServer.GetPremium 50 (fun _ => (true, 2, some 100, none)) 7).1.Type_ = 2) :=
  (GetPremium_reports_active_subscription 50 (fun _ => (true, 2, some 100, none)) 7
    true 2 (some 100) none rfl).2.1 ⟨rfl, 100, rfl, by decide⟩

/-! ## `HandleComplaint` -/

theorem blockUser_count (db : ComplaintDB) (target u : Int) :
    (blockUser db target).blacklist.count u ≤ max 1 (db.blacklist.count u) := by
  unfold blockUser
  by_cases hmem : target ∈ db.blacklist
  · simp only [if_pos hmem]
    exact le_max_right _ _
  · simp only [if_neg hmem, List.count_append]
    by_cases hu : u = target
    · subst hu
      have h0 : db.blacklist.count u = 0 := List.count_eq_zero_of_not_mem hmem
      simp [h0]
    · have hu' : ¬ target = u := fun h => hu h.symm
      simp [List.count_cons, hu']

/-- The two outcomes of `HandleComplaint`: an error with the tables as before,
or no error with both statements applied. -/
theorem HandleComplaint_outcomes (now : Int) (faults : TxFaults) (db : ComplaintDB)
    (complaint_id new_status : Int) :
    (∃ err : String,
        ComplaintRepo.HandleComplaint now faults db complaint_id new_status = (some err, db)) ∨
      ∃ target : Int, getTargetUser db complaint_id = some target ∧
        ComplaintRepo.HandleComplaint now faults db complaint_id new_status
          = (none,
             if new_status = 2 then
               blockUser (updateComplaint now db new_status complaint_id) target
             else updateComplaint now db new_status complaint_id) := by
  obtain ⟨beginErr, selectErr, updateErr, blockErr, commitErr⟩ := faults
  unfold ComplaintRepo.HandleComplaint HandleComplaint_tx
  cases beginErr with
  | some e => exact Or.inl ⟨e, rfl⟩
  | none =>
    cases selectErr with
    | some e => exact Or.inl ⟨e, rfl⟩
    | none =>
      cases htarget : getTargetUser db complaint_id with
      | none =>
        simp only [htarget]
        exact Or.inl ⟨_, rfl⟩
      | some target =>
        simp only [htarget]
        cases updateErr with
        | some e => exact Or.inl ⟨e, rfl⟩
        | none =>
          by_cases hst : new_status = 2
          · simp only [hst, if_true]
            cases blockErr with
            | some e => exact Or.inl ⟨e, rfl⟩
            | none =>
              cases commitErr with
              | some e => exact Or.inl ⟨e, rfl⟩
              | none => exact Or.inr ⟨target, rfl, rfl⟩
          · simp only [if_neg hst]
            cases commitErr with
            | some e => exact Or.inl ⟨e, rfl⟩
            | none => exact Or.inr ⟨target, rfl, rfl⟩

/-- The `SELECT` of `HandleComplaint` yields the `complaint_on` of the first
row of `complaints` with the given `complaint_id`. -/
theorem getTargetUser_eq_some (db : ComplaintDB) (complaint_id target : Int)
    (h : getTargetUser db complaint_id = some target) :
    ∃ (pre : List ComplaintRow) (row : ComplaintRow) (post : List ComplaintRow),
      db.complaints = pre ++ row :: post ∧ (∀ r ∈ pre, r.complaint_id ≠ complaint_id) ∧
        row.complaint_id = complaint_id ∧ row.complaint_on = target := by
  unfold getTargetUser at h
  obtain ⟨rows, blacklist⟩ := db
  simp only at h ⊢
  clear blacklist
  induction rows with
  | nil => simp at h
  | cons r rest ih =>
    by_cases hr : r.complaint_id = complaint_id
    · refine ⟨[], r, rest, rfl, ?_, hr, ?_⟩
      · intro x hx
        cases hx
      · simpa [List.find?_cons, hr] using h
    · have h2 : Option.map ComplaintRow.complaint_on
          (List.find? (fun r => decide (r.complaint_id = complaint_id)) rest) = some target := by
        simpa [List.find?_cons, hr] using h
      obtain ⟨pre, row, post, hsplit, hpre, hrow, hon⟩ := ih h2
      refine ⟨r :: pre, row, post, by rw [hsplit]; rfl, ?_, hrow, hon⟩
      intro x hx
      rcases List.mem_cons.1 hx with hx | hx
      · rw [hx]; exact hr
      · exact hpre x hx

/-- The `SELECT` of `HandleComplaint` finds a row exactly when the complaint
exists. -/
theorem getTargetUser_eq_none_iff (db : ComplaintDB) (complaint_id : Int) :
    getTargetUser db complaint_id = none ↔ ∀ r ∈ db.complaints, r.complaint_id ≠ complaint_id := by
  unfold getTargetUser
  simp [List.find?_eq_none]

/-- The `UPDATE` of `HandleComplaint`, row by row: the keys are kept, the rows
of the complaint get the new status and `closed_at`, the others are as before. -/
theorem updateComplaint_rows (now : Int) (db : ComplaintDB) (new_status complaint_id : Int) :
    List.Forall₂
      (fun r r' : ComplaintRow =>
        r'.complaint_id = r.complaint_id ∧ r'.complaint_on = r.complaint_on ∧
          (r.complaint_id = complaint_id → r'.status = new_status ∧ r'.closed_at = some now) ∧
          (r.complaint_id ≠ complaint_id → r' = r))
      db.complaints (updateComplaint now db new_status complaint_id).complaints := by
  unfold updateComplaint
  simp only
  rw [List.forall₂_map_right_iff, List.forall₂_same]
  intro r _
  by_cases hr : r.complaint_id = complaint_id
  · simp [hr]
  · simp [hr]

/-- The `INSERT` of `HandleComplaint` adds one row for the user when there is
none, and nothing otherwise. -/
theorem blockUser_count_eq (db : ComplaintDB) (target u : Int) :
    (blockUser db target).blacklist.count u
      = if u = target ∧ target ∉ db.blacklist then 1 else db.blacklist.count u := by
  unfold blockUser
  by_cases hmem : target ∈ db.blacklist
  · simp [hmem]
  · simp only [if_neg hmem, List.count_append]
    by_cases hu : u = target
    · subst hu
      have h0 : db.blacklist.count u = 0 := List.count_eq_zero_of_not_mem hmem
      simp [h0, hmem]
    · have hu' : ¬ target = u := fun h => hu h.symm
      simp [List.count_cons, hu', hu]

/-- When `HandleComplaint` returns no error: nothing failed and the complaint
exists; and conversely. -/
theorem HandleComplaint_ok_iff (now : Int) (faults : TxFaults) (db : ComplaintDB)
    (complaint_id new_status : Int) :
    (ComplaintRepo.HandleComplaint now faults db complaint_id new_status).1 = none ↔
      faults.beginErr = none ∧ faults.selectErr = none ∧
        (∃ r ∈ db.complaints, r.complaint_id = complaint_id) ∧
        faults.updateErr = none ∧ (new_status = 2 → faults.blockErr = none) ∧
        faults.commitErr = none := by
  obtain ⟨beginErr, selectErr, updateErr, blockErr, commitErr⟩ := faults
  unfold ComplaintRepo.HandleComplaint HandleComplaint_tx
  cases beginErr with
  | some e => simp
  | none =>
    cases selectErr with
    | some e => simp
    | none =>
      cases htarget : getTargetUser db complaint_id with
      | none =>
        have hno := (getTargetUser_eq_none_iff db complaint_id).1 htarget
        simp only [htarget]
        constructor
        · intro h
          cases h
        · rintro ⟨_, _, ⟨r, hr, hid⟩, _⟩
          exact absurd hid (hno r hr)
      | some target =>
        have hex : ∃ r ∈ db.complaints, r.complaint_id = complaint_id := by
          obtain ⟨pre, row, post, hsplit, _, hrow, _⟩ :=
            getTargetUser_eq_some db complaint_id target htarget
          exact ⟨row, by rw [hsplit]; simp, hrow⟩
        simp only [htarget]
        cases updateErr with
        | some e => simp
        | none =>
          by_cases hst : new_status = 2
          · simp only [hst, if_true]
            cases blockErr with
            | some e => simp
            | none =>
              cases commitErr with
              | some e => simp [Tx.Commit]
              | none =>
                exact ⟨fun _ => ⟨(by trivial), (by trivial), hex, (by trivial), (by simp), (by trivial)⟩,
                  fun _ => rfl⟩
          · simp only [if_neg hst]
            cases commitErr with
            | some e => simp [Tx.Commit]
            | none =>
              exact ⟨fun _ => ⟨(by trivial), (by trivial), hex, (by trivial), fun h => absurd h hst,
                (by trivial)⟩, fun _ => rfl⟩

/-- C24. `ComplaintRepo.HandleComplaint` is atomic. When it returns an error
the tables `complaints` and `blacklist` are as before. It returns no error
exactly when no statement fails and the complaint exists, and then both
changes are committed: every row of `complaints` keeps its `complaint_id` and
`complaint_on`, the rows of the complaint have `status = new_status` and
`closed_at` set to the current time, every other row is as before; when
`new_status` is 2 the user named by `complaint_on` in the first row of the
complaint is in `blacklist`, with one new row if the user had none and no new
row otherwise, and the rows of every other user are as before. The blacklist
changes only when `new_status` is 2, and no user gets a second row in it. -/
theorem HandleComplaint_atomic (now : Int) (faults : TxFaults) (db : ComplaintDB)
    (complaint_id new_status : Int) :
    ((ComplaintRepo.HandleComplaint now faults db complaint_id new_status).1 ≠ none →
        (ComplaintRepo.HandleComplaint now faults db complaint_id new_status).2 = db) ∧
      ((ComplaintRepo.HandleComplaint now faults db complaint_id new_status).1 = none ↔
        faults.beginErr = none ∧ faults.selectErr = none ∧
          (∃ r ∈ db.complaints, r.complaint_id = complaint_id) ∧
          faults.updateErr = none ∧ (new_status = 2 → faults.blockErr = none) ∧
          faults.commitErr = none) ∧
      ((ComplaintRepo.HandleComplaint now faults db complaint_id new_status).1 = none →
        List.Forall₂
            (fun r r' : ComplaintRow =>
              r'.complaint_id = r.complaint_id ∧ r'.complaint_on = r.complaint_on ∧
                (r.complaint_id = complaint_id →
                  r'.status = new_status ∧ r'.closed_at = some now) ∧
                (r.complaint_id ≠ complaint_id → r' = r))
            db.complaints
            (ComplaintRepo.HandleComplaint now faults db complaint_id new_status).2.complaints ∧
          (new_status = 2 →
            ∃ (pre : List ComplaintRow) (row : ComplaintRow) (post : List ComplaintRow),
              db.complaints = pre ++ row :: post ∧
                (∀ r ∈ pre, r.complaint_id ≠ complaint_id) ∧ row.complaint_id = complaint_id ∧
                row.complaint_on
                  ∈ (ComplaintRepo.HandleComplaint now faults db complaint_id
                      new_status).2.blacklist ∧
                ∀ u : Int,
                  (ComplaintRepo.HandleComplaint now faults db complaint_id
                      new_status).2.blacklist.count u
                    = if u = row.complaint_on ∧ row.complaint_on ∉ db.blacklist then 1
                      else db.blacklist.count u)) ∧
      (new_status ≠ 2 →
        (ComplaintRepo.HandleComplaint now faults db complaint_id new_status).2.blacklist
          = db.blacklist) ∧
      ∀ u : Int,
        (ComplaintRepo.HandleComplaint now faults db complaint_id new_status).2.blacklist.count u
          ≤ max 1 (db.blacklist.count u) := by
  refine ⟨?_, HandleComplaint_ok_iff now faults db complaint_id new_status, ?_⟩
  · rcases HandleComplaint_outcomes now faults db complaint_id new_status with
      ⟨err, hres⟩ | ⟨target, _, hres⟩
    · rw [hres]
      exact fun _ => rfl
    · rw [hres]
      exact fun h => absurd rfl h
  rcases HandleComplaint_outcomes now faults db complaint_id new_status with
    ⟨err, hres⟩ | ⟨target, htarget, hres⟩
  · rw [hres]
    refine ⟨fun h => ?_, fun _ => rfl, fun u => le_max_right _ _⟩
    cases h
  · rw [hres]
    refine ⟨fun _ => ⟨?_, ?_⟩, ?_, ?_⟩
    · by_cases hst : new_status = 2
      · simp only [if_pos hst]
        exact updateComplaint_rows now db new_status complaint_id
      · simp only [if_neg hst]
        exact updateComplaint_rows now db new_status complaint_id
    · intro hst
      obtain ⟨pre, row, post, hsplit, hpre, hrow, hon⟩ :=
        getTargetUser_eq_some db complaint_id target htarget
      refine ⟨pre, row, post, hsplit, hpre, hrow, ?_, ?_⟩
      · simp only [if_pos hst, hon]
        have hc := blockUser_count_eq (updateComplaint now db new_status complaint_id) target
          target
        apply List.count_pos_iff.1
        rw [hc]
        split
        · exact Nat.one_pos
        · rename_i hnot
          have hin : target ∈ (updateComplaint now db new_status complaint_id).blacklist := by
            by_contra hnin
            exact hnot ⟨rfl, hnin⟩
          exact List.count_pos_iff.2 hin
      · intro u
        simp only [if_pos hst, hon]
        exact blockUser_count_eq (updateComplaint now db new_status complaint_id) target u
    · intro hst
      simp only [if_neg hst]
      rfl
    · intro u
      by_cases hst : new_status = 2
      · simp only [if_pos hst]
        exact blockUser_count (updateComplaint now db new_status complaint_id) target u
      · simp only [if_neg hst]
        exact le_max_right _ _

/-- A run, evaluated: complaint 3 is approved at time
1000, user 8 joins the blacklist, complaint 2 and the row of user 6 are as
before. -/
theorem HandleComplaint_approves_sample :
    ComplaintRepo.HandleComplaint 1000 noFaults busyComplaintDB 3 2
      = (none, { complaints := [⟨2, 6, 1, none⟩, ⟨3, 8, 2, some 1000⟩], blacklist := [6, 8] }) := by
  decide

theorem HandleComplaint_atomic_witness :
    (ComplaintRepo.HandleComplaint 1000 noFaults busyComplaintDB 3 2).1 = none ∧
      (List.Forall₂
          (fun r r' : ComplaintRow =>
            r'.complaint_id = r.complaint_id ∧ r'.complaint_on = r.complaint_on ∧
              (r.complaint_id = 3 → r'.status = 2 ∧ r'.closed_at = some 1000) ∧
              (r.complaint_id ≠ 3 → r' = r))
          busyComplaintDB.complaints
          (ComplaintRepo.HandleComplaint 1000 noFaults busyComplaintDB 3 2).2.complaints ∧
        ((2 : Int) = 2 →
          ∃ (pre : List ComplaintRow) (row : ComplaintRow) (post : List ComplaintRow),
            busyComplaintDB.complaints = pre ++ row :: post ∧
              (∀ r ∈ pre, r.complaint_id ≠ 3) ∧ row.complaint_id = 3 ∧
              row.complaint_on
                ∈ (ComplaintRepo.HandleComplaint 1000 noFaults busyComplaintDB 3 2).2.blacklist ∧
              ∀ u : Int,
                (ComplaintRepo.HandleComplaint 1000 noFaults busyComplaintDB 3
                    2).2.blacklist.count u
                  = if u = row.complaint_on ∧ row.complaint_on ∉ busyComplaintDB.blacklist then 1
                    else busyComplaintDB.blacklist.count u)) :=
  ⟨by decide, (HandleComplaint_atomic 1000 noFaults busyComplaintDB 3 2).2.2.1 (by decide)⟩

/-! ## `GetUrlForMetrics` -/

theorem splitSlash_ne_nil (cs : List Char) : splitSlash cs ≠ [] := by
  cases cs with
  | nil => simp [splitSlash]
  | cons c cs =>
    unfold splitSlash
    split
    · simp
    · split <;> simp

theorem splitSlash_cons_of_ne (c : Char) (cs : List Char) (hc : ¬ c = '/') :
    splitSlash (c :: cs)
      = match splitSlash cs with
        | seg :: rest => (c :: seg) :: rest
        | [] => [[c]] := by
  rw [splitSlash, if_neg hc]

theorem splitSlash_no_slash (cs : List Char) : ∀ seg ∈ splitSlash cs, '/' ∉ seg := by
  induction cs with
  | nil => simp [splitSlash]
  | cons c cs ih =>
    unfold splitSlash
    by_cases hc : c = '/'
    · rw [if_pos hc]
      intro seg hseg
      rcases List.mem_cons.1 hseg with h | h
      · rw [h]; simp
      · exact ih seg h
    · rw [if_neg hc]
      cases hsp : splitSlash cs with
      | nil => exact absurd hsp (splitSlash_ne_nil cs)
      | cons first rest =>
        rw [hsp] at ih
        intro seg hseg
        rcases List.mem_cons.1 hseg with h | h
        · rw [h]
          intro hmem
          rcases List.mem_cons.1 hmem with h1 | h1
          · exact hc h1.symm
          · exact ih first (List.mem_cons_self _ _) h1
        · exact ih seg (List.mem_cons_of_mem _ h)

theorem splitSlash_of_no_slash (seg : List Char) (h : '/' ∉ seg) : splitSlash seg = [seg] := by
  induction seg with
  | nil => rfl
  | cons c cs ih =>
    have hc : ¬ c = '/' := fun hc => h (hc ▸ List.mem_cons_self _ _)
    have hcs : '/' ∉ cs := fun hm => h (List.mem_cons_of_mem _ hm)
    rw [splitSlash_cons_of_ne c cs hc, ih hcs]

theorem splitSlash_append_slash (seg rest : List Char) (h : '/' ∉ seg) :
    splitSlash (seg ++ '/' :: rest) = seg :: splitSlash rest := by
  induction seg with
  | nil => simp [splitSlash]
  | cons c cs ih =>
    have hc : ¬ c = '/' := fun hc => h (hc ▸ List.mem_cons_self _ _)
    have hcs : '/' ∉ cs := fun hm => h (List.mem_cons_of_mem _ hm)
    rw [List.cons_append, splitSlash_cons_of_ne c _ hc, ih hcs]

theorem splitSlash_joinSlash (segs : List (List Char)) (hne : segs ≠ [])
    (hno : ∀ seg ∈ segs, '/' ∉ seg) : splitSlash (joinSlash segs) = segs := by
  induction segs with
  | nil => exact absurd rfl hne
  | cons seg rest ih =>
    have hseg := hno seg (List.mem_cons_self _ _)
    cases rest with
    | nil => exact splitSlash_of_no_slash seg hseg
    | cons next rest =>
      have ih' := ih (by simp) (fun s hs => hno s (List.mem_cons_of_mem _ hs))
      show splitSlash (seg ++ '/' :: joinSlash (next :: rest)) = seg :: next :: rest
      rw [splitSlash_append_slash seg _ hseg, ih']

theorem replaceDigits_no_slash (seg : List Char) (h : '/' ∉ seg) : '/' ∉ replaceDigits seg := by
  unfold replaceDigits
  split
  · decide
  · exact h

theorem replaceDigits_idempotent (seg : List Char) :
    replaceDigits (replaceDigits seg) = replaceDigits seg := by
  unfold replaceDigits
  by_cases h : matchDigits seg = true
  · have hp : matchDigits digitsPlaceholder.data = false := by decide
    simp [h, hp]
  · simp [h]

theorem matchDigits_iff (s : List Char) :
    matchDigits s = true ↔ s ≠ [] ∧ ∀ c ∈ s, '0' ≤ c ∧ c ≤ '9' := by
  unfold matchDigits
  simp only [Bool.and_eq_true, Bool.not_eq_true', List.isEmpty_eq_false, List.all_eq_true]
  constructor
  · rintro ⟨h1, h2⟩
    refine ⟨h1, fun c hc => ?_⟩
    have := h2 c hc
    simp only [Char.isDigit, Bool.and_eq_true, decide_eq_true_eq] at this
    exact ⟨this.1, this.2⟩
  · rintro ⟨h1, h2⟩
    refine ⟨h1, fun c hc => ?_⟩
    have := h2 c hc
    simp only [Char.isDigit, Bool.and_eq_true, decide_eq_true_eq]
    exact ⟨this.1, this.2⟩

/-- The segments of the result are the segments of the input, each replaced
or kept. -/
theorem GetUrlForMetrics_segments (url : String) :
    splitSlash (GetUrlForMetrics url).data = (splitSlash url.data).map replaceDigits := by
  unfold GetUrlForMetrics
  apply splitSlash_joinSlash
  · intro h
    exact splitSlash_ne_nil url.data (List.map_eq_nil_iff.1 h)
  · intro seg hseg
    obtain ⟨s, hs, rfl⟩ := List.mem_map.1 hseg
    exact replaceDigits_no_slash s (splitSlash_no_slash url.data s hs)

/-- The embedding of `strings.Split(s, "/")` is the library function
`List.splitOn '/'`. -/
theorem splitSlash_eq_splitOn (cs : List Char) : splitSlash cs = cs.splitOn '/' := by
  induction cs with
  | nil => rfl
  | cons c cs ih =>
    have hne := splitSlash_ne_nil cs
    unfold List.splitOn at ih ⊢
    rw [List.splitOnP_cons, ← ih]
    by_cases hc : c = '/'
    · rw [splitSlash, if_pos hc]
      simp [hc]
    · rw [splitSlash_cons_of_ne c cs hc]
      have hb : (c == '/') = false := by simpa using hc
      rw [hb]
      cases hsp : splitSlash cs with
      | nil => exact absurd hsp hne
      | cons seg rest => rfl

/-- The embedding of `strings.Join(segments, "/")` is the library function
`List.intercalate` with the separator `/`. -/
theorem joinSlash_eq_intercalate (segs : List (List Char)) :
    joinSlash segs = ['/'].intercalate segs := by
  induction segs with
  | nil => rfl
  | cons seg rest ih =>
    cases rest with
    | nil => simp [joinSlash, List.intercalate]
    | cons next rest =>
      rw [joinSlash, ih]
      simp [List.intercalate, List.intersperse]

/-- The replacement made by the loop, stated on the characters of a segment. -/
theorem replaceDigits_eq (seg : List Char) :
    replaceDigits seg
      = if seg ≠ [] ∧ ∀ c ∈ seg, '0' ≤ c ∧ c ≤ '9' then "\x7bdigits\x7d".data else seg := by
  unfold replaceDigits
  by_cases h : matchDigits seg = true
  · rw [if_pos h, if_pos ((matchDigits_iff seg).1 h)]
    rfl
  · rw [if_neg h, if_neg (fun hc => h ((matchDigits_iff seg).2 hc))]

/-- `GetUrlForMetrics` in terms of the library functions `List.splitOn` and
`List.intercalate`. -/
theorem GetUrlForMetrics_eq (url : String) :
    GetUrlForMetrics url
      = String.mk (['/'].intercalate ((url.data.splitOn '/').map (fun seg =>
          if seg ≠ [] ∧ ∀ c ∈ seg, '0' ≤ c ∧ c ≤ '9' then "\x7bdigits\x7d".data else seg))) := by
  unfold GetUrlForMetrics
  rw [joinSlash_eq_intercalate, splitSlash_eq_splitOn]
  congr 2
  apply List.map_congr_left
  intro seg _
  exact replaceDigits_eq seg

/-- Three inputs, evaluated: a leading slash gives an empty first segment, a
segment of digits is replaced, a segment with a letter is kept, and the empty
text is returned as it is. -/
theorem GetUrlForMetrics_sample :
    GetUrlForMetrics "/users/42" = "/users/\x7bdigits\x7d" ∧
      GetUrlForMetrics "/chat/7a//15/" = "/chat/7a//\x7bdigits\x7d/" ∧
      GetUrlForMetrics "" = "" := by
  decide

/-- C30. `GetUrlForMetrics` replaces exactly the `/`-separated segments of its
input that are non-empty and consist only of decimal digits by the text
`{digits}`, and leaves every other segment and the number of segments
unchanged: on the text made of the segments `segs` (none of which contains a
`/`) joined by `/` it returns the text made of the same segments, each
replaced or kept, joined by `/`; every input is such a text, its segments
being those given by `List.splitOn '/'`, and the segments of the result are
the segments of the input, each replaced or kept. It is idempotent. -/
theorem GetUrlForMetrics_replaces_digit_segments :
    (∀ segs : List (List Char), segs ≠ [] → (∀ seg ∈ segs, '/' ∉ seg) →
        GetUrlForMetrics (String.mk (['/'].intercalate segs))
          = String.mk (['/'].intercalate (segs.map (fun seg =>
              if seg ≠ [] ∧ ∀ c ∈ seg, '0' ≤ c ∧ c ≤ '9' then "\x7bdigits\x7d".data
              else seg)))) ∧
      (∀ url : String,
        GetUrlForMetrics url
          = String.mk (['/'].intercalate ((url.data.splitOn '/').map (fun seg =>
              if seg ≠ [] ∧ ∀ c ∈ seg, '0' ≤ c ∧ c ≤ '9' then "\x7bdigits\x7d".data
              else seg)))) ∧
      (∀ url : String,
        (GetUrlForMetrics url).data.splitOn '/'
            = (url.data.splitOn '/').map (fun seg =>
                if seg ≠ [] ∧ ∀ c ∈ seg, '0' ≤ c ∧ c ≤ '9' then "\x7bdigits\x7d".data
                else seg) ∧
          ((GetUrlForMetrics url).data.splitOn '/').length = (url.data.splitOn '/').length) ∧
      ∀ url : String, GetUrlForMetrics (GetUrlForMetrics url) = GetUrlForMetrics url := by
  have hsegs : ∀ url : String,
      (GetUrlForMetrics url).data.splitOn '/'
        = (url.data.splitOn '/').map (fun seg =>
            if seg ≠ [] ∧ ∀ c ∈ seg, '0' ≤ c ∧ c ≤ '9' then "\x7bdigits\x7d".data
            else seg) := by
    intro url
    rw [← splitSlash_eq_splitOn, ← splitSlash_eq_splitOn, GetUrlForMetrics_segments]
    apply List.map_congr_left
    intro seg _
    exact replaceDigits_eq seg
  refine ⟨?_, GetUrlForMetrics_eq, ?_, ?_⟩
  · intro segs hne hno
    rw [GetUrlForMetrics_eq]
    show String.mk (['/'].intercalate ((List.splitOn '/' (['/'].intercalate segs)).map _)) = _
    rw [List.splitOn_intercalate segs '/' hno hne]
  · intro url
    refine ⟨hsegs url, ?_⟩
    rw [hsegs url, List.length_map]
  · intro url
    have hseg := GetUrlForMetrics_segments url
    show String.mk (joinSlash ((splitSlash (GetUrlForMetrics url).data).map replaceDigits))
      = GetUrlForMetrics url
    rw [hseg, List.map_map]
    have : (replaceDigits ∘ replaceDigits) = replaceDigits := by
      funext seg
      exact replaceDigits_idempotent seg
    rw [this]
    rfl

theorem GetUrlForMetrics_replaces_digit_segments_witness :
    GetUrlForMetrics "/users/42/photos/7a" = "/users/\x7bdigits\x7d/photos/7a" :=
  GetUrlForMetrics_replaces_digit_segments.1
    [[], "users".data, "42".data, "photos".data, "7a".data] (by decide) (by decide)

end Handlers
